import Mathlib

/-!
# Windows gamepad backend

A shallow embedding of `internal/gamepad/gamepad_windows.go` and of the
declarations of `internal/gamepad/api_windows.go` it uses.

Conventions of the embedding:

* Go integers are `Nat` (unsigned types, counters) or `Int` (signed types,
  query indices); a conversion `byte(x)` is `x % 256`.
* `float64` arithmetic is exact arithmetic over `ℚ`.
* A Go string whose bytes the code reads (a device name) is the list of its
  bytes; the result of `fmt.Sprintf` is a `String`.
* A runtime panic (index out of range) is the result `none`.
* A `nil` pointer is `none`; a non-nil pointer is `some` of a handle number.
* Results of operating-system calls are inputs of the functions that make
  the calls.
-/

namespace Gamepad

/-! ## Declarations of api_windows.go -/

/-- The type `windows.GUID`; `Data4` is the eight-byte array. -/
structure GUID where
  Data1 : Nat
  Data2 : Nat
  Data3 : Nat
  Data4 : List Nat
deriving DecidableEq, Repr

def DI_OK : Nat := 0
def SI_FALSE : Nat := 1
def DI_NOEFFECT : Nat := SI_FALSE
def DI_PROPNOEFFECT : Nat := SI_FALSE
def DI_DEGREES : Nat := 100

def DIDFT_AXIS : Nat := 0x00000003
def DIDFT_BUTTON : Nat := 0x0000000C
def DIDFT_POV : Nat := 0x00000010

def DIENUM_STOP : Nat := 0
def DIENUM_CONTINUE : Nat := 1

/-- `windows.SEVERITY_ERROR<<31 | windows.FACILITY_WIN32<<16 | windows.ERROR_READ_FAULT` -/
def DIERR_INPUTLOST : Nat := 1 <<< 31 ||| 7 <<< 16 ||| 30
/-- `windows.SEVERITY_ERROR<<31 | windows.FACILITY_WIN32<<16 | windows.ERROR_INVALID_ACCESS` -/
def DIERR_NOTACQUIRED : Nat := 1 <<< 31 ||| 7 <<< 16 ||| 12

/-- `windows.ERROR_SUCCESS` -/
def ERROR_SUCCESS : Nat := 0
/-- `windows.ERROR_DEVICE_NOT_CONNECTED` -/
def ERROR_DEVICE_NOT_CONNECTED : Nat := 1167

def RIM_TYPEHID : Nat := 2
def WM_DEVICECHANGE : Nat := 0x0219

def XINPUT_CAPS_WIRELESS : Nat := 0x0002

def XINPUT_DEVSUBTYPE_GAMEPAD : Nat := 0x01
def XINPUT_DEVSUBTYPE_WHEEL : Nat := 0x02
def XINPUT_DEVSUBTYPE_ARCADE_STICK : Nat := 0x03
def XINPUT_DEVSUBTYPE_FLIGHT_STICK : Nat := 0x04
def XINPUT_DEVSUBTYPE_DANCE_PAD : Nat := 0x05
def XINPUT_DEVSUBTYPE_GUITAR : Nat := 0x06
def XINPUT_DEVSUBTYPE_DRUM_KIT : Nat := 0x08

def XINPUT_GAMEPAD_DPAD_UP : Nat := 0x0001
def XINPUT_GAMEPAD_DPAD_DOWN : Nat := 0x0002
def XINPUT_GAMEPAD_DPAD_LEFT : Nat := 0x0004
def XINPUT_GAMEPAD_DPAD_RIGHT : Nat := 0x0008
def XINPUT_GAMEPAD_START : Nat := 0x0010
def XINPUT_GAMEPAD_BACK : Nat := 0x0020
def XINPUT_GAMEPAD_LEFT_THUMB : Nat := 0x0040
def XINPUT_GAMEPAD_RIGHT_THUMB : Nat := 0x0080
def XINPUT_GAMEPAD_LEFT_SHOULDER : Nat := 0x0100
def XINPUT_GAMEPAD_RIGHT_SHOULDER : Nat := 0x0200
def XINPUT_GAMEPAD_A : Nat := 0x1000
def XINPUT_GAMEPAD_B : Nat := 0x2000
def XINPUT_GAMEPAD_X : Nat := 0x4000
def XINPUT_GAMEPAD_Y : Nat := 0x8000

/-- `func diDftGetType(n uint32) byte { return byte(n) }` -/
def diDftGetType (n : Nat) : Nat := n % 256

def guidData4 : List Nat := [0xbf, 0xc7, 0x44, 0x45, 0x53, 0x54, 0x00, 0x00]
def guidXAxis : GUID := ⟨0xa36d02e0, 0xc9f3, 0x11cf, guidData4⟩
def guidYAxis : GUID := ⟨0xa36d02e1, 0xc9f3, 0x11cf, guidData4⟩
def guidZAxis : GUID := ⟨0xa36d02e2, 0xc9f3, 0x11cf, guidData4⟩
def guidRxAxis : GUID := ⟨0xa36d02f4, 0xc9f3, 0x11cf, guidData4⟩
def guidRyAxis : GUID := ⟨0xa36d02f5, 0xc9f3, 0x11cf, guidData4⟩
def guidRzAxis : GUID := ⟨0xa36d02e3, 0xc9f3, 0x11cf, guidData4⟩
def guidSlider : GUID := ⟨0xa36d02e4, 0xc9f3, 0x11cf, guidData4⟩
def guidPOV : GUID := ⟨0xa36d02f2, 0xc9f3, 0x11cf, guidData4⟩

/-- The report `diJoyState`: six `int32` axes, `[2]int32` sliders,
`[4]uint32` points of view, `[32]byte` buttons. -/
structure diJoyState where
  lX : Int
  lY : Int
  lZ : Int
  lRx : Int
  lRy : Int
  lRz : Int
  rglSlider : Fin 2 → Int
  rgdwPOV : Fin 4 → Nat
  rgbButtons : Fin 32 → Nat

/-- The zero value of `diJoyState` (`var state diJoyState`). -/
def diJoyState.zero : diJoyState :=
  ⟨0, 0, 0, 0, 0, 0, fun _ => 0, fun _ => 0, fun _ => 0⟩

/-- The struct `xinputGamepad`: `wButtons uint16`, two `byte` triggers,
four `int16` thumb-stick fields. -/
structure xinputGamepad where
  wButtons : Nat
  bLeftTrigger : Nat
  bRightTrigger : Nat
  sThumbLX : Int
  sThumbLY : Int
  sThumbRX : Int
  sThumbRY : Int
deriving DecidableEq, Repr

/-- The struct `xinputState`. -/
structure xinputState where
  dwPacketNumber : Nat
  Gamepad : xinputGamepad
deriving DecidableEq, Repr

/-- The zero value of `xinputState`. -/
def xinputState.zero : xinputState := ⟨0, ⟨0, 0, 0, 0, 0, 0, 0⟩⟩

/-- The fields of `xinputCapabilities` that discovery reads. -/
structure xinputCapabilities where
  typ : Nat
  subType : Nat
  flags : Nat
deriving DecidableEq, Repr

/-- The values a well-typed `xinputGamepad` can hold. -/
def xinputGamepad.InRange (p : xinputGamepad) : Prop :=
  p.wButtons < 65536 ∧ p.bLeftTrigger < 256 ∧ p.bRightTrigger < 256 ∧
  (-32768 ≤ p.sThumbLX ∧ p.sThumbLX ≤ 32767) ∧
  (-32768 ≤ p.sThumbLY ∧ p.sThumbLY ≤ 32767) ∧
  (-32768 ≤ p.sThumbRX ∧ p.sThumbRX ≤ 32767) ∧
  (-32768 ≤ p.sThumbRY ∧ p.sThumbRY ≤ 32767)

instance (p : xinputGamepad) : Decidable p.InRange := by
  unfold xinputGamepad.InRange; infer_instance

/-! ## Hat constants -/

/-- Modelled from the spec: the hat constants `hatCentered`, `hatUp`, ... are
declared in a file of the package that is not under src/ (gamepad.go). The
spec names nine positions, centered plus eight directions, with centered the
neutral value 0; `hatState` composes a direction with `v |= hatUp` etc., so
the four cardinal directions are the bit flags 1, 2, 4, 8 (the GLFW hat
convention) and a diagonal is the union of its two cardinals. -/
def hatCentered : Nat := 0
/-- Modelled from the spec: see `hatCentered`. -/
def hatUp : Nat := 1
/-- Modelled from the spec: see `hatCentered`. -/
def hatRight : Nat := 2
/-- Modelled from the spec: see `hatCentered`. -/
def hatDown : Nat := 4
/-- Modelled from the spec: see `hatCentered`. -/
def hatLeft : Nat := 8
/-- Modelled from the spec: see `hatCentered`. -/
def hatRightUp : Nat := hatRight ||| hatUp
/-- Modelled from the spec: see `hatCentered`. -/
def hatRightDown : Nat := hatRight ||| hatDown
/-- Modelled from the spec: see `hatCentered`. -/
def hatLeftUp : Nat := hatLeft ||| hatUp
/-- Modelled from the spec: see `hatCentered`. -/
def hatLeftDown : Nat := hatLeft ||| hatDown

/-- The nine hat positions of the spec. -/
def hatPositions : List Nat :=
  [hatCentered, hatUp, hatRightUp, hatRight, hatRightDown, hatDown, hatLeftDown, hatLeft,
    hatLeftUp]

/-! ## gamepad_windows.go: types -/

/-- The enumeration `dinputObjectType` (`iota` order). -/
inductive dinputObjectType where
  | dinputObjectTypeAxis
  | dinputObjectTypeSlider
  | dinputObjectTypeButton
  | dinputObjectTypePOV
deriving DecidableEq, Repr

open dinputObjectType

/-- The integer value of a `dinputObjectType`. -/
def dinputObjectType.toNat : dinputObjectType → Nat
  | dinputObjectTypeAxis => 0
  | dinputObjectTypeSlider => 1
  | dinputObjectTypeButton => 2
  | dinputObjectTypePOV => 3

/-- The struct `dinputObject`. -/
structure dinputObject where
  objectType : dinputObjectType
  index : Nat
deriving DecidableEq, Repr

/-- The variable `xinputButtons`. -/
def xinputButtons : List Nat :=
  [XINPUT_GAMEPAD_A, XINPUT_GAMEPAD_B, XINPUT_GAMEPAD_X, XINPUT_GAMEPAD_Y,
    XINPUT_GAMEPAD_LEFT_SHOULDER, XINPUT_GAMEPAD_RIGHT_SHOULDER, XINPUT_GAMEPAD_BACK,
    XINPUT_GAMEPAD_START, XINPUT_GAMEPAD_LEFT_THUMB, XINPUT_GAMEPAD_RIGHT_THUMB]

/-- The struct `nativeGamepad`. `dinputDevice` is the device pointer. -/
structure nativeGamepad where
  dinputDevice : Option Nat
  dinputObjects : List dinputObject
  dinputGUID : GUID
  dinputAxes : List ℚ
  dinputButtons : List Bool
  dinputHats : List Nat
  xinputIndex : Int
  xinputState : xinputState

/-- Go's `xs[i]` on a slice: `none` is the index-out-of-range panic. -/
def goIndex {α : Type} (xs : List α) (i : Int) : Option α :=
  if i < 0 then none else xs[i.toNat]?

/-- Go's `xs[i] = v` on a slice: `none` is the index-out-of-range panic. -/
def goAssign {α : Type} (xs : List α) (i : Nat) (v : α) : Option (List α) :=
  if i < xs.length then some (xs.set i v) else none

/-- The normalization `(float64(v) + 0.5) / 32767.5` of a raw axis value. -/
def normalizeAxis (v : Int) : ℚ := ((v : ℚ) + 0.5) / 32767.5

/-! ## gamepad_windows.go: the query surface of `nativeGamepad` -/

def nativeGamepad.usesDInput (g : nativeGamepad) : Bool :=
  g.dinputDevice.isSome

def nativeGamepad.axisCount (g : nativeGamepad) : Int :=
  if g.usesDInput then (g.dinputAxes.length : Int) else 6

def nativeGamepad.buttonCount (g : nativeGamepad) : Int :=
  if g.usesDInput then (g.dinputButtons.length : Int) else (xinputButtons.length : Int)

def nativeGamepad.hatCount (g : nativeGamepad) : Int :=
  if g.usesDInput then (g.dinputHats.length : Int) else 1

def nativeGamepad.axisValue (g : nativeGamepad) (axis : Int) : Option ℚ :=
  if g.usesDInput then
    if axis < 0 ∨ axis ≥ (g.dinputAxes.length : Int) then some 0
    else goIndex g.dinputAxes axis
  else
    some (
      if axis = 0 then ((g.xinputState.Gamepad.sThumbLX : ℚ) + 0.5) / 32767.5
      else if axis = 1 then -((g.xinputState.Gamepad.sThumbLY : ℚ) + 0.5) / 32767.5
      else if axis = 2 then ((g.xinputState.Gamepad.sThumbRX : ℚ) + 0.5) / 32767.5
      else if axis = 3 then -((g.xinputState.Gamepad.sThumbRY : ℚ) + 0.5) / 32767.5
      else if axis = 4 then (g.xinputState.Gamepad.bLeftTrigger : ℚ) / 127.5 - 1.0
      else if axis = 5 then (g.xinputState.Gamepad.bRightTrigger : ℚ) / 127.5 - 1.0
      else 0)

def nativeGamepad.isButtonPressed (g : nativeGamepad) (button : Int) : Option Bool :=
  if g.usesDInput then
    if button < 0 ∨ button ≥ (g.dinputButtons.length : Int) then some false
    else goIndex g.dinputButtons button
  else
    if button < 0 ∨ button ≥ (xinputButtons.length : Int) then some false
    else (goIndex xinputButtons button).map
      (fun b => decide (g.xinputState.Gamepad.wButtons &&& b ≠ 0))

def nativeGamepad.hatState (g : nativeGamepad) (hat : Int) : Option Nat :=
  if g.usesDInput then goIndex g.dinputHats hat
  else if hat ≠ 0 then some 0
  else
    let v : Nat := 0
    let v := if g.xinputState.Gamepad.wButtons &&& XINPUT_GAMEPAD_DPAD_UP ≠ 0
      then v ||| hatUp else v
    let v := if g.xinputState.Gamepad.wButtons &&& XINPUT_GAMEPAD_DPAD_RIGHT ≠ 0
      then v ||| hatRight else v
    let v := if g.xinputState.Gamepad.wButtons &&& XINPUT_GAMEPAD_DPAD_DOWN ≠ 0
      then v ||| hatDown else v
    let v := if g.xinputState.Gamepad.wButtons &&& XINPUT_GAMEPAD_DPAD_LEFT ≠ 0
      then v ||| hatLeft else v
    some v

/-! ## gamepad_windows.go: polling -/

/-- A Go `error` as far as the code tells errors apart: the code wrapped by
the failing call, a `directInputError` or a `syscall.Errno`, or an error
that wraps nothing, by its message. -/
inductive GoError where
  | directInputError (code : Nat)
  | errno (code : Nat)
  | other (message : String)
deriving DecidableEq, Repr

/-- The method `iDirectInputDevice8W.Poll`, from the raw result `r` of the system call. -/
def iDirectInputDevice8W.Poll (r : Nat) : Option GoError :=
  if r ≠ DI_OK ∧ r ≠ DI_NOEFFECT then some (GoError.directInputError (r % 2 ^ 32)) else none

/-- The method `iDirectInputDevice8W.GetDeviceState`, from the raw result `r`. -/
def iDirectInputDevice8W.GetDeviceState (r : Nat) : Option GoError :=
  if r ≠ DI_OK then some (GoError.directInputError (r % 2 ^ 32)) else none

/-- The method `iDirectInputDevice8W.Acquire`, from the raw result `r`. -/
def iDirectInputDevice8W.Acquire (r : Nat) : Option GoError :=
  if r ≠ DI_OK ∧ r ≠ SI_FALSE then some (GoError.directInputError (r % 2 ^ 32)) else none

/-- The method `iDirectInputDevice8W.SetProperty`, from the raw result `r`. -/
def iDirectInputDevice8W.SetProperty (r : Nat) : Option GoError :=
  if r ≠ DI_OK ∧ r ≠ DI_PROPNOEFFECT then some (GoError.directInputError (r % 2 ^ 32))
  else none

/-- The method `nativeGamepads.xinputGetState`, from the raw result `r`. -/
def xinputGetState (r : Nat) : Option GoError :=
  if r ≠ ERROR_SUCCESS then some (GoError.errno r) else none

/-- The test `!errors.Is(err, directInputError(_DIERR_NOTACQUIRED)) &&
!errors.Is(err, directInputError(_DIERR_INPUTLOST))` of `update`. -/
def notTransient (err : GoError) : Bool :=
  !(err = GoError.directInputError DIERR_NOTACQUIRED) &&
    !(err = GoError.directInputError DIERR_INPUTLOST)

/-- What the operating system answers to the calls one `nativeGamepad.update`
makes, in call order: raw results of `Poll`, `GetDeviceState`, `Acquire`,
`Poll`, `GetDeviceState` with the report each successful read delivers, and
the raw result and report of `XInputGetState`. -/
structure pollEnv where
  poll1 : Nat
  getState1 : Nat
  state1 : diJoyState
  acquire : Nat
  poll2 : Nat
  getState2 : Nat
  state2 : diJoyState
  xinputResult : Nat
  xinputReport : xinputState

/-- The state of the loop `for _, obj := range g.dinputObjects` of `update`:
the adapter and the counters `ai`, `bi`, `hi`. -/
structure walkState where
  g : nativeGamepad
  ai : Nat
  bi : Nat
  hi : Nat

/-- The inner `switch obj.index` of the axis case of `update`: the report
field an axis index selects (`var v int32` stays 0 for any other index). -/
def axisField (state : diJoyState) (index : Nat) : Int :=
  if index = 0 then state.lX
  else if index = 1 then state.lY
  else if index = 2 then state.lZ
  else if index = 3 then state.lRx
  else if index = 4 then state.lRy
  else if index = 5 then state.lRz
  else 0

/-- The point-of-view case of `update`: from the raw value `state.rgdwPOV[obj.index]`,
`stateIndex := raw / (45 * _DI_DEGREES)` (`uint32` division) and the
`switch stateIndex` that starts from `v := hatCentered`. -/
def hatOfPOV (raw : Nat) : Nat :=
  let stateIndex : Nat := raw / (45 * DI_DEGREES)
  if stateIndex = 0 then hatUp
  else if stateIndex = 1 then hatRightUp
  else if stateIndex = 2 then hatRight
  else if stateIndex = 3 then hatRightDown
  else if stateIndex = 4 then hatDown
  else if stateIndex = 5 then hatLeftDown
  else if stateIndex = 6 then hatLeft
  else if stateIndex = 7 then hatLeftUp
  else hatCentered

/-- The body of the loop `for _, obj := range g.dinputObjects` of `update`;
`none` is a runtime panic. -/
def updateObject (state : diJoyState) (w : walkState) (obj : dinputObject) :
    Option walkState :=
  match obj.objectType with
  | dinputObjectTypeAxis =>
    let v : Int := axisField state obj.index
    (goAssign w.g.dinputAxes w.ai (((v : ℚ) + 0.5) / 32767.5)).map fun axes =>
      { w with g := { w.g with dinputAxes := axes }, ai := w.ai + 1 }
  | dinputObjectTypeSlider =>
    if h : obj.index < 2 then
      let v : Int := state.rglSlider ⟨obj.index, h⟩
      (goAssign w.g.dinputAxes w.ai (((v : ℚ) + 0.5) / 32767.5)).map fun axes =>
        { w with g := { w.g with dinputAxes := axes }, ai := w.ai + 1 }
    else none
  | dinputObjectTypeButton =>
    if h : obj.index < 32 then
      let v : Bool := decide (state.rgbButtons ⟨obj.index, h⟩ &&& 0x80 ≠ 0)
      (goAssign w.g.dinputButtons w.bi v).map fun buttons =>
        { w with g := { w.g with dinputButtons := buttons }, bi := w.bi + 1 }
    else none
  | dinputObjectTypePOV =>
    if h : obj.index < 4 then
      let v : Nat := hatOfPOV (state.rgdwPOV ⟨obj.index, h⟩)
      (goAssign w.g.dinputHats w.hi v).map fun hats =>
        { w with g := { w.g with dinputHats := hats }, hi := w.hi + 1 }
    else none

/-- The loop over `g.dinputObjects`, from the counters in `w`. -/
def updateObjects (state : diJoyState) : walkState → List dinputObject → Option walkState
  | w, [] => some w
  | w, obj :: objs =>
    match updateObject state w obj with
    | none => none
    | some w1 => updateObjects state w1 objs

/-- The report a successful DirectInput poll reads: that of the first
`GetDeviceState` when it succeeds, that of the second otherwise. -/
def pollEnv.report (env : pollEnv) : diJoyState :=
  if iDirectInputDevice8W.GetDeviceState env.getState1 = none then env.state1 else env.state2

/-- What one call of `nativeGamepad.update` leaves behind: the adapter, the
returned error, and the local `disconnected` the deferred function reads. -/
structure updateResult where
  g : nativeGamepad
  err : Option GoError
  disconnected : Bool

/-- The condition under which the deferred function of `update` calls
`gamepads.remove` for this adapter. -/
def updateResult.removes (r : updateResult) : Bool :=
  !(!r.disconnected && r.err.isNone)

/-- The method `nativeGamepad.update`; `none` is a runtime panic. -/
def nativeGamepad.update (g : nativeGamepad) (env : pollEnv) : Option updateResult :=
  let walk (state : diJoyState) : Option updateResult :=
    (updateObjects state ⟨g, 0, 0, 0⟩ g.dinputObjects).map fun w => ⟨w.g, none, false⟩
  if g.usesDInput then
    match (iDirectInputDevice8W.Poll env.poll1).filter notTransient with
    | some err => some ⟨g, some err, false⟩
    | none =>
      match iDirectInputDevice8W.GetDeviceState env.getState1 with
      | none => walk env.state1
      | some err =>
        if notTransient err then some ⟨g, some err, false⟩
        else
          match (iDirectInputDevice8W.Poll env.poll2).filter notTransient with
          | some err => some ⟨g, some err, false⟩
          | none =>
            match iDirectInputDevice8W.GetDeviceState env.getState2 with
            | none => walk env.state2
            | some err =>
              if notTransient err then some ⟨g, some err, false⟩
              else some ⟨g, none, true⟩
  else
    match xinputGetState env.xinputResult with
    | some err =>
      if !(err = GoError.errno ERROR_DEVICE_NOT_CONNECTED) then some ⟨g, some err, false⟩
      else some ⟨g, none, true⟩
    | none => some ⟨{ g with xinputState := env.xinputReport }, none, false⟩

/-! ## gamepad_windows.go: discovery -/

/-- The struct `enumObjectsContext`. -/
structure enumObjectsContext where
  device : Nat
  objects : List dinputObject
  axisCount : Nat
  sliderCount : Nat
  buttonCount : Nat
  povCount : Nat
deriving DecidableEq, Repr

/-- An object reported to `dinputDevice8EnumObjectsCallback`: the fields of
`diDeviceObjectInstanceW` the callback reads, and the raw result the device
gives to the `SetProperty(_DIPROP_RANGE)` call made for this object. -/
structure objectReport where
  guidType : GUID
  dwType : Nat
  setRangeResult : Nat
deriving DecidableEq, Repr

/-- The `switch lpddoi.guidType` of the axis case of
`dinputDevice8EnumObjectsCallback`: the value given to `index`, or `none` for
the `default` case, which returns at once. -/
def axisIndex (guidType : GUID) (sliderCount : Nat) : Option Nat :=
  if guidType = guidSlider then some sliderCount
  else if guidType = guidXAxis then some 0
  else if guidType = guidYAxis then some 1
  else if guidType = guidZAxis then some 2
  else if guidType = guidRxAxis then some 3
  else if guidType = guidRyAxis then some 4
  else if guidType = guidRzAxis then some 5
  else none

/-- The method `nativeGamepads.dinputDevice8EnumObjectsCallback`: the new
context and the returned code. -/
def dinputDevice8EnumObjectsCallback (lpddoi : objectReport) (ctx : enumObjectsContext) :
    enumObjectsContext × Nat :=
  if diDftGetType lpddoi.dwType &&& DIDFT_AXIS ≠ 0 then
    match axisIndex lpddoi.guidType ctx.sliderCount with
    | none => (ctx, DIENUM_CONTINUE)
    | some index =>
      match iDirectInputDevice8W.SetProperty lpddoi.setRangeResult with
      | some _ => (ctx, DIENUM_CONTINUE)
      | none =>
        if lpddoi.guidType = guidSlider then
          ({ ctx with
              sliderCount := ctx.sliderCount + 1
              objects := ctx.objects ++ [⟨dinputObjectTypeSlider, index⟩] }, DIENUM_CONTINUE)
        else
          ({ ctx with
              axisCount := ctx.axisCount + 1
              objects := ctx.objects ++ [⟨dinputObjectTypeAxis, index⟩] }, DIENUM_CONTINUE)
  else if diDftGetType lpddoi.dwType &&& DIDFT_BUTTON ≠ 0 then
    ({ ctx with
        objects := ctx.objects ++ [⟨dinputObjectTypeButton, ctx.buttonCount⟩]
        buttonCount := ctx.buttonCount + 1 }, DIENUM_CONTINUE)
  else if diDftGetType lpddoi.dwType &&& DIDFT_POV ≠ 0 then
    ({ ctx with
        objects := ctx.objects ++ [⟨dinputObjectTypePOV, ctx.povCount⟩]
        povCount := ctx.povCount + 1 }, DIENUM_CONTINUE)
  else (ctx, DIENUM_CONTINUE)

/-- The device's `EnumObjects`: it calls the callback on each object it
reports, in order, until the callback answers `_DIENUM_STOP`. -/
def enumObjects : List objectReport → enumObjectsContext → enumObjectsContext
  | [], ctx => ctx
  | o :: os, ctx =>
    let r := dinputDevice8EnumObjectsCallback o ctx
    if r.2 = DIENUM_STOP then r.1 else enumObjects os r.1

/-- The `less` function given to `sort.Slice` in `dinput8EnumDevicesCallback`. -/
def objectLess (a b : dinputObject) : Bool :=
  if a.objectType ≠ b.objectType then decide (a.objectType.toNat < b.objectType.toNat)
  else decide (a.index < b.index)

/-- The call `sort.Slice(ctx.objects, less)`. A descriptor is determined by
its key (objectType, index), on which `less` is a strict total order, so
every correct sort returns the same slice; it is computed by insertion. -/
def sortObjects (objects : List dinputObject) : List dinputObject :=
  objects.insertionSort (fun a b => objectLess b a = false)

/-- The fields `dinput8EnumDevicesCallback` sets on the entry `gamepads.add`
returns, for the device pointer `device`, the enumeration context after
`EnumObjects` and the instance GUID. The other fields keep their zero value. -/
def newDInputGamepad (device : Nat) (ctx : enumObjectsContext) (guidInstance : GUID) :
    nativeGamepad where
  dinputDevice := some device
  dinputObjects := sortObjects ctx.objects
  dinputGUID := guidInstance
  dinputAxes := List.replicate (ctx.axisCount + ctx.sliderCount) 0
  dinputButtons := List.replicate ctx.buttonCount false
  dinputHats := List.replicate ctx.povCount 0
  xinputIndex := 0
  xinputState := xinputState.zero

/-- The adapter `dinput8EnumDevicesCallback` creates for a device whose
`EnumObjects` reports `reports`. -/
def discoverDInputGamepad (device : Nat) (reports : List objectReport) (guidInstance : GUID) :
    nativeGamepad :=
  newDInputGamepad device (enumObjects reports ⟨device, [], 0, 0, 0, 0⟩) guidInstance

/-- The entry `detectConnection` creates for XInput slot `i`: `gamepads.add`
returns a zero adapter and `gp.xinputIndex = i` is set. -/
def newXInputGamepad (i : Int) : nativeGamepad where
  dinputDevice := none
  dinputObjects := []
  dinputGUID := ⟨0, 0, 0, [0, 0, 0, 0, 0, 0, 0, 0]⟩
  dinputAxes := []
  dinputButtons := []
  dinputHats := []
  xinputIndex := i
  xinputState := xinputState.zero

/-! ## gamepad_windows.go: identity fingerprints -/

/-- The verb `%02x` of `fmt.Sprintf` on an unsigned integer: lower-case
hexadecimal digits, padded with zeros on the left to width 2. -/
def fmt02x (b : Nat) : List Char :=
  let ds := Nat.toDigits 16 b
  List.replicate (2 - ds.length) '0' ++ ds

/-- The `sdlID` of `detectConnection`:
`fmt.Sprintf("78696e707574%02x000000000000000000", xic.subType&0xff)`. -/
def xinputSdlID (xic : xinputCapabilities) : String :=
  String.mk ("78696e707574".toList ++ fmt02x (xic.subType &&& 0xff)
    ++ "000000000000000000".toList)

/-- The test `string(lpddi.guidProduct.Data4[2:8]) == "PIDVID"`. -/
def hasPIDVID (guidProduct : GUID) : Bool :=
  decide ((guidProduct.Data4.drop 2).take 6 = "PIDVID".toList.map Char.toNat)

/-- The slice `bs` of `dinput8EnumDevicesCallback`: the bytes of the name,
with zeros appended up to length 12 when it is shorter. -/
def paddedName (name : List Nat) : List Nat :=
  if name.length < 12 then name ++ List.replicate (12 - name.length) 0 else name

/-- The `sdlID` of `dinput8EnumDevicesCallback` for the product GUID and the
name of the instance (a Go string, as its bytes); `none` is a runtime panic. -/
def dinputSdlID (guidProduct : GUID) (name : List Nat) : Option String :=
  if hasPIDVID guidProduct then
    some (String.mk ("03000000".toList
      ++ fmt02x (guidProduct.Data1 % 256)
      ++ fmt02x (guidProduct.Data1 >>> 8 % 256)
      ++ "0000".toList
      ++ fmt02x (guidProduct.Data1 >>> 16 % 256)
      ++ fmt02x (guidProduct.Data1 >>> 24 % 256)
      ++ "000000000000".toList))
  else
    let bs := paddedName name
    ((List.range 12).mapM fun i => bs[i]?).map fun bytes =>
      String.mk ("05000000".toList ++ bytes.flatMap fmt02x)

/-! ## The device registry -/

set_option linter.dupNamespace false in
/-- Modelled from the spec: the registry entry (the spec's LogicalGamepad,
the type `Gamepad` of gamepad.go, not under src/): a display name, the
fingerprint and the adapter it owns; name and fingerprint are fixed at
creation. -/
structure Gamepad where
  name : List Nat
  sdlID : String
  nativeGamepad : nativeGamepad

/-- Modelled from the spec: the device registry `gamepads` of gamepad.go,
not under src/, "the mapping from stable logical handle to Adapter plus
identity metadata (name, fingerprint); supports find/add/remove". The handle
is the position in `slots`; the slot of a removed entry is `none`. -/
structure gamepads where
  slots : List (Option Gamepad)

/-- Modelled from the spec: `gamepads.find(cond)`, the first entry that
satisfies `cond`, or `none` (nil). -/
def gamepads.find (gs : gamepads) (cond : Gamepad → Bool) : Option Gamepad :=
  (gs.slots.filterMap id).find? cond

/-- Modelled from the spec: `gamepads.add(name, sdlID)` creates an entry with
the given identity and a zero adapter under a new handle; `init` sets the
fields the caller assigns to the returned entry. The new registry and the
handle. -/
def gamepads.add (gs : gamepads) (name : List Nat) (sdlID : String)
    (init : nativeGamepad) : gamepads × Nat :=
  (⟨gs.slots ++ [some ⟨name, sdlID, init⟩]⟩, gs.slots.length)

/-- Modelled from the spec: `gamepads.remove(cond)` destroys every entry that
satisfies `cond`; `cond` sees the handle, since `update` selects its own
entry by address. -/
def gamepads.remove (gs : gamepads) (cond : Nat → Gamepad → Bool) : gamepads :=
  ⟨gs.slots.mapIdx fun i slot =>
    match slot with
    | none => none
    | some gp => if cond i gp then none else some gp⟩

/-- The entries of a registry, in handle order. -/
def gamepads.entries (gs : gamepads) : List Gamepad := gs.slots.filterMap id

/-! ## gamepad_windows.go: the arbiter `nativeGamepads` -/

/-- The struct `nativeGamepads`; handles, procedure addresses and callback
pointers are numbers, 0 for none. -/
structure nativeGamepads where
  dinput8 : Nat
  dinput8API : Nat
  xinput : Nat
  procDirectInput8Create : Nat
  procXInputGetCapabilities : Nat
  procXInputGetState : Nat
  origWndProc : Nat
  wndProcCallback : Nat
  enumDevicesCallback : Nat
  enumObjectsCallback : Nat
  deviceChanged : Nat
  err : Option GoError
deriving DecidableEq, Repr

/-- The wrappers of api_windows.go that fail when the raw result is not
`_DI_OK` (`CreateDevice`, `EnumDevices`, `EnumObjects`, `GetCapabilities`,
`SetDataFormat`, `DirectInput8Create`). -/
def directInputCall (r : Nat) : Option GoError :=
  if r ≠ DI_OK then some (GoError.directInputError (r % 2 ^ 32)) else none

/-- The method `nativeGamepads.xinputGetCapabilities`, from the raw result. -/
def xinputGetCapabilities (r : Nat) : Option GoError :=
  if r ≠ ERROR_SUCCESS then some (GoError.errno r) else none

/-- The functions `getRawInputDeviceList` and `getRawInputDeviceInfoW`, from
the raw result `r` and the last error `e` of the call: an error when
`uint32(r) == ^uint32(0)`, wrapping `e` when it is not `ERROR_SUCCESS`. -/
def rawInputCall (r e : Nat) (message : String) : Except GoError Nat :=
  if r % 2 ^ 32 = 2 ^ 32 - 1 then
    if e ≠ ERROR_SUCCESS then Except.error (GoError.errno e)
    else Except.error (GoError.other message)
  else Except.ok (r % 2 ^ 32)

/-- The function `setWindowLongPtrW`, from the raw result `h` and the last
error `e`: an error when `h == 0`. -/
def setWindowLongPtrW (h e : Nat) : Except GoError Nat :=
  if h = 0 then
    if e ≠ ERROR_SUCCESS then Except.error (GoError.errno e)
    else Except.error (GoError.other "gamepad: SetWindowLongPtrW returned 0")
  else Except.ok h

/-- A Go string literal as its bytes (the literals of this file are ASCII). -/
def goString (s : String) : List Nat := s.toList.map Char.toNat

/-- The function `strings.Contains` on byte strings. -/
def stringsContains : List Nat → List Nat → Bool
  | [], substr => substr.isEmpty
  | c :: cs, substr => substr.isPrefixOf (c :: cs) || stringsContains cs substr

/-- One entry of the raw-input device list as `supportsXInput` sees it: the
`dwType` of the list entry, and what `GetRawInputDeviceInfoW` answers for
its handle: raw result and last error of the `_RIDI_DEVICEINFO` and of the
`_RIDI_DEVICENAME` query, the vendor and product ids, and the name
(`windows.UTF16ToString(name[:])`, as bytes). -/
structure rawInputDevice where
  dwType : Nat
  infoResult : Nat
  infoErrno : Nat
  dwVendorId : Nat
  dwProductId : Nat
  nameResult : Nat
  nameErrno : Nat
  name : List Nat
deriving DecidableEq, Repr

/-- What the operating system answers to the two `GetRawInputDeviceList`
calls of `supportsXInput`: raw result, last error and the count written by
each, and the entries the second call writes into the buffer. -/
structure rawInputEnv where
  result1 : Nat
  errno1 : Nat
  count1 : Nat
  result2 : Nat
  errno2 : Nat
  count2 : Nat
  ridl : List rawInputDevice
deriving DecidableEq, Repr

/-- The zero value of `rawInputDeviceList` with no answers behind it. -/
def rawInputDevice.zero : rawInputDevice := ⟨0, 0, 0, 0, 0, 0, 0, []⟩

/-- The loop `for i := 0; i < int(count); i++` of `supportsXInput` over the
indices `is`; the buffer `ridl` has `count1` entries, and `none` is the
index-out-of-range panic. -/
def supportsXInputLoop (env : rawInputEnv) (guid : GUID) :
    List Nat → Option (Except GoError Bool)
  | [] => some (Except.ok false)
  | i :: is =>
    if i < env.count1 then
      let d := env.ridl.getD i rawInputDevice.zero
      if d.dwType ≠ RIM_TYPEHID then supportsXInputLoop env guid is
      else
        match rawInputCall d.infoResult d.infoErrno
            "gamepad: GetRawInputDeviceInfoW returned -1" with
        | Except.error err => some (Except.error err)
        | Except.ok _ =>
          if d.dwVendorId % 2 ^ 32 ||| (d.dwProductId <<< 16) % 2 ^ 32 ≠ guid.Data1 then
            supportsXInputLoop env guid is
          else
            match rawInputCall d.nameResult d.nameErrno
                "gamepad: GetRawInputDeviceInfoW returned -1" with
            | Except.error err => some (Except.error err)
            | Except.ok _ =>
              if stringsContains d.name (goString "IG_") then some (Except.ok true)
              else supportsXInputLoop env guid is
    else none

/-- The function `supportsXInput`; `none` is a runtime panic (`&ridl[0]` on
an empty buffer, or `ridl[i]` past its end). -/
def supportsXInput (env : rawInputEnv) (guid : GUID) : Option (Except GoError Bool) :=
  match rawInputCall env.result1 env.errno1 "gamepad: GetRawInputDeviceList returned -1" with
  | Except.error err => some (Except.error err)
  | Except.ok r =>
    if r ≠ 0 then some (Except.ok false)
    else if env.count1 = 0 then none
    else
      match rawInputCall env.result2 env.errno2
          "gamepad: GetRawInputDeviceList returned -1" with
      | Except.error err => some (Except.error err)
      | Except.ok _ => supportsXInputLoop env guid (List.range env.count2)

/-- A DirectInput device as `EnumDevices` reports it to
`dinput8EnumDevicesCallback`, with what the operating system answers to the
calls the callback makes for it: the fields of `diDeviceInstanceW` the
callback reads (the instance name as `windows.UTF16ToString` returns it, in
bytes), the raw-input answers `supportsXInput` gets, the raw result of
`CreateDevice` and the device pointer it writes, the raw results of
`SetDataFormat`, `GetCapabilities`, `SetProperty(_DIPROP_AXISMODE)` and
`EnumObjects`, and the objects `EnumObjects` reports. -/
structure dinputDeviceEnv where
  guidInstance : GUID
  guidProduct : GUID
  tszInstanceName : List Nat
  rawInput : rawInputEnv
  createDeviceResult : Nat
  device : Nat
  setDataFormatResult : Nat
  getCapabilitiesResult : Nat
  setAxisModeResult : Nat
  enumObjectsResult : Nat
  objects : List objectReport
deriving DecidableEq, Repr

/-- The hardware and operating system as discovery and the arbiter see
them: the pointers `windows.NewCallback` returns for the three callbacks,
the DirectInput devices in enumeration order with the raw result of
`EnumDevices`, the raw result and capabilities of `XInputGetCapabilities`
for each slot, and the raw result and last error of `SetWindowLongPtrW`. -/
structure hardware where
  enumDevicesCallbackPtr : Nat
  enumObjectsCallbackPtr : Nat
  wndProcCallbackPtr : Nat
  dinputDevices : List dinputDeviceEnv
  enumDevicesResult : Nat
  xinputResult : Nat → Nat
  xinputCaps : Nat → xinputCapabilities
  setWindowLongPtrResult : Nat
  setWindowLongPtrErrno : Nat

/-- What one call of `dinput8EnumDevicesCallback` leaves behind: the
returned code, the arbiter, the registry, and whether `CreateDevice` was
called. -/
structure enumDevicesStep where
  ret : Nat
  g : nativeGamepads
  gamepads : gamepads
  createDeviceCalled : Bool

/-- The method `nativeGamepads.dinput8EnumDevicesCallback`; `none` is a
runtime panic. -/
def dinput8EnumDevicesCallback (hw : hardware) (g : nativeGamepads) (lpddi : dinputDeviceEnv)
    (gs : gamepads) : Option enumDevicesStep :=
  if g.err.isSome then some ⟨DIENUM_STOP, g, gs, false⟩
  else if (gs.find fun gp =>
      decide (gp.nativeGamepad.dinputGUID = lpddi.guidInstance)).isSome then
    some ⟨DIENUM_CONTINUE, g, gs, false⟩
  else
    match supportsXInput lpddi.rawInput lpddi.guidProduct with
    | none => none
    | some (Except.error err) => some ⟨DIENUM_STOP, { g with err := some err }, gs, false⟩
    | some (Except.ok true) => some ⟨DIENUM_CONTINUE, g, gs, false⟩
    | some (Except.ok false) =>
      match directInputCall lpddi.createDeviceResult with
      | some err => some ⟨DIENUM_STOP, { g with err := some err }, gs, true⟩
      | none =>
        match directInputCall lpddi.setDataFormatResult with
        | some err => some ⟨DIENUM_STOP, { g with err := some err }, gs, true⟩
        | none =>
          match directInputCall lpddi.getCapabilitiesResult with
          | some err => some ⟨DIENUM_STOP, { g with err := some err }, gs, true⟩
          | none =>
            match iDirectInputDevice8W.SetProperty lpddi.setAxisModeResult with
            | some err => some ⟨DIENUM_STOP, { g with err := some err }, gs, true⟩
            | none =>
              let g1 : nativeGamepads :=
                if g.enumObjectsCallback = 0 then
                  { g with enumObjectsCallback := hw.enumObjectsCallbackPtr }
                else g
              let ctx := enumObjects lpddi.objects ⟨lpddi.device, [], 0, 0, 0, 0⟩
              match directInputCall lpddi.enumObjectsResult with
              | some err => some ⟨DIENUM_STOP, { g1 with err := some err }, gs, true⟩
              | none =>
                let name := lpddi.tszInstanceName
                match dinputSdlID lpddi.guidProduct name with
                | none => none
                | some sdlID =>
                  some ⟨DIENUM_CONTINUE, g1,
                    (gs.add name sdlID
                      (newDInputGamepad lpddi.device ctx lpddi.guidInstance)).1, true⟩

/-- The system's `EnumDevices`: it calls the callback on each device, in
order, until the callback answers `_DIENUM_STOP`. -/
def enumDevices (hw : hardware) :
    List dinputDeviceEnv → nativeGamepads → gamepads → Option (nativeGamepads × gamepads)
  | [], g, gs => some (g, gs)
  | d :: ds, g, gs =>
    match dinput8EnumDevicesCallback hw g d gs with
    | none => none
    | some r => if r.ret = DIENUM_STOP then some (r.g, r.gamepads)
      else enumDevices hw ds r.g r.gamepads

/-- The `name` that `detectConnection` gives an XInput entry. -/
def xinputName (xic : xinputCapabilities) : List Nat :=
  if xic.subType = XINPUT_DEVSUBTYPE_GAMEPAD then
    if xic.flags &&& XINPUT_CAPS_WIRELESS ≠ 0 then goString "Wireless Xbox Controller"
    else goString "Xbox Controller"
  else if xic.subType = XINPUT_DEVSUBTYPE_WHEEL then goString "XInput Wheel"
  else if xic.subType = XINPUT_DEVSUBTYPE_ARCADE_STICK then goString "XInput Arcade Stick"
  else if xic.subType = XINPUT_DEVSUBTYPE_FLIGHT_STICK then goString "XInput Flight Stick"
  else if xic.subType = XINPUT_DEVSUBTYPE_DANCE_PAD then goString "XInput Dance Pad"
  else if xic.subType = XINPUT_DEVSUBTYPE_GUITAR then goString "XInput Guitar"
  else if xic.subType = XINPUT_DEVSUBTYPE_DRUM_KIT then goString "XInput Drum Kit"
  else goString "Unknown XInput Device"

/-- The loop `for i := 0; i < xuserMaxCount; i++` of `detectConnection` over
the slots `is`: the returned error, if the loop returns one, and the
registry. -/
def detectXInput (hw : hardware) : List Nat → gamepads → Option GoError × gamepads
  | [], gs => (none, gs)
  | i :: is, gs =>
    if (gs.find fun gp =>
        decide (gp.nativeGamepad.dinputDevice = none ∧
          gp.nativeGamepad.xinputIndex = (i : Int))).isSome then
      detectXInput hw is gs
    else
      match xinputGetCapabilities (hw.xinputResult i) with
      | some err =>
        if !(err = GoError.errno ERROR_DEVICE_NOT_CONNECTED) then (some err, gs)
        else detectXInput hw is gs
      | none =>
        detectXInput hw is
          (gs.add (xinputName (hw.xinputCaps i)) (xinputSdlID (hw.xinputCaps i))
            (newXInputGamepad (i : Int))).1

/-- What a discovery run leaves behind: the returned error, the arbiter and
the registry. -/
structure detectResult where
  err : Option GoError
  g : nativeGamepads
  gamepads : gamepads

/-- The method `nativeGamepads.detectConnection`; `none` is a runtime panic. -/
def nativeGamepads.detectConnection (g : nativeGamepads) (hw : hardware)
    (gs : gamepads) : Option detectResult :=
  let xinputPart (g : nativeGamepads) (gs : gamepads) : detectResult :=
    if g.xinput ≠ 0 then
      let r := detectXInput hw [0, 1, 2, 3] gs
      ⟨r.1, g, r.2⟩
    else ⟨none, g, gs⟩
  if g.dinput8 ≠ 0 then
    let g1 : nativeGamepads :=
      if g.enumDevicesCallback = 0 then
        { g with enumDevicesCallback := hw.enumDevicesCallbackPtr }
      else g
    match enumDevices hw hw.dinputDevices g1 gs with
    | none => none
    | some (g2, gs2) =>
      match directInputCall hw.enumDevicesResult with
      | some err => some ⟨some err, g2, gs2⟩
      | none =>
        match g2.err with
        | some err => some ⟨some err, g2, gs2⟩
        | none => some (xinputPart g2 gs2)
  else some (xinputPart g gs)

/-- What one call of `nativeGamepads.update` leaves behind: the returned
error, the arbiter, the registry, and how many times it ran
`detectConnection`. -/
structure arbiterUpdate where
  err : Option GoError
  g : nativeGamepads
  gamepads : gamepads
  discoveries : Nat

/-- The method `nativeGamepads.update`; `none` is a runtime panic. -/
def nativeGamepads.update (g : nativeGamepads) (hw : hardware) (gs : gamepads) :
    Option arbiterUpdate :=
  match g.err with
  | some err => some ⟨some err, g, gs, 0⟩
  | none =>
    let hooked : Except GoError nativeGamepads × nativeGamepads :=
      if g.origWndProc = 0 then
        let g1 : nativeGamepads :=
          if g.wndProcCallback = 0 then { g with wndProcCallback := hw.wndProcCallbackPtr }
          else g
        match setWindowLongPtrW hw.setWindowLongPtrResult hw.setWindowLongPtrErrno with
        | Except.error err => (Except.error err, g1)
        | Except.ok h => (Except.ok { g1 with origWndProc := h }, g1)
      else (Except.ok g, g)
    match hooked with
    | (Except.error err, g1) => some ⟨some err, g1, gs, 0⟩
    | (Except.ok g2, _) =>
      if g2.deviceChanged ≠ 0 then
        match g2.detectConnection hw gs with
        | none => none
        | some d =>
          match d.err with
          | some err => some ⟨none, { d.g with err := some err, deviceChanged := 0 }, d.gamepads, 1⟩
          | none => some ⟨none, { d.g with deviceChanged := 0 }, d.gamepads, 1⟩
      else some ⟨none, g2, gs, 0⟩

/-- What one call of `nativeGamepads.wndProc` leaves behind: the returned
value, the arbiter, and the arguments given to `callWindowProcW`. -/
structure wndProcResult where
  ret : Nat
  g : nativeGamepads
  forwarded : Nat × Nat × Nat × Nat × Nat

/-- The method `nativeGamepads.wndProc`; `callWindowProcW` is the system's
`CallWindowProcW`. -/
def nativeGamepads.wndProc (g : nativeGamepads)
    (callWindowProcW : Nat → Nat → Nat → Nat → Nat → Nat) (hWnd uMsg wParam lParam : Nat) :
    wndProcResult :=
  let g1 : nativeGamepads :=
    if uMsg = WM_DEVICECHANGE then { g with deviceChanged := 1 } else g
  ⟨callWindowProcW g1.origWndProc hWnd uMsg wParam lParam, g1,
    (g1.origWndProc, hWnd, uMsg, wParam, lParam)⟩

/-- What the system answers for one of the XInput libraries `init` tries:
the results of `windows.LoadLibrary` and of the two `windows.GetProcAddress`
calls. -/
structure xinputDllEnv where
  load : Except GoError Nat
  procGetCapabilities : Except GoError Nat
  procGetState : Except GoError Nat

/-- What the system answers to the calls of `init`: loading dinput8.dll and
its `DirectInput8Create`, the XInput libraries in the order tried, the
result and last error of `GetModuleHandleW`, and the raw result of
`DirectInput8Create` with the interface pointer it writes. -/
structure initEnv where
  loadDinput8 : Except GoError Nat
  procDirectInput8Create : Except GoError Nat
  xinputDlls : List xinputDllEnv
  moduleHandle : Nat
  moduleHandleErrno : Nat
  directInput8CreateResult : Nat
  api : Nat

/-- The loop over the XInput libraries of `init`: the error it returns, if
any, and the arbiter. -/
def initXInput : List xinputDllEnv → nativeGamepads → Option GoError × nativeGamepads
  | [], g => (none, g)
  | dll :: dlls, g =>
    match dll.load with
    | Except.error _ => initXInput dlls g
    | Except.ok h =>
      match dll.procGetCapabilities with
      | Except.error err => (some err, { g with xinput := h })
      | Except.ok p =>
        match dll.procGetState with
        | Except.error err => (some err, { g with xinput := h, procXInputGetCapabilities := p })
        | Except.ok q =>
          (none, { g with xinput := h, procXInputGetCapabilities := p, procXInputGetState := q })

/-- The function `getModuleHandleW`, from the result `m` and the last error `e`. -/
def getModuleHandleW (m e : Nat) : Except GoError Nat :=
  if m = 0 then
    if e ≠ ERROR_SUCCESS then Except.error (GoError.errno e)
    else Except.error (GoError.other "gamepad: GetModuleHandleW returned 0")
  else Except.ok m

/-- The method `nativeGamepads.init`; `none` is a runtime panic. -/
def nativeGamepads.init (g : nativeGamepads) (env : initEnv) (hw : hardware) (gs : gamepads) :
    Option detectResult :=
  let loaded : Option GoError × nativeGamepads :=
    match env.loadDinput8 with
    | Except.error _ => (none, g)
    | Except.ok h =>
      match env.procDirectInput8Create with
      | Except.error err => (some err, { g with dinput8 := h })
      | Except.ok p => (none, { g with dinput8 := h, procDirectInput8Create := p })
  match loaded with
  | (some err, g1) => some ⟨some err, g1, gs⟩
  | (none, g1) =>
    match initXInput env.xinputDlls g1 with
    | (some err, g2) => some ⟨some err, g2, gs⟩
    | (none, g2) =>
      if g2.dinput8 ≠ 0 then
        match getModuleHandleW env.moduleHandle env.moduleHandleErrno with
        | Except.error err => some ⟨some err, g2, gs⟩
        | Except.ok _ =>
          match directInputCall env.directInput8CreateResult with
          | some err => some ⟨some err, g2, gs⟩
          | none => ({ g2 with dinput8API := env.api } : nativeGamepads).detectConnection hw gs
      else some ⟨none, g2, gs⟩

/-- What one call of `nativeGamepad.update(gamepads)` leaves behind, seen
from the registry: the returned error, the local `disconnected`, and the
registry after the deferred function has run. -/
structure entryUpdate where
  err : Option GoError
  disconnected : Bool
  gamepads : gamepads

/-- The method `nativeGamepad.update` called on the adapter of the entry at
handle `h`, with its deferred function: the adapter changes in place, and
when the call reports a disconnect or an error the deferred function calls
`gamepads.remove` with the condition `&gamepad.nativeGamepad == g`, which
holds of the entry at `h` alone. `none` is a runtime panic; a handle without
an entry has no adapter to call. -/
def gamepads.updateGamepad (gs : gamepads) (h : Nat) (env : pollEnv) : Option entryUpdate :=
  match gs.slots[h]? with
  | some (some gp) =>
    (gp.nativeGamepad.update env).map fun r =>
      let gs1 : gamepads := ⟨gs.slots.set h (some { gp with nativeGamepad := r.g })⟩
      ⟨r.err, r.disconnected,
        if r.removes then gs1.remove (fun i _ => decide (i = h)) else gs1⟩
  | _ => some ⟨none, false, gs⟩

/-! ## The spec's wording of the hat bucketing -/

/-- The eight directions in the order of the spec, by bucket number. -/
def hatDirections : List Nat :=
  [hatUp, hatRightUp, hatRight, hatRightDown, hatDown, hatLeftDown, hatLeft, hatLeftUp]

/-- The hat bucketing as the spec words it: a raw value below 36000
(hundredths of a degree) is the direction numbered `floor(raw / 4500)`, any
other value is centered. -/
def hatBucket (raw : Nat) : Nat :=
  if raw < 36000 then hatDirections.getD (raw / 4500) hatCentered else hatCentered

/-- The point-of-view descriptors of a descriptor list, in order. -/
def povObjects (objects : List dinputObject) : List dinputObject :=
  objects.filter fun o => decide (o.objectType = dinputObjectTypePOV)

/-- The adapters the code can produce: the ones discovery creates, and the
ones a call of `update` leaves behind. -/
inductive Reachable : nativeGamepad → Prop where
  | dinput (device : Nat) (reports : List objectReport) (guidInstance : GUID) :
      Reachable (discoverDInputGamepad device reports guidInstance)
  | xinput (i : Int) : Reachable (newXInputGamepad i)
  | update (g : nativeGamepad) (env : pollEnv) (r : updateResult) :
      Reachable g → g.update env = some r → Reachable r.g

/-- The number of descriptors of kind `t` in a descriptor list. -/
def countKind (t : dinputObjectType) (objects : List dinputObject) : Nat :=
  objects.countP fun o => decide (o.objectType = t)

/-- The counters of an enumeration context agree with its descriptor list. -/
def enumObjectsContext.CountsAgree (ctx : enumObjectsContext) : Prop :=
  ctx.axisCount = countKind dinputObjectTypeAxis ctx.objects ∧
  ctx.sliderCount = countKind dinputObjectTypeSlider ctx.objects ∧
  ctx.buttonCount = countKind dinputObjectTypeButton ctx.objects ∧
  ctx.povCount = countKind dinputObjectTypePOV ctx.objects

/-- The form of an identity fingerprint: 32 characters, each a lower-case
hexadecimal digit. -/
def IsFingerprint (s : String) : Prop :=
  s.length = 32 ∧ ∀ c ∈ s.toList, c ∈ "0123456789abcdef".toList

/-- A Go string as a list of numbers holds bytes. -/
def IsBytes (bs : List Nat) : Prop := ∀ b ∈ bs, b < 256

instance (bs : List Nat) : Decidable (IsBytes bs) := by
  unfold IsBytes; infer_instance

/-- The value of a lower-case hexadecimal digit. -/
def hexValue (c : Char) : Option Nat :=
  if '0' ≤ c ∧ c ≤ '9' then some (c.toNat - '0'.toNat)
  else if 'a' ≤ c ∧ c ≤ 'f' then some (c.toNat - 'a'.toNat + 10)
  else none

/-- The bytes a lower-case hexadecimal text denotes, two digits a byte. -/
def hexDecode : List Char → Option (List Nat)
  | [] => some []
  | [_] => none
  | c :: d :: rest =>
    match hexValue c, hexValue d, hexDecode rest with
    | some x, some y, some bs => some ((16 * x + y) :: bs)
    | _, _, _ => none

/-- The sixteen bytes of a fingerprint. -/
def fingerprintBytes (s : String) : Option (List Nat) := hexDecode s.toList

/-- A 16-bit word as two bytes, low byte first. -/
def le16 (w : Nat) : List Nat := [w % 256, w / 256 % 256]

/-- The vendor/product form as the spec words it: the bus-type bytes
03 00 00 00, the vendor id (the low 16 bits of `Data1`) little-endian, 00 00,
the product id (the high 16 bits of `Data1`) little-endian, then zeros. -/
def vendorProductBytes (data1 : Nat) : List Nat :=
  [3, 0, 0, 0] ++ le16 (data1 % 65536) ++ [0, 0] ++ le16 (data1 / 65536 % 65536)
    ++ [0, 0, 0, 0, 0, 0]

/-- The first 12 bytes of a name, padded on the right with zero bytes when
the name is shorter than 12 bytes. -/
def namePrefix12 (name : List Nat) : List Nat :=
  name.take 12 ++ List.replicate (12 - (name.take 12).length) 0

/-- The name form as the spec words it: the bytes 05 00 00 00, then the
twelve bytes of `namePrefix12`. -/
def nameFormBytes (name : List Nat) : List Nat :=
  [5, 0, 0, 0] ++ namePrefix12 name

/-- The arbiter `b` differs from `a` at most in the fields discovery writes:
the two enumeration callback pointers and the recorded error. -/
def nativeGamepads.DiscoveryFrame (a b : nativeGamepads) : Prop :=
  b.dinput8 = a.dinput8 ∧ b.dinput8API = a.dinput8API ∧ b.xinput = a.xinput ∧
  b.procDirectInput8Create = a.procDirectInput8Create ∧
  b.procXInputGetCapabilities = a.procXInputGetCapabilities ∧
  b.procXInputGetState = a.procXInputGetState ∧ b.origWndProc = a.origWndProc ∧
  b.wndProcCallback = a.wndProcCallback ∧ b.deviceChanged = a.deviceChanged

/-! ## The spec's wording of the poll outcomes -/

/-- A `Poll` with raw result `r` fails with a code other than not-acquired
and input-lost. -/
def pollFatal (r : Nat) : Bool :=
  match iDirectInputDevice8W.Poll r with
  | some err => notTransient err
  | none => false

/-- A `GetDeviceState` with raw result `r` fails with a code other than
not-acquired and input-lost. -/
def readFatal (r : Nat) : Bool :=
  match iDirectInputDevice8W.GetDeviceState r with
  | some err => notTransient err
  | none => false

/-- A `GetDeviceState` with raw result `r` fails with the code not-acquired
or input-lost. -/
def readTransient (r : Nat) : Bool :=
  match iDirectInputDevice8W.GetDeviceState r with
  | some err => !notTransient err
  | none => false

/-- Some executed `Poll` or `GetDeviceState` call fails with a code other
than not-acquired and input-lost. The first `Poll` is always executed, the
first read when that `Poll` did not fail so, the second `Poll` when the
first read failed with a transient code, the second read when the second
`Poll` did not fail so. -/
def pollEnv.fatalFailure (env : pollEnv) : Bool :=
  pollFatal env.poll1 ||
  (!pollFatal env.poll1 && readFatal env.getState1) ||
  (!pollFatal env.poll1 && readTransient env.getState1 && pollFatal env.poll2) ||
  (!pollFatal env.poll1 && readTransient env.getState1 && !pollFatal env.poll2
    && readFatal env.getState2)

/-- The first report read is executed and fails with a transient code and,
after the one re-acquire-and-retry cycle, the second report read is executed
and fails with a transient code too. -/
def pollEnv.disconnects (env : pollEnv) : Bool :=
  !pollFatal env.poll1 && readTransient env.getState1 && !pollFatal env.poll2
    && readTransient env.getState2

/-- The descriptor `o` reads inside the fixed-size report: a slider index is
below 2, a button index below 32, a point-of-view index below 4. -/
def dinputObject.InReport (o : dinputObject) : Prop :=
  match o.objectType with
  | dinputObjectTypeAxis => True
  | dinputObjectTypeSlider => o.index < 2
  | dinputObjectTypeButton => o.index < 32
  | dinputObjectTypePOV => o.index < 4

/-- The adapter fits the report layout: every descriptor reads inside the
report, and the state arrays have a slot for every descriptor, as discovery
allocates them. -/
def nativeGamepad.FitsReport (g : nativeGamepad) : Prop :=
  (∀ o ∈ g.dinputObjects, o.InReport) ∧
  countKind dinputObjectTypeAxis g.dinputObjects +
    countKind dinputObjectTypeSlider g.dinputObjects ≤ g.dinputAxes.length ∧
  countKind dinputObjectTypeButton g.dinputObjects ≤ g.dinputButtons.length ∧
  countKind dinputObjectTypePOV g.dinputObjects ≤ g.dinputHats.length

/-! ## The spec's wording of the descriptor order -/

/-- The order of the descriptor list as the spec words it: non-decreasing in
(kind, index), with Axis before Slider before Button before Hat. -/
def objectLE (a b : dinputObject) : Prop :=
  a.objectType.toNat < b.objectType.toNat ∨
    (a.objectType = b.objectType ∧ a.index ≤ b.index)

/-! ## The spec's wording of the axis index space -/

/-- The true-axis descriptors of a descriptor list, in order. -/
def axisObjects (objects : List dinputObject) : List dinputObject :=
  objects.filter fun o => decide (o.objectType = dinputObjectTypeAxis)

/-- The slider descriptors of a descriptor list, in order. -/
def sliderObjects (objects : List dinputObject) : List dinputObject :=
  objects.filter fun o => decide (o.objectType = dinputObjectTypeSlider)

/-- The descriptors that own a slot of the axes array (true axes and
sliders), in order. -/
def axisLikeObjects (objects : List dinputObject) : List dinputObject :=
  objects.filter fun o =>
    decide (o.objectType = dinputObjectTypeAxis) || decide (o.objectType = dinputObjectTypeSlider)

/-- The raw report field an axis or slider descriptor stands for: the field
of its axis identity (X, Y, Z, Rx, Ry, Rz for index 0..5), or the slider
`rglSlider[index]`. -/
def rawAxisValue (state : diJoyState) (o : dinputObject) : Int :=
  match o.objectType with
  | dinputObjectTypeAxis => axisField state o.index
  | dinputObjectTypeSlider => if h : o.index < 2 then state.rglSlider ⟨o.index, h⟩ else 0
  | _ => 0

/-- The write of the loop iteration for `o`, started with the counters of
`w`, stays inside the array it writes. -/
def walkState.WriteInBounds (w : walkState) (o : dinputObject) : Prop :=
  match o.objectType with
  | dinputObjectTypeAxis => w.ai < w.g.dinputAxes.length
  | dinputObjectTypeSlider => w.ai < w.g.dinputAxes.length
  | dinputObjectTypeButton => w.bi < w.g.dinputButtons.length
  | dinputObjectTypePOV => w.hi < w.g.dinputHats.length

/-- What object enumeration keeps true of its context: the slider
descriptors carry the indices 0, 1, 2, ... in order, and every true-axis
descriptor carries one of the six axis identities. -/
def EnumInvariant (ctx : enumObjectsContext) : Prop :=
  sliderObjects ctx.objects =
    (List.range ctx.sliderCount).map (fun i => ⟨dinputObjectTypeSlider, i⟩) ∧
  ∀ o ∈ ctx.objects, o.objectType = dinputObjectTypeAxis → o.index < 6

/-! ## The spec's wording of discovery: skipped devices and distinct keys -/

/-- A DirectInput device that the callback passes over in the registry
`gs`: an entry with its instance GUID is present, or `supportsXInput`
reports true for its product GUID. -/
def dinputDeviceEnv.Settled (d : dinputDeviceEnv) (gs : gamepads) : Prop :=
  (gs.find fun gp => decide (gp.nativeGamepad.dinputGUID = d.guidInstance)).isSome = true ∨
  supportsXInput d.rawInput d.guidProduct = some (Except.ok true)

/-- An XInput slot that the loop of `detectConnection` passes over in the
registry `gs`: an entry without a DirectInput device has its index, or the
slot is not connected. -/
def hardware.SlotSettled (hw : hardware) (gs : gamepads) (i : Nat) : Prop :=
  (gs.find fun gp =>
    decide (gp.nativeGamepad.dinputDevice = none ∧
      gp.nativeGamepad.xinputIndex = (i : Int))).isSome = true ∨
  xinputGetCapabilities (hw.xinputResult i) = some (GoError.errno ERROR_DEVICE_NOT_CONNECTED)

/-- No two entries with a DirectInput device share the instance GUID, and no
two entries without one share the XInput slot index. -/
def gamepads.Distinct (gs : gamepads) : Prop :=
  gs.entries.Pairwise fun a b =>
    (a.nativeGamepad.dinputDevice ≠ none → b.nativeGamepad.dinputDevice ≠ none →
      a.nativeGamepad.dinputGUID ≠ b.nativeGamepad.dinputGUID) ∧
    (a.nativeGamepad.dinputDevice = none → b.nativeGamepad.dinputDevice = none →
      a.nativeGamepad.xinputIndex ≠ b.nativeGamepad.xinputIndex)

/-- Every slider, button and point-of-view descriptor of an enumeration
context has an index below the counter of its kind, and every axis
descriptor an index below 6. -/
def enumObjectsContext.IndexBelowCount (ctx : enumObjectsContext) : Prop :=
  ∀ o ∈ ctx.objects,
    match o.objectType with
    | dinputObjectTypeAxis => o.index < 6
    | dinputObjectTypeSlider => o.index < ctx.sliderCount
    | dinputObjectTypeButton => o.index < ctx.buttonCount
    | dinputObjectTypePOV => o.index < ctx.povCount

/-- The raw-input device `d` is one that makes `supportsXInput` report true
for `guid`: it is of HID type, its `vendorId | productId<<16` equals
`guid.Data1`, and its name contains "IG_". -/
def rawInputDevice.claims (d : rawInputDevice) (guid : GUID) : Bool :=
  decide (d.dwType = RIM_TYPEHID) &&
    decide (d.dwVendorId % 2 ^ 32 ||| (d.dwProductId <<< 16) % 2 ^ 32 = guid.Data1) &&
    stringsContains d.name (goString "IG_")

/-- No raw-input query of `supportsXInput` fails: the first
`GetRawInputDeviceList` call returns 0, the second does not return -1 and
reports no more devices than the buffer holds, and neither
`GetRawInputDeviceInfoW` query returns -1 for a listed device. -/
def rawInputEnv.NoQueryFails (env : rawInputEnv) : Prop :=
  env.result1 % 2 ^ 32 = 0 ∧ env.result2 % 2 ^ 32 ≠ 2 ^ 32 - 1 ∧ env.count2 ≤ env.count1 ∧
  ∀ i < env.count2,
    (env.ridl.getD i rawInputDevice.zero).infoResult % 2 ^ 32 ≠ 2 ^ 32 - 1 ∧
    (env.ridl.getD i rawInputDevice.zero).nameResult % 2 ^ 32 ≠ 2 ^ 32 - 1

/-! ## The spec's wording of the axis identities -/

/-- The six axis identities (type tags) in the order of the spec: X, Y, Z,
Rx, Ry, Rz. -/
def axisIdentities : List GUID :=
  [guidXAxis, guidYAxis, guidZAxis, guidRxAxis, guidRyAxis, guidRzAxis]

/-- The place of an axis identity in the order X, Y, Z, Rx, Ry, Rz (6 for a
GUID that is none of them). -/
def identityRank (guid : GUID) : Nat := axisIdentities.indexOf guid

/-- The raw report field of an axis identity: `lX` for X, `lY` for Y, `lZ`
for Z, `lRx` for Rx, `lRy` for Ry, `lRz` for Rz. -/
def identityField (state : diJoyState) (guid : GUID) : Int :=
  if guid = guidXAxis then state.lX
  else if guid = guidYAxis then state.lY
  else if guid = guidZAxis then state.lZ
  else if guid = guidRxAxis then state.lRx
  else if guid = guidRyAxis then state.lRy
  else if guid = guidRzAxis then state.lRz
  else 0

/-- The axis identity a reported object is discovered under: its type tag,
when the object is of axis type, the tag is one of the six identities and
the device accepted the range set for it. -/
def reportAxisIdentity (r : objectReport) : Option GUID :=
  if diDftGetType r.dwType &&& DIDFT_AXIS ≠ 0 ∧ r.guidType ∈ axisIdentities ∧
      (r.setRangeResult = DI_OK ∨ r.setRangeResult = DI_PROPNOEFFECT) then
    some r.guidType
  else none

/-- The axis identities discovered on a device, in report order. -/
def discoveredAxisIdentities (reports : List objectReport) : List GUID :=
  reports.filterMap reportAxisIdentity

/-- The discovered axis identities in the order X, Y, Z, Rx, Ry, Rz. -/
def sortedAxisIdentities (reports : List objectReport) : List GUID :=
  (discoveredAxisIdentities reports).insertionSort
    fun a b => identityRank a ≤ identityRank b

/-! ## The spec's wording of the poll outcomes, by raw result code -/

/-- The raw result `r`, as the 32-bit code the error carries, is not-acquired
(0x8007000C) or input-lost (0x8007001E). -/
def transientCode (r : Nat) : Bool :=
  decide (r % 2 ^ 32 = 0x8007000C) || decide (r % 2 ^ 32 = 0x8007001E)

/-- A `Poll` with raw result `r` fails: the result is neither DI_OK (0) nor
DI_NOEFFECT (1). -/
def pollFailed (r : Nat) : Bool := decide (r ≠ 0 ∧ r ≠ 1)

/-- A `GetDeviceState` with raw result `r` fails: the result is not DI_OK (0). -/
def readFailed (r : Nat) : Bool := decide (r ≠ 0)

/-- The first report read is executed: the first `Poll` did not fail with a
code other than not-acquired and input-lost. -/
def pollEnv.read1Executed (env : pollEnv) : Bool :=
  !(pollFailed env.poll1 && !transientCode env.poll1)

/-- The retry cycle is executed: the first report read is executed and fails
with a transient code. -/
def pollEnv.retryExecuted (env : pollEnv) : Bool :=
  env.read1Executed && readFailed env.getState1 && transientCode env.getState1

/-- The second report read is executed: the retry cycle is executed and its
`Poll` did not fail with a code other than not-acquired and input-lost. -/
def pollEnv.read2Executed (env : pollEnv) : Bool :=
  env.retryExecuted && !(pollFailed env.poll2 && !transientCode env.poll2)

/-- Some executed `Poll` or `GetDeviceState` call fails with a code other
than not-acquired and input-lost. -/
def pollEnv.someCallFailsHard (env : pollEnv) : Bool :=
  (pollFailed env.poll1 && !transientCode env.poll1) ||
  (env.read1Executed && readFailed env.getState1 && !transientCode env.getState1) ||
  (env.retryExecuted && pollFailed env.poll2 && !transientCode env.poll2) ||
  (env.read2Executed && readFailed env.getState2 && !transientCode env.getState2)

/-- The first report read fails with a transient code and, after the one
re-acquire-and-retry cycle, the second report read fails with a transient
code too. -/
def pollEnv.bothReadsTransient (env : pollEnv) : Bool :=
  env.read2Executed && readFailed env.getState2 && transientCode env.getState2

/-- The report the poll works on: that of the first read when it succeeds,
that of the second read otherwise. -/
def pollEnv.reportRead (env : pollEnv) : diJoyState :=
  if env.getState1 = 0 then env.state1 else env.state2

/-- The button descriptors of a descriptor list, in order. -/
def buttonObjects (objects : List dinputObject) : List dinputObject :=
  objects.filter fun o => decide (o.objectType = dinputObjectTypeButton)

/-- The state arrays of `g1` are those of `g0` refreshed from the report
`state`: descriptors, device and GUID are kept, the arrays keep their
lengths, the k-th axis-or-slider descriptor's slot of the axes holds the
normalization of its raw field, the k-th button descriptor's slot of the
buttons holds whether bit 0x80 of its byte is set, and the k-th
point-of-view descriptor's slot of the hats holds the bucket of its raw
value. -/
def nativeGamepad.RefreshedFrom (g1 g0 : nativeGamepad) (state : diJoyState) : Prop :=
  g1.dinputObjects = g0.dinputObjects ∧ g1.dinputDevice = g0.dinputDevice ∧
  g1.dinputGUID = g0.dinputGUID ∧
  g1.dinputAxes.length = g0.dinputAxes.length ∧
  g1.dinputButtons.length = g0.dinputButtons.length ∧
  g1.dinputHats.length = g0.dinputHats.length ∧
  (∀ (k : Nat) (o : dinputObject), (axisLikeObjects g0.dinputObjects)[k]? = some o →
    g1.dinputAxes[k]? = some (normalizeAxis (rawAxisValue state o))) ∧
  (∀ (k : Nat) (o : dinputObject), (buttonObjects g0.dinputObjects)[k]? = some o →
    ∃ h : o.index < 32,
      g1.dinputButtons[k]? = some (decide (state.rgbButtons ⟨o.index, h⟩ &&& 0x80 ≠ 0))) ∧
  (∀ (k : Nat) (o : dinputObject), (povObjects g0.dinputObjects)[k]? = some o →
    ∃ h : o.index < 4, g1.dinputHats[k]? = some (hatBucket (state.rgdwPOV ⟨o.index, h⟩)))

/-! ## Concrete inputs -/

/-- A DirectInput adapter as discovery creates it for a device that reports
one point-of-view hat and nothing else. -/
def oneHatGamepad : nativeGamepad :=
  discoverDInputGamepad 1 [⟨guidPOV, DIDFT_POV, DI_OK⟩] ⟨1, 0, 0, [0, 0, 0, 0, 0, 0, 0, 0]⟩

/-- An XInput adapter on slot 0 holding the report `p`. -/
def xinputGamepadWith (p : xinputGamepad) : nativeGamepad :=
  { newXInputGamepad 0 with xinputState := ⟨1, p⟩ }

/-- An XInput adapter whose report has the left stick fully left and fully
up, the right stick nearly centered and the right trigger fully pressed. -/
def deflectedGamepad : nativeGamepad :=
  xinputGamepadWith ⟨0, 0, 255, -32768, 32767, 0, -1⟩

/-- The answers of a device whose first `Poll` and `GetDeviceState` succeed
and deliver the report `state`. -/
def dinputEnv (state : diJoyState) : pollEnv :=
  ⟨DI_OK, DI_OK, state, DI_OK, DI_OK, DI_OK, state, ERROR_SUCCESS, xinputState.zero⟩

/-- The answers of an XInput slot whose `XInputGetState` succeeds and
delivers `report`. -/
def xinputEnv (report : xinputState) : pollEnv :=
  ⟨DI_OK, DI_OK, diJoyState.zero, DI_OK, DI_OK, DI_OK, diJoyState.zero, ERROR_SUCCESS, report⟩

/-- A report whose first point of view reads 90 degrees and whose other
points of view read the centered sentinel. -/
def povRightState : diJoyState :=
  { diJoyState.zero with rgdwPOV := fun i => if i = 0 then 9000 else 0xFFFFFFFF }

/-- What `update` leaves behind on `oneHatGamepad` for `povRightState`. -/
def oneHatPolled : updateResult :=
  ⟨{ oneHatGamepad with dinputHats := [hatRight] }, none, false⟩

/-- An XInput report with the D-pad bits UP and DOWN both set. -/
def upDownReport : xinputState :=
  ⟨1, ⟨XINPUT_GAMEPAD_DPAD_UP ||| XINPUT_GAMEPAD_DPAD_DOWN, 0, 0, 0, 0, 0, 0⟩⟩

/-- An XInput report with the D-pad bits UP and RIGHT set. -/
def upRightReport : xinputState :=
  ⟨1, ⟨XINPUT_GAMEPAD_DPAD_UP ||| XINPUT_GAMEPAD_DPAD_RIGHT, 0, 0, 0, 0, 0, 0⟩⟩

/-- The adapter of XInput slot 0 after a poll that delivered `report`. -/
def xinputPolled (report : xinputState) : nativeGamepad :=
  { newXInputGamepad 0 with xinputState := report }

/-- The objects of a device with two true axes, one slider, four buttons and
one hat, in the order the device happens to report them. The low byte of
`dwType` is the object type (2 absolute axis, 4 push button, 16 point of
view), the next bytes the instance number. -/
def exampleReports : List objectReport :=
  [⟨guidPOV, 0x0010, DI_OK⟩, ⟨⟨0, 0, 0, [0, 0, 0, 0, 0, 0, 0, 0]⟩, 0x0004, DI_OK⟩,
    ⟨guidSlider, 0x0202, DI_OK⟩, ⟨guidYAxis, 0x0102, DI_OK⟩,
    ⟨⟨0, 0, 0, [0, 0, 0, 0, 0, 0, 0, 0]⟩, 0x0104, DI_OK⟩, ⟨guidXAxis, 0x0002, DI_OK⟩,
    ⟨⟨0, 0, 0, [0, 0, 0, 0, 0, 0, 0, 0]⟩, 0x0204, DI_OK⟩,
    ⟨⟨0, 0, 0, [0, 0, 0, 0, 0, 0, 0, 0]⟩, 0x0304, DI_OK⟩]

/-- The adapter discovery creates for `exampleReports`. -/
def exampleGamepad : nativeGamepad :=
  discoverDInputGamepad 1 exampleReports ⟨1, 0, 0, [0, 0, 0, 0, 0, 0, 0, 0]⟩

/-- A product GUID that carries the marker, with vendor 0x045e and product
0x028e in `Data1`. -/
def pidvidGuid : GUID :=
  ⟨0x028e045e, 0, 0, [0, 0, 0x50, 0x49, 0x44, 0x56, 0x49, 0x44]⟩

/-- A product GUID without the marker. -/
def plainGuid : GUID :=
  ⟨0x12345678, 0x9abc, 0xdef0, [0x80, 0x01, 0x02, 0x03, 0x04, 0x05, 0x06, 0x07]⟩

/-- The bytes of the name "USB Gamepad" (11 bytes). -/
def shortName : List Nat := "USB Gamepad".toList.map Char.toNat

/-- The bytes of the name "Generic USB Joystick" (20 bytes). -/
def longName : List Nat := "Generic USB Joystick".toList.map Char.toNat

/-- Raw-input answers with a keyboard only: no HID device matches. -/
def rawInputPlain : rawInputEnv :=
  ⟨0, 0, 1, 1, 0, 1, [⟨1, 0, 0, 0, 0, 0, 0, []⟩]⟩

/-- Raw-input answers with a keyboard and a HID device of vendor 0x045e and
product 0x028e whose name carries the XInput infix "IG_". -/
def rawInputClaimed : rawInputEnv :=
  ⟨0, 0, 2, 2, 0, 2,
    [⟨1, 0, 0, 0, 0, 0, 0, []⟩,
     ⟨RIM_TYPEHID, 0, 0, 0x045e, 0x028e, 0, 0, goString "HID#VID_045E&PID_028E&IG_00"⟩]⟩

/-- A DirectInput device that XInput does not claim; every call succeeds and
it reports `exampleReports`. -/
def plainDevice : dinputDeviceEnv :=
  ⟨⟨1, 0, 0, [0, 0, 0, 0, 0, 0, 0, 0]⟩, plainGuid, shortName, rawInputPlain, DI_OK, 100,
    DI_OK, DI_OK, DI_OK, DI_OK, exampleReports⟩

/-- A DirectInput device that XInput claims: its product GUID carries vendor
0x045e and product 0x028e, and the raw-input list has the matching "IG_"
device. -/
def claimedDevice : dinputDeviceEnv :=
  ⟨⟨2, 0, 0, [0, 0, 0, 0, 0, 0, 0, 0]⟩, pidvidGuid, longName, rawInputClaimed, DI_OK, 101,
    DI_OK, DI_OK, DI_OK, DI_OK, exampleReports⟩

/-- A host with `claimedDevice` and `plainDevice` on DirectInput and a
gamepad on XInput slot 0; the other slots are not connected. -/
def exampleHardware : hardware :=
  ⟨11, 12, 13, [claimedDevice, plainDevice], DI_OK,
    fun i => if i = 0 then ERROR_SUCCESS else ERROR_DEVICE_NOT_CONNECTED,
    fun _ => ⟨1, XINPUT_DEVSUBTYPE_GAMEPAD, 0⟩, 500, 0⟩

/-- The registry with no slot. -/
def emptyRegistry : gamepads := ⟨[]⟩

/-- An arbiter with both backends loaded, the window hook installed, no
recorded error and the device-change flag clear. -/
def hookedArbiter : nativeGamepads :=
  ⟨1, 2, 3, 4, 5, 6, 500, 13, 0, 0, 0, none⟩

/-- An arbiter that recorded the DirectInput error E_FAIL. -/
def failedArbiter : nativeGamepads :=
  { hookedArbiter with err := some (GoError.directInputError 0x80004005) }

/-- The hooked arbiter after a device-change notification. -/
def notifiedArbiter : nativeGamepads :=
  { hookedArbiter with deviceChanged := 1 }

/-- The system's `CallWindowProcW` of an example host: the original window
procedure answers with the sum of its arguments. -/
def exampleWindowProc (lpPrevWndFunc hWnd msg wParam lParam : Nat) : Nat :=
  lpPrevWndFunc + hWnd + msg + wParam + lParam

/-- Answers of an XInput slot whose `XInputGetState` returns the raw result
`r` and would deliver `report`. -/
def xinputEnvWith (r : Nat) (report : xinputState) : pollEnv :=
  { xinputEnv report with xinputResult := r }

/-- The adapter discovery creates for a device that reports 33 push
buttons. -/
def manyButtonsGamepad : nativeGamepad :=
  discoverDInputGamepad 1
    (List.replicate 33 ⟨⟨0, 0, 0, [0, 0, 0, 0, 0, 0, 0, 0]⟩, 0x0004, DI_OK⟩)
    ⟨1, 0, 0, [0, 0, 0, 0, 0, 0, 0, 0]⟩

/-- Answers of a device whose report reads both fail with the code
input-lost. -/
def lostEnv : pollEnv :=
  { dinputEnv diJoyState.zero with getState1 := DIERR_INPUTLOST, getState2 := DIERR_INPUTLOST }

/-- A registry with the one-hat DirectInput adapter at handle 0, an XInput
adapter at handle 1 and the example adapter at handle 2. -/
def exampleRegistry : gamepads :=
  ⟨[some ⟨shortName, "050000005553422047616d6570616400", oneHatGamepad⟩,
    some ⟨goString "Xbox Controller", "78696e70757401000000000000000000", deflectedGamepad⟩,
    some ⟨longName, "0500000047656e657269632055534220", exampleGamepad⟩]⟩

/-- A report with X at 100, Y at -200, the first slider at 300 and
everything else zero. -/
def sliderState : diJoyState :=
  { diJoyState.zero with lX := 100, lY := -200, rglSlider := fun i => if i = 0 then 300 else 0 }

/-- What `update` leaves behind on `exampleGamepad` for `sliderState`. -/
def examplePolled : updateResult :=
  ⟨{ exampleGamepad with
      dinputAxes := [normalizeAxis 100, normalizeAxis (-200), normalizeAxis 300],
      dinputButtons := [false, false, false, false],
      dinputHats := [hatUp] }, none, false⟩

/-- The adapter discovery creates for a device that reports three sliders. -/
def threeSlidersGamepad : nativeGamepad :=
  discoverDInputGamepad 1
    [⟨guidSlider, 0x0002, DI_OK⟩, ⟨guidSlider, 0x0102, DI_OK⟩, ⟨guidSlider, 0x0202, DI_OK⟩]
    ⟨1, 0, 0, [0, 0, 0, 0, 0, 0, 0, 0]⟩

/-- The adapter discovery creates for a device that reports five
point-of-view hats. -/
def fiveHatsGamepad : nativeGamepad :=
  discoverDInputGamepad 1
    [⟨guidPOV, 0x0010, DI_OK⟩, ⟨guidPOV, 0x0110, DI_OK⟩, ⟨guidPOV, 0x0210, DI_OK⟩,
      ⟨guidPOV, 0x0310, DI_OK⟩, ⟨guidPOV, 0x0410, DI_OK⟩]
    ⟨1, 0, 0, [0, 0, 0, 0, 0, 0, 0, 0]⟩

/-- Raw-input answers of a host without any raw-input device: both calls
succeed and the count is 0. -/
def rawInputEmpty : rawInputEnv := ⟨0, 0, 0, 0, 0, 0, []⟩

/-- The example host when `EnumDevices` fails with E_FAIL. -/
def brokenHardware : hardware :=
  { exampleHardware with enumDevicesResult := 0x80004005 }

/-- The objects of a device with all six true axes and two sliders, reported
in the order Rz, slider, Z, X, Ry, slider, Rx, Y. -/
def allAxesReports : List objectReport :=
  [⟨guidRzAxis, 0x0502, DI_OK⟩, ⟨guidSlider, 0x0602, DI_OK⟩, ⟨guidZAxis, 0x0202, DI_OK⟩,
    ⟨guidXAxis, 0x0002, DI_OK⟩, ⟨guidRyAxis, 0x0402, DI_OK⟩, ⟨guidSlider, 0x0702, DI_OK⟩,
    ⟨guidRxAxis, 0x0302, DI_OK⟩, ⟨guidYAxis, 0x0102, DI_OK⟩]

/-- The adapter discovery creates for `allAxesReports`. -/
def allAxesGamepad : nativeGamepad :=
  discoverDInputGamepad 1 allAxesReports ⟨1, 0, 0, [0, 0, 0, 0, 0, 0, 0, 0]⟩

/-- A report with X, Y, Z, Rx, Ry, Rz at 100, 200, 300, 400, 500, 600 and the
sliders at 700 and 800. -/
def allAxesState : diJoyState :=
  { diJoyState.zero with
    lX := 100, lY := 200, lZ := 300, lRx := 400, lRy := 500, lRz := 600,
    rglSlider := fun i => if i = 0 then 700 else 800 }

/-- What `update` leaves behind on `allAxesGamepad` for `allAxesState`. -/
def allAxesPolled : updateResult :=
  ⟨{ allAxesGamepad with
      dinputAxes := [normalizeAxis 100, normalizeAxis 200, normalizeAxis 300,
        normalizeAxis 400, normalizeAxis 500, normalizeAxis 600, normalizeAxis 700,
        normalizeAxis 800] }, none, false⟩

/-! ## Theorems -/

theorem goIndex_of_inRange {α : Type} (xs : List α) (i : Int)
    (h0 : 0 ≤ i) (h1 : i < (xs.length : Int)) : (goIndex xs i).isSome = true := by
  unfold goIndex
  have h2 : i.toNat < xs.length := by omega
  rw [if_neg (by omega)]
  simp [List.getElem?_eq_getElem h2]

theorem normalizeAxis_eq (v : Int) : normalizeAxis v = (2 * (v : ℚ) + 1) / 65535 := by
  unfold normalizeAxis
  norm_num
  ring

theorem normalizeAxis_lt {a b : Int} (h : a < b) : normalizeAxis a < normalizeAxis b := by
  rw [normalizeAxis_eq, normalizeAxis_eq]
  have h1 : (a : ℚ) < (b : ℚ) := by exact_mod_cast h
  apply div_lt_div_of_pos_right _ (by norm_num)
  linarith

theorem normalizeAxis_bounds (v : Int) (h0 : -32768 ≤ v) (h1 : v ≤ 32767) :
    -1 ≤ normalizeAxis v ∧ normalizeAxis v ≤ 1 := by
  rw [normalizeAxis_eq]
  have h2 : (-32768 : ℚ) ≤ (v : ℚ) := by exact_mod_cast h0
  have h3 : (v : ℚ) ≤ 32767 := by exact_mod_cast h1
  constructor
  · rw [le_div_iff₀ (by norm_num)]; linarith
  · rw [div_le_iff₀ (by norm_num)]; linarith

theorem trigger_bounds (b : Nat) (h : b < 256) :
    -1 ≤ (b : ℚ) / 127.5 - 1.0 ∧ (b : ℚ) / 127.5 - 1.0 ≤ 1 := by
  have h1 : (b : ℚ) ≤ 255 := by exact_mod_cast (Nat.lt_succ_iff.mp h)
  have h0 : (0 : ℚ) ≤ (b : ℚ) := by positivity
  have e : (b : ℚ) / 127.5 - 1.0 = (2 * (b : ℚ) - 255) / 255 := by norm_num; ring
  rw [e]
  constructor
  · rw [le_div_iff₀ (by norm_num)]; linarith
  · rw [div_le_iff₀ (by norm_num)]; linarith

/-- The value `update` stores for an axis or slider descriptor is the
normalization of a raw value. -/
theorem updateObject_axis_normalized (state : diJoyState) (w w1 : walkState)
    (obj : dinputObject) (h : updateObject state w obj = some w1)
    (ht : obj.objectType = dinputObjectTypeAxis ∨ obj.objectType = dinputObjectTypeSlider) :
    ∃ v : Int, w1.g.dinputAxes[w.ai]? = some (normalizeAxis v) := by
  obtain ⟨t, i⟩ := obj
  rcases ht with ht | ht <;> simp only at ht <;> subst ht
  · simp only [updateObject, goAssign, Option.map_eq_some'] at h
    obtain ⟨axes, h1, h2⟩ := h
    split at h1
    · rename_i hlt
      injection h1 with h1
      subst h1; subst h2
      exact ⟨axisField state i, by simp only [List.getElem?_set_self hlt, normalizeAxis]⟩
    · exact absurd h1 (by simp)
  · simp only [updateObject, goAssign] at h
    split at h
    · rename_i hi2
      simp only [Option.map_eq_some'] at h
      obtain ⟨axes, h1, h2⟩ := h
      split at h1
      · rename_i hlt
        injection h1 with h1
        subst h1; subst h2
        exact ⟨state.rglSlider ⟨i, hi2⟩, by simp only [List.getElem?_set_self hlt, normalizeAxis]⟩
      · exact absurd h1 (by simp)
    · exact absurd h (by simp)

/-- C1: over exact rational arithmetic the axis normalization
`n(v) = (v + 0.5) / 32767.5` is strictly monotonic, maps every signed 16-bit
value into `[-1.000015, 1.000015]` (indeed into `[-1, 1]`, with
`n(-32768) = -1` and `n(32767) = 1`), and maps 0 to `1/65535`, about
0.0000153 and not 0; it is the value `axisValue` computes for the XInput
stick fields and the value `update` stores for DirectInput axes and sliders. -/
theorem C1_normalizeAxis_monotone_bounded :
    StrictMono normalizeAxis ∧
    (∀ v : Int, -32768 ≤ v → v ≤ 32767 →
      (-1.000015 : ℚ) ≤ normalizeAxis v ∧ normalizeAxis v ≤ 1.000015 ∧
      -1 ≤ normalizeAxis v ∧ normalizeAxis v ≤ 1) ∧
    normalizeAxis (-32768) = -1 ∧ normalizeAxis 32767 = 1 ∧
    normalizeAxis 0 = 1 / 65535 ∧ normalizeAxis 0 ≠ 0 ∧
    (0.0000152 : ℚ) < normalizeAxis 0 ∧ normalizeAxis 0 < 0.0000153 ∧
    (∀ g : nativeGamepad, g.usesDInput = false →
      g.axisValue 0 = some (normalizeAxis g.xinputState.Gamepad.sThumbLX) ∧
      g.axisValue 2 = some (normalizeAxis g.xinputState.Gamepad.sThumbRX)) ∧
    (∀ (state : diJoyState) (w w1 : walkState) (obj : dinputObject),
      updateObject state w obj = some w1 →
      obj.objectType = dinputObjectTypeAxis ∨ obj.objectType = dinputObjectTypeSlider →
      ∃ v : Int, w1.g.dinputAxes[w.ai]? = some (normalizeAxis v)) := by
  refine ⟨fun a b h => normalizeAxis_lt h, ?_, ?_, ?_, ?_, ?_, ?_, ?_, ?_, ?_⟩
  · intro v h0 h1
    obtain ⟨h2, h3⟩ := normalizeAxis_bounds v h0 h1
    refine ⟨?_, ?_, h2, h3⟩
    · exact le_trans (by norm_num) h2
    · exact le_trans h3 (by norm_num)
  · rw [normalizeAxis_eq]; norm_num
  · rw [normalizeAxis_eq]; norm_num
  · rw [normalizeAxis_eq]; norm_num
  · rw [normalizeAxis_eq]; norm_num
  · rw [normalizeAxis_eq]; norm_num
  · rw [normalizeAxis_eq]; norm_num
  · intro g h
    constructor <;> simp [nativeGamepad.axisValue, h, normalizeAxis]
  · exact updateObject_axis_normalized

/-- C2: for every adapter of either variant and every integer index outside
`[0, axisCount())`, `axisValue` returns 0; for every index outside
`[0, buttonCount())`, `isButtonPressed` returns false; and neither call
panics for any integer index. -/
theorem C2_axisValue_isButtonPressed_out_of_range (g : nativeGamepad) (i : Int) :
    ((i < 0 ∨ g.axisCount ≤ i) → g.axisValue i = some 0) ∧
    ((i < 0 ∨ g.buttonCount ≤ i) → g.isButtonPressed i = some false) ∧
    (g.axisValue i).isSome = true ∧ (g.isButtonPressed i).isSome = true := by
  refine ⟨?_, ?_, ?_, ?_⟩
  · intro h
    unfold nativeGamepad.axisValue nativeGamepad.axisCount at *
    cases hd : g.usesDInput
    · simp only [hd, Bool.false_eq_true, if_false] at h ⊢
      have h0 : i ≠ 0 := by omega
      have h1 : i ≠ 1 := by omega
      have h2 : i ≠ 2 := by omega
      have h3 : i ≠ 3 := by omega
      have h4 : i ≠ 4 := by omega
      have h5 : i ≠ 5 := by omega
      simp [h0, h1, h2, h3, h4, h5]
    · simp only [hd, if_true] at h ⊢
      rw [if_pos (by omega)]
  · intro h
    unfold nativeGamepad.isButtonPressed nativeGamepad.buttonCount at *
    cases hd : g.usesDInput
    · simp only [hd, Bool.false_eq_true, if_false] at h ⊢
      rw [if_pos (by omega)]
    · simp only [hd, if_true] at h ⊢
      rw [if_pos (by omega)]
  · unfold nativeGamepad.axisValue
    cases hd : g.usesDInput
    · simp
    · simp only [if_true]
      split
      · rfl
      · exact goIndex_of_inRange _ _ (by omega) (by omega)
  · unfold nativeGamepad.isButtonPressed
    cases hd : g.usesDInput
    · simp only [Bool.false_eq_true, if_false]
      split
      · rfl
      · rw [Option.isSome_map']
        exact goIndex_of_inRange _ _ (by omega) (by omega)
    · simp only [if_true]
      split
      · rfl
      · exact goIndex_of_inRange _ _ (by omega) (by omega)

/-- C3: on the DirectInput adapter discovery creates for a device with one
hat, `hatCount()` is 1 and `hatState(0)` is centered, but `hatState(1)` and
`hatState(-1)` panic (index out of range) where the claim promises the
centered value; the XInput variant does return 0 for the same indices. -/
theorem C3_hatState_dinput_out_of_range_panics :
    oneHatGamepad.usesDInput = true ∧ oneHatGamepad.hatCount = 1 ∧
    oneHatGamepad.hatState 0 = some hatCentered ∧
    oneHatGamepad.hatState 1 = none ∧ oneHatGamepad.hatState (-1) = none ∧
    (newXInputGamepad 0).hatState 1 = some 0 ∧
    (newXInputGamepad 0).hatState (-1) = some 0 := by
  decide

/-- C6: for an XInput adapter whose last-polled report holds well-typed
fields, axes 0..3 are the normalized stick fields with the vertical axes 1
and 3 negated, axes 4 and 5 are `trigger/127.5 - 1`, a trigger byte 255 gives
exactly 1 and 0 gives exactly -1, and all six values lie in `[-1, 1]`. -/
theorem C6_xinput_axisValue (g : nativeGamepad) (hx : g.usesDInput = false)
    (hr : g.xinputState.Gamepad.InRange) :
    g.axisValue 0 = some (normalizeAxis g.xinputState.Gamepad.sThumbLX) ∧
    g.axisValue 1 = some (-normalizeAxis g.xinputState.Gamepad.sThumbLY) ∧
    g.axisValue 2 = some (normalizeAxis g.xinputState.Gamepad.sThumbRX) ∧
    g.axisValue 3 = some (-normalizeAxis g.xinputState.Gamepad.sThumbRY) ∧
    g.axisValue 4 = some ((g.xinputState.Gamepad.bLeftTrigger : ℚ) / 127.5 - 1) ∧
    g.axisValue 5 = some ((g.xinputState.Gamepad.bRightTrigger : ℚ) / 127.5 - 1) ∧
    (g.xinputState.Gamepad.bLeftTrigger = 255 → g.axisValue 4 = some 1) ∧
    (g.xinputState.Gamepad.bLeftTrigger = 0 → g.axisValue 4 = some (-1)) ∧
    (g.xinputState.Gamepad.bRightTrigger = 255 → g.axisValue 5 = some 1) ∧
    (g.xinputState.Gamepad.bRightTrigger = 0 → g.axisValue 5 = some (-1)) ∧
    (∀ i : Int, 0 ≤ i → i < g.axisCount →
      ∃ v : ℚ, g.axisValue i = some v ∧ -1 ≤ v ∧ v ≤ 1) := by
  obtain ⟨_, hlt, hrt, hlx, hly, hrx, hry⟩ := hr
  have e0 : g.axisValue 0 = some (normalizeAxis g.xinputState.Gamepad.sThumbLX) := by
    simp [nativeGamepad.axisValue, hx, normalizeAxis]
  have e1 : g.axisValue 1 = some (-normalizeAxis g.xinputState.Gamepad.sThumbLY) := by
    simp [nativeGamepad.axisValue, hx, normalizeAxis]
    ring
  have e2 : g.axisValue 2 = some (normalizeAxis g.xinputState.Gamepad.sThumbRX) := by
    simp [nativeGamepad.axisValue, hx, normalizeAxis]
  have e3 : g.axisValue 3 = some (-normalizeAxis g.xinputState.Gamepad.sThumbRY) := by
    simp [nativeGamepad.axisValue, hx, normalizeAxis]
    ring
  have e4 : g.axisValue 4 = some ((g.xinputState.Gamepad.bLeftTrigger : ℚ) / 127.5 - 1) := by
    simp [nativeGamepad.axisValue, hx]
    norm_num
  have e5 : g.axisValue 5 = some ((g.xinputState.Gamepad.bRightTrigger : ℚ) / 127.5 - 1) := by
    simp [nativeGamepad.axisValue, hx]
    norm_num
  refine ⟨e0, e1, e2, e3, e4, e5, ?_, ?_, ?_, ?_, ?_⟩
  · intro h; rw [e4, h]; norm_num
  · intro h; rw [e4, h]; norm_num
  · intro h; rw [e5, h]; norm_num
  · intro h; rw [e5, h]; norm_num
  · intro i h0 h1
    have hc : g.axisCount = 6 := by simp [nativeGamepad.axisCount, hx]
    rw [hc] at h1
    have hi : i = 0 ∨ i = 1 ∨ i = 2 ∨ i = 3 ∨ i = 4 ∨ i = 5 := by omega
    rcases hi with rfl | rfl | rfl | rfl | rfl | rfl
    · exact ⟨_, e0, normalizeAxis_bounds _ hlx.1 hlx.2⟩
    · obtain ⟨a, b⟩ := normalizeAxis_bounds _ hly.1 hly.2
      exact ⟨_, e1, by linarith, by linarith⟩
    · exact ⟨_, e2, normalizeAxis_bounds _ hrx.1 hrx.2⟩
    · obtain ⟨a, b⟩ := normalizeAxis_bounds _ hry.1 hry.2
      exact ⟨_, e3, by linarith, by linarith⟩
    · obtain ⟨a, b⟩ := trigger_bounds _ hlt
      exact ⟨_, e4, by norm_num at a ⊢; linarith, by norm_num at b ⊢; linarith⟩
    · obtain ⟨a, b⟩ := trigger_bounds _ hrt
      exact ⟨_, e5, by norm_num at a ⊢; linarith, by norm_num at b ⊢; linarith⟩


/-- C6 at a concrete report: the left stick fully left and fully up and the
right trigger fully pressed. -/
theorem C6_xinput_axisValue_witness :
    deflectedGamepad.usesDInput = false ∧ deflectedGamepad.xinputState.Gamepad.InRange ∧
    deflectedGamepad.axisValue 0 = some (-1) ∧ deflectedGamepad.axisValue 1 = some (-1) ∧
    deflectedGamepad.axisValue 5 = some 1 := by
  have h := C6_xinput_axisValue deflectedGamepad (by decide) (by decide)
  refine ⟨by decide, by decide, ?_, ?_, h.2.2.2.2.2.2.2.2.1 rfl⟩
  · rw [h.1]
    simp only [deflectedGamepad, xinputGamepadWith, newXInputGamepad, normalizeAxis_eq]
    norm_num
  · rw [h.2.1]
    simp only [deflectedGamepad, xinputGamepadWith, newXInputGamepad, normalizeAxis_eq]
    norm_num

theorem hatOfPOV_eq_hatBucket (raw : Nat) : hatOfPOV raw = hatBucket raw := by
  unfold hatOfPOV hatBucket hatDirections DI_DEGREES
  by_cases h : raw < 36000
  · have hk : raw / 4500 < 8 := by omega
    rw [if_pos h]
    have e : 45 * 100 = 4500 := rfl
    simp only [e]
    generalize raw / 4500 = k at hk
    interval_cases k <;> rfl
  · have hk : 8 ≤ raw / 4500 := by omega
    rw [if_neg h]
    have e : 45 * 100 = 4500 := rfl
    simp only [e]
    generalize raw / 4500 = k at hk
    have h0 : k ≠ 0 := by omega
    have h1 : k ≠ 1 := by omega
    have h2 : k ≠ 2 := by omega
    have h3 : k ≠ 3 := by omega
    have h4 : k ≠ 4 := by omega
    have h5 : k ≠ 5 := by omega
    have h6 : k ≠ 6 := by omega
    have h7 : k ≠ 7 := by omega
    simp [h0, h1, h2, h3, h4, h5, h6, h7]

theorem hatBucket_mem (raw : Nat) : hatBucket raw ∈ hatPositions := by
  unfold hatBucket hatDirections
  by_cases h : raw < 36000
  · have hk : raw / 4500 < 8 := by omega
    rw [if_pos h]
    generalize raw / 4500 = k at hk
    interval_cases k <;> decide
  · rw [if_neg h]; decide

/-- The point-of-view case of one loop iteration. -/
theorem updateObject_pov (state : diJoyState) (w w1 : walkState) (obj : dinputObject)
    (h : updateObject state w obj = some w1) (ht : obj.objectType = dinputObjectTypePOV) :
    ∃ h4 : obj.index < 4, w.hi < w.g.dinputHats.length ∧
      w1.g.dinputHats = w.g.dinputHats.set w.hi (hatOfPOV (state.rgdwPOV ⟨obj.index, h4⟩)) ∧
      w1.hi = w.hi + 1 ∧ w1.g.dinputDevice = w.g.dinputDevice := by
  obtain ⟨t, i⟩ := obj
  simp only at ht
  subst ht
  simp only [updateObject, goAssign] at h
  split at h
  · rename_i h4
    simp only [Option.map_eq_some'] at h
    obtain ⟨hats, h1, h2⟩ := h
    split at h1
    · rename_i hlt
      injection h1 with h1
      subst h1; subst h2
      exact ⟨h4, hlt, rfl, rfl, rfl⟩
    · exact absurd h1 (by simp)
  · exact absurd h (by simp)

/-- Any other case of one loop iteration leaves the hats alone. -/
theorem updateObject_not_pov (state : diJoyState) (w w1 : walkState) (obj : dinputObject)
    (h : updateObject state w obj = some w1) (ht : obj.objectType ≠ dinputObjectTypePOV) :
    w1.g.dinputHats = w.g.dinputHats ∧ w1.hi = w.hi ∧
      w1.g.dinputDevice = w.g.dinputDevice := by
  obtain ⟨t, i⟩ := obj
  simp only at ht
  cases t
  · simp only [updateObject, goAssign, Option.map_eq_some'] at h
    obtain ⟨axes, h1, h2⟩ := h
    subst h2
    exact ⟨rfl, rfl, rfl⟩
  · simp only [updateObject, goAssign] at h
    split at h
    · simp only [Option.map_eq_some'] at h
      obtain ⟨axes, h1, h2⟩ := h
      subst h2
      exact ⟨rfl, rfl, rfl⟩
    · exact absurd h (by simp)
  · simp only [updateObject, goAssign] at h
    split at h
    · simp only [Option.map_eq_some'] at h
      obtain ⟨axes, h1, h2⟩ := h
      subst h2
      exact ⟨rfl, rfl, rfl⟩
    · exact absurd h (by simp)
  · exact absurd rfl ht

/-- The hats after the loop: the length is kept, the slots below the
starting counter are kept, and the k-th point-of-view descriptor fills slot
`hi + k` with the bucket of its raw value. -/
theorem updateObjects_hats (state : diJoyState) :
    ∀ (objs : List dinputObject) (w w1 : walkState),
      updateObjects state w objs = some w1 →
      w1.g.dinputHats.length = w.g.dinputHats.length ∧
      w1.g.dinputDevice = w.g.dinputDevice ∧
      (∀ j, j < w.hi → w1.g.dinputHats[j]? = w.g.dinputHats[j]?) ∧
      (∀ k obj, (povObjects objs)[k]? = some obj →
        ∃ h4 : obj.index < 4,
          w1.g.dinputHats[w.hi + k]? = some (hatOfPOV (state.rgdwPOV ⟨obj.index, h4⟩))) ∧
      (∀ x ∈ w1.g.dinputHats, x ∈ w.g.dinputHats ∨ x ∈ hatPositions) := by
  intro objs
  induction objs with
  | nil =>
    intro w w1 h
    simp only [updateObjects, Option.some.injEq] at h
    subst h
    refine ⟨rfl, rfl, fun _ _ => rfl, ?_, fun x hx => Or.inl hx⟩
    intro k obj hk
    simp [povObjects] at hk
  | cons o objs ih =>
    intro w w1 h
    simp only [updateObjects] at h
    cases h2 : updateObject state w o with
    | none => rw [h2] at h; exact absurd h (by simp)
    | some w2 =>
      rw [h2] at h
      simp only at h
      obtain ⟨ihl, ihd, ihk, ihp, ihm⟩ := ih w2 w1 h
      by_cases ht : o.objectType = dinputObjectTypePOV
      · obtain ⟨h4, hlt, hset, hhi, hdev⟩ := updateObject_pov state w w2 o h2 ht
        refine ⟨?_, ?_, ?_, ?_, ?_⟩
        · rw [ihl, hset, List.length_set]
        · rw [ihd, hdev]
        · intro j hj
          rw [ihk j (by omega), hset, List.getElem?_set_ne (by omega)]
        · intro k obj hk
          have hp : povObjects (o :: objs) = o :: povObjects objs := by
            simp [povObjects, ht]
          rw [hp] at hk
          cases k with
          | zero =>
            simp only [List.getElem?_cons_zero, Option.some.injEq] at hk
            subst hk
            refine ⟨h4, ?_⟩
            rw [Nat.add_zero, ihk w.hi (by omega), hset, List.getElem?_set_self hlt]
          | succ k =>
            simp only [List.getElem?_cons_succ] at hk
            obtain ⟨h4b, hv⟩ := ihp k obj hk
            refine ⟨h4b, ?_⟩
            rw [← hv, hhi]
            congr 1
            omega
        · intro x hx
          rcases ihm x hx with hx2 | hx2
          · rw [hset] at hx2
            rcases List.mem_or_eq_of_mem_set hx2 with hx3 | hx3
            · exact Or.inl hx3
            · right
              rw [hx3, hatOfPOV_eq_hatBucket]
              exact hatBucket_mem _
          · exact Or.inr hx2
      · obtain ⟨hh, hhi, hdev⟩ := updateObject_not_pov state w w2 o h2 ht
        refine ⟨?_, ?_, ?_, ?_, ?_⟩
        · rw [ihl, hh]
        · rw [ihd, hdev]
        · intro j hj
          rw [ihk j (by omega), hh]
        · intro k obj hk
          have hp : povObjects (o :: objs) = povObjects objs := by
            simp [povObjects, ht]
          rw [hp] at hk
          obtain ⟨h4b, hv⟩ := ihp k obj hk
          exact ⟨h4b, by rw [← hv, hhi]⟩
        · intro x hx
          rcases ihm x hx with hx2 | hx2
          · exact Or.inl (hh ▸ hx2)
          · exact Or.inr hx2

/-- The three ways a call of `update` can end without a panic: the adapter
is untouched and the call reports an error or a disconnect; a DirectInput
poll succeeded and the loop over the descriptors ran on the report read; an
XInput poll succeeded and the report was stored. -/
theorem update_cases (g : nativeGamepad) (env : pollEnv) (r : updateResult)
    (h : g.update env = some r) :
    (r.g = g ∧ (r.err.isSome = true ∨ r.disconnected = true)) ∨
    (g.usesDInput = true ∧ r.err = none ∧ r.disconnected = false ∧
      ∃ w, updateObjects env.report ⟨g, 0, 0, 0⟩ g.dinputObjects = some w ∧ r.g = w.g) ∨
    (g.usesDInput = false ∧ r.err = none ∧ r.disconnected = false ∧
      r.g = { g with xinputState := env.xinputReport }) := by
  unfold nativeGamepad.update at h
  simp only at h
  split at h
  · rename_i hd
    split at h
    · injection h with h; subst h; exact Or.inl ⟨rfl, Or.inl rfl⟩
    · split at h
      · rename_i hs1
        simp only [Option.map_eq_some'] at h
        obtain ⟨w, hw, hr⟩ := h
        subst hr
        refine Or.inr (Or.inl ⟨hd, rfl, rfl, w, ?_, rfl⟩)
        simp only [pollEnv.report, hs1, if_true]
        exact hw
      · rename_i err hs1
        split at h
        · injection h with h; subst h; exact Or.inl ⟨rfl, Or.inl rfl⟩
        · split at h
          · injection h with h; subst h; exact Or.inl ⟨rfl, Or.inl rfl⟩
          · split at h
            · simp only [Option.map_eq_some'] at h
              obtain ⟨w, hw, hr⟩ := h
              subst hr
              refine Or.inr (Or.inl ⟨hd, rfl, rfl, w, ?_, rfl⟩)
              simp only [pollEnv.report, hs1]
              exact hw
            · split at h
              · injection h with h; subst h; exact Or.inl ⟨rfl, Or.inl rfl⟩
              · injection h with h; subst h; exact Or.inl ⟨rfl, Or.inr rfl⟩
  · rename_i hd
    split at h
    · split at h
      · injection h with h; subst h; exact Or.inl ⟨rfl, Or.inl rfl⟩
      · injection h with h; subst h; exact Or.inl ⟨rfl, Or.inr rfl⟩
    · injection h with h; subst h
      exact Or.inr (Or.inr ⟨by simpa using hd, rfl, rfl, rfl⟩)

theorem update_oneHat : oneHatGamepad.update (dinputEnv povRightState) = some oneHatPolled := by
  rfl

theorem xinputPolled_reachable (report : xinputState) : Reachable (xinputPolled report) :=
  Reachable.update (newXInputGamepad 0) (xinputEnv report)
    ⟨xinputPolled report, none, false⟩ (Reachable.xinput 0) rfl

/-- C4: in a successful DirectInput poll the hat slot of the k-th
point-of-view descriptor holds the direction numbered `floor(r / 4500)` (in
the order Up, RightUp, Right, RightDown, Down, LeftDown, Left, LeftUp) of
its raw value `r` when `r < 36000` and Centered otherwise, also for the
sentinels 0xFFFFFFFF and 0xFFFF; 0, 9000, 18000, 27000 give Up, Right, Down,
Left, and a multiple of 4500 falls in the higher-index bucket. -/
theorem C4_dinput_hat_bucketing (g : nativeGamepad) (env : pollEnv) (r : updateResult)
    (hd : g.usesDInput = true) (h : g.update env = some r)
    (he : r.err = none) (hc : r.disconnected = false) :
    (∀ (k : Nat) (obj : dinputObject), (povObjects g.dinputObjects)[k]? = some obj →
      ∃ h4 : obj.index < 4,
        r.g.dinputHats[k]? = some (hatOfPOV (env.report.rgdwPOV ⟨obj.index, h4⟩))) ∧
    (∀ raw : Nat, hatOfPOV raw = hatBucket raw) ∧
    (∀ raw : Nat, raw < 36000 → hatOfPOV raw = hatDirections.getD (raw / 4500) hatCentered) ∧
    (∀ raw : Nat, 36000 ≤ raw → hatOfPOV raw = hatCentered) ∧
    hatOfPOV 0 = hatUp ∧ hatOfPOV 9000 = hatRight ∧ hatOfPOV 18000 = hatDown ∧
    hatOfPOV 27000 = hatLeft ∧ hatOfPOV 0xFFFFFFFF = hatCentered ∧
    hatOfPOV 0xFFFF = hatCentered ∧
    (∀ k : Nat, 1 ≤ k → k < 8 →
      hatOfPOV (4500 * k) = hatDirections.getD k hatCentered ∧
      hatOfPOV (4500 * k - 1) = hatDirections.getD (k - 1) hatCentered) := by
  refine ⟨?_, hatOfPOV_eq_hatBucket, ?_, ?_, by decide, by decide, by decide, by decide,
    by decide, by decide, ?_⟩
  · rcases update_cases g env r h with ⟨_, h1 | h1⟩ | ⟨_, _, _, w, hw, hg⟩ | ⟨h1, _⟩
    · rw [he] at h1; exact absurd h1 (by simp)
    · rw [hc] at h1; exact absurd h1 (by simp)
    · intro k obj hk
      obtain ⟨_, _, _, hp, _⟩ := updateObjects_hats env.report g.dinputObjects _ w hw
      obtain ⟨h4, hv⟩ := hp k obj hk
      refine ⟨h4, ?_⟩
      rw [hg, ← hv]
      simp
    · rw [hd] at h1; exact absurd h1 (by simp)
  · intro raw hlt
    rw [hatOfPOV_eq_hatBucket, hatBucket, if_pos hlt]
  · intro raw hge
    rw [hatOfPOV_eq_hatBucket, hatBucket, if_neg (by omega)]
  · intro k h1 h8
    interval_cases k <;> decide

/-- C4 on the one-hat adapter: a raw value of 9000 is stored as Right. -/
theorem C4_dinput_hat_bucketing_witness :
    oneHatGamepad.usesDInput = true ∧
    oneHatGamepad.update (dinputEnv povRightState) = some oneHatPolled ∧
    oneHatPolled.g.dinputHats[0]? = some hatRight := by
  refine ⟨rfl, update_oneHat, ?_⟩
  obtain ⟨h4, hv⟩ := (C4_dinput_hat_bucketing oneHatGamepad (dinputEnv povRightState)
    oneHatPolled rfl update_oneHat rfl rfl).1 0 ⟨dinputObjectTypePOV, 0⟩ (by decide)
  rw [hv]
  simp [hatOfPOV, dinputEnv, povRightState, pollEnv.report,
    iDirectInputDevice8W.GetDeviceState, DI_OK, DI_DEGREES, diJoyState.zero, hatRight]

theorem goIndex_mem {α : Type} (xs : List α) (i : Int) (v : α)
    (h : goIndex xs i = some v) : v ∈ xs := by
  unfold goIndex at h
  split at h
  · exact absurd h (by simp)
  · exact List.getElem?_mem h

/-- Every hat slot of a reachable DirectInput adapter holds one of the nine
positions. -/
theorem reachable_hats (g : nativeGamepad) (hr : Reachable g) :
    g.usesDInput = true → ∀ x ∈ g.dinputHats, x ∈ hatPositions := by
  induction hr with
  | dinput device reports guidInstance =>
    intro _ x hx
    simp only [discoverDInputGamepad, newDInputGamepad] at hx
    rw [List.eq_of_mem_replicate hx]
    decide
  | xinput i =>
    intro h
    exact absurd h (by simp [nativeGamepad.usesDInput, newXInputGamepad])
  | update g env r _ hu ih =>
    intro hd x hx
    rcases update_cases g env r hu with ⟨hg, _⟩ | ⟨hgd, _, _, w, hw, hg⟩ | ⟨hgd, _, _, hg⟩
    · rw [hg] at hd hx
      exact ih hd x hx
    · obtain ⟨_, _, _, _, hm⟩ := updateObjects_hats env.report g.dinputObjects _ w hw
      rw [hg] at hx
      rcases hm x hx with h1 | h1
      · exact ih hgd x h1
      · exact h1
    · rw [hg] at hd
      simp only [nativeGamepad.usesDInput] at hd hgd
      rw [hgd] at hd
      exact absurd hd (by simp)

/-- The value `hatState(0)` of an XInput adapter, from the four D-pad tests. -/
theorem xinput_hatState_zero (g : nativeGamepad) (hx : g.usesDInput = false) :
    g.hatState 0 = some (
      (if g.xinputState.Gamepad.wButtons &&& XINPUT_GAMEPAD_DPAD_UP ≠ 0 then hatUp else 0) |||
      (if g.xinputState.Gamepad.wButtons &&& XINPUT_GAMEPAD_DPAD_RIGHT ≠ 0 then hatRight else 0) |||
      (if g.xinputState.Gamepad.wButtons &&& XINPUT_GAMEPAD_DPAD_DOWN ≠ 0 then hatDown else 0) |||
      (if g.xinputState.Gamepad.wButtons &&& XINPUT_GAMEPAD_DPAD_LEFT ≠ 0 then hatLeft else 0)) := by
  unfold nativeGamepad.hatState
  simp only [hx, Bool.false_eq_true, if_false, ne_eq, not_true_eq_false]
  by_cases hu : g.xinputState.Gamepad.wButtons &&& XINPUT_GAMEPAD_DPAD_UP = 0 <;>
  by_cases hr : g.xinputState.Gamepad.wButtons &&& XINPUT_GAMEPAD_DPAD_RIGHT = 0 <;>
  by_cases hdn : g.xinputState.Gamepad.wButtons &&& XINPUT_GAMEPAD_DPAD_DOWN = 0 <;>
  by_cases hl : g.xinputState.Gamepad.wButtons &&& XINPUT_GAMEPAD_DPAD_LEFT = 0 <;>
  simp only [hu, hr, hdn, hl, not_true_eq_false, not_false_eq_true, if_true, if_false] <;>
  rfl

/-- C7 as amended: in every reachable state and for every hat index in
range, `hatState` of a DirectInput adapter returns one of the nine positions;
`hatState` of an XInput adapter returns the union of the flags Up, Right,
Down, Left of the D-pad bits set in `wButtons`, a value below 16 that is
one of the nine positions exactly when no two opposite D-pad bits (UP and
DOWN, or LEFT and RIGHT) are both set. -/
theorem C7_hatState_values (g : nativeGamepad) (hr : Reachable g) (i : Int)
    (h0 : 0 ≤ i) (h1 : i < g.hatCount) :
    ∃ v : Nat, g.hatState i = some v ∧
      (g.usesDInput = true → v ∈ hatPositions) ∧
      (g.usesDInput = false →
        v = ((if g.xinputState.Gamepad.wButtons &&& XINPUT_GAMEPAD_DPAD_UP ≠ 0
                then hatUp else 0) |||
             (if g.xinputState.Gamepad.wButtons &&& XINPUT_GAMEPAD_DPAD_RIGHT ≠ 0
                then hatRight else 0) |||
             (if g.xinputState.Gamepad.wButtons &&& XINPUT_GAMEPAD_DPAD_DOWN ≠ 0
                then hatDown else 0) |||
             (if g.xinputState.Gamepad.wButtons &&& XINPUT_GAMEPAD_DPAD_LEFT ≠ 0
                then hatLeft else 0)) ∧
        v < 16 ∧
        (v ∈ hatPositions ↔
          ¬ (g.xinputState.Gamepad.wButtons &&& XINPUT_GAMEPAD_DPAD_UP ≠ 0 ∧
              g.xinputState.Gamepad.wButtons &&& XINPUT_GAMEPAD_DPAD_DOWN ≠ 0) ∧
          ¬ (g.xinputState.Gamepad.wButtons &&& XINPUT_GAMEPAD_DPAD_LEFT ≠ 0 ∧
              g.xinputState.Gamepad.wButtons &&& XINPUT_GAMEPAD_DPAD_RIGHT ≠ 0))) := by
  cases hd : g.usesDInput
  · have hc : g.hatCount = 1 := by simp [nativeGamepad.hatCount, hd]
    have hi : i = 0 := by omega
    subst hi
    refine ⟨_, xinput_hatState_zero g hd, fun h => absurd h (by simp), fun _ => ⟨rfl, ?_, ?_⟩⟩
    · by_cases hu : g.xinputState.Gamepad.wButtons &&& XINPUT_GAMEPAD_DPAD_UP = 0 <;>
      by_cases hr : g.xinputState.Gamepad.wButtons &&& XINPUT_GAMEPAD_DPAD_RIGHT = 0 <;>
      by_cases hdn : g.xinputState.Gamepad.wButtons &&& XINPUT_GAMEPAD_DPAD_DOWN = 0 <;>
      by_cases hl : g.xinputState.Gamepad.wButtons &&& XINPUT_GAMEPAD_DPAD_LEFT = 0 <;>
      simp only [hu, hr, hdn, hl, ne_eq, not_true_eq_false, not_false_eq_true, if_true,
        if_false] <;>
      decide
    · by_cases hu : g.xinputState.Gamepad.wButtons &&& XINPUT_GAMEPAD_DPAD_UP = 0 <;>
      by_cases hr : g.xinputState.Gamepad.wButtons &&& XINPUT_GAMEPAD_DPAD_RIGHT = 0 <;>
      by_cases hdn : g.xinputState.Gamepad.wButtons &&& XINPUT_GAMEPAD_DPAD_DOWN = 0 <;>
      by_cases hl : g.xinputState.Gamepad.wButtons &&& XINPUT_GAMEPAD_DPAD_LEFT = 0 <;>
      simp only [hu, hr, hdn, hl, ne_eq, not_true_eq_false, not_false_eq_true, if_true,
        if_false, and_self, and_true, and_false, iff_true, iff_false] <;>
      decide
  · have hc : g.hatCount = (g.dinputHats.length : Int) := by simp [nativeGamepad.hatCount, hd]
    rw [hc] at h1
    have hs := goIndex_of_inRange g.dinputHats i h0 h1
    obtain ⟨v, hv⟩ := Option.isSome_iff_exists.mp hs
    refine ⟨v, ?_, fun _ => reachable_hats g hr hd v (goIndex_mem _ _ _ hv),
      fun h => absurd h (by simp)⟩
    simp only [nativeGamepad.hatState, hd, if_true]
    exact hv

/-- C7 on an XInput adapter polled with UP and RIGHT set: hat 0 is RightUp. -/
theorem C7_hatState_values_witness :
    Reachable (xinputPolled upRightReport) ∧ (0 : Int) ≤ 0 ∧
    (0 : Int) < (xinputPolled upRightReport).hatCount ∧
    (xinputPolled upRightReport).hatState 0 = some hatRightUp ∧
    hatRightUp ∈ hatPositions := by
  obtain ⟨v, hv, _, hx⟩ := C7_hatState_values (xinputPolled upRightReport)
    (xinputPolled_reachable upRightReport) 0 (by decide) (by decide)
  obtain ⟨he, _, hm⟩ := hx rfl
  have e : v = hatRightUp := by rw [he]; decide
  subst e
  exact ⟨xinputPolled_reachable upRightReport, by decide, by decide, hv, hm.mpr (by decide)⟩

/-- C7 fails as stated: the XInput adapter polled with the D-pad bits UP and
DOWN both set is reachable, hat index 0 is in range, and `hatState(0)` is 5,
which is none of the nine positions. -/
theorem C7_hatState_opposite_dpad_counterexample :
    Reachable (xinputPolled upDownReport) ∧
    upDownReport.Gamepad.wButtons < 65536 ∧
    (0 : Int) < (xinputPolled upDownReport).hatCount ∧
    (xinputPolled upDownReport).hatState 0 = some 5 ∧ 5 ∉ hatPositions :=
  ⟨xinputPolled_reachable upDownReport, by decide, by decide, by decide, by decide⟩

theorem countKind_append (t : dinputObjectType) (xs : List dinputObject) (o : dinputObject) :
    countKind t (xs ++ [o]) = countKind t xs + if o.objectType = t then 1 else 0 := by
  unfold countKind
  rw [List.countP_append, List.countP_cons, List.countP_nil]
  by_cases h : o.objectType = t <;> simp [h]

theorem callback_countsAgree (o : objectReport) (ctx : enumObjectsContext)
    (h : ctx.CountsAgree) : (dinputDevice8EnumObjectsCallback o ctx).1.CountsAgree := by
  obtain ⟨ha, hs, hb, hp⟩ := h
  unfold dinputDevice8EnumObjectsCallback
  by_cases h1 : diDftGetType o.dwType &&& DIDFT_AXIS ≠ 0
  · rw [if_pos h1]
    cases axisIndex o.guidType ctx.sliderCount with
    | none => exact ⟨ha, hs, hb, hp⟩
    | some index =>
      cases iDirectInputDevice8W.SetProperty o.setRangeResult with
      | some e => exact ⟨ha, hs, hb, hp⟩
      | none =>
        by_cases h2 : o.guidType = guidSlider
        · simp only [h2, if_true]
          refine ⟨?_, ?_, ?_, ?_⟩ <;> simp [countKind_append, ha, hs, hb, hp]
        · simp only [h2, if_false]
          refine ⟨?_, ?_, ?_, ?_⟩ <;> simp [countKind_append, ha, hs, hb, hp]
  · rw [if_neg h1]
    by_cases h2 : diDftGetType o.dwType &&& DIDFT_BUTTON ≠ 0
    · rw [if_pos h2]
      refine ⟨?_, ?_, ?_, ?_⟩ <;> simp [countKind_append, ha, hs, hb, hp]
    · rw [if_neg h2]
      by_cases h3 : diDftGetType o.dwType &&& DIDFT_POV ≠ 0
      · rw [if_pos h3]
        refine ⟨?_, ?_, ?_, ?_⟩ <;> simp [countKind_append, ha, hs, hb, hp]
      · rw [if_neg h3]
        exact ⟨ha, hs, hb, hp⟩

theorem enumObjects_countsAgree (reports : List objectReport) :
    ∀ ctx : enumObjectsContext, ctx.CountsAgree → (enumObjects reports ctx).CountsAgree := by
  induction reports with
  | nil => intro ctx h; exact h
  | cons o os ih =>
    intro ctx h
    simp only [enumObjects]
    split
    · exact callback_countsAgree o ctx h
    · exact ih _ (callback_countsAgree o ctx h)

theorem countKind_sortObjects (t : dinputObjectType) (objects : List dinputObject) :
    countKind t (sortObjects objects) = countKind t objects :=
  (List.perm_insertionSort _ objects).countP_eq _

theorem length_eq_countKind (objects : List dinputObject) :
    objects.length = countKind dinputObjectTypeAxis objects +
      countKind dinputObjectTypeSlider objects + countKind dinputObjectTypeButton objects +
      countKind dinputObjectTypePOV objects := by
  induction objects with
  | nil => rfl
  | cons o os ih =>
    obtain ⟨t, i⟩ := o
    simp only [countKind] at ih ⊢
    cases t <;> simp [List.countP_cons, ih] <;> omega

/-- C5: for every sequence of objects reported during discovery, the adapter
created has `axisCount()` equal to the number of Axis plus Slider
descriptors of its descriptor list, `buttonCount()` the number of Button
descriptors and `hatCount()` the number of Hat descriptors, so the length of
the descriptor list is the sum of the three array lengths; two true axes,
one slider, four buttons and one hat give 3, 4 and 1. -/
theorem C5_discovery_counts (device : Nat) (reports : List objectReport) (guidInstance : GUID) :
    (discoverDInputGamepad device reports guidInstance).axisCount =
      ((countKind dinputObjectTypeAxis
          (discoverDInputGamepad device reports guidInstance).dinputObjects +
        countKind dinputObjectTypeSlider
          (discoverDInputGamepad device reports guidInstance).dinputObjects : Nat) : Int) ∧
    (discoverDInputGamepad device reports guidInstance).buttonCount =
      ((countKind dinputObjectTypeButton
          (discoverDInputGamepad device reports guidInstance).dinputObjects : Nat) : Int) ∧
    (discoverDInputGamepad device reports guidInstance).hatCount =
      ((countKind dinputObjectTypePOV
          (discoverDInputGamepad device reports guidInstance).dinputObjects : Nat) : Int) ∧
    (((discoverDInputGamepad device reports guidInstance).dinputObjects.length : Nat) : Int) =
      (discoverDInputGamepad device reports guidInstance).axisCount +
      (discoverDInputGamepad device reports guidInstance).buttonCount +
      (discoverDInputGamepad device reports guidInstance).hatCount ∧
    (discoverDInputGamepad device reports guidInstance).dinputObjects.length =
      (discoverDInputGamepad device reports guidInstance).dinputAxes.length +
      (discoverDInputGamepad device reports guidInstance).dinputButtons.length +
      (discoverDInputGamepad device reports guidInstance).dinputHats.length ∧
    (countKind dinputObjectTypeAxis exampleGamepad.dinputObjects = 2 ∧
      countKind dinputObjectTypeSlider exampleGamepad.dinputObjects = 1 ∧
      countKind dinputObjectTypeButton exampleGamepad.dinputObjects = 4 ∧
      countKind dinputObjectTypePOV exampleGamepad.dinputObjects = 1 ∧
      exampleGamepad.axisCount = 3 ∧ exampleGamepad.buttonCount = 4 ∧
      exampleGamepad.hatCount = 1) := by
  obtain ⟨ha, hs, hb, hp⟩ := enumObjects_countsAgree reports ⟨device, [], 0, 0, 0, 0⟩
    ⟨rfl, rfl, rfl, rfl⟩
  have hl := length_eq_countKind
    (discoverDInputGamepad device reports guidInstance).dinputObjects
  simp only [discoverDInputGamepad, newDInputGamepad, nativeGamepad.axisCount,
    nativeGamepad.buttonCount, nativeGamepad.hatCount, nativeGamepad.usesDInput,
    Option.isSome_some, if_true, List.length_replicate, countKind_sortObjects] at hl ⊢
  rw [← ha, ← hs, ← hb, ← hp] at hl ⊢
  refine ⟨rfl, rfl, rfl, by omega, by omega, ?_⟩
  decide

set_option maxRecDepth 100000 in
theorem fmt02x_byte : ∀ b : Nat, b < 256 →
    fmt02x b = [Nat.digitChar (b / 16), Nat.digitChar (b % 16)] := by
  decide

theorem digitChar_hex : ∀ d : Nat, d < 16 → Nat.digitChar d ∈ "0123456789abcdef".toList := by
  decide

theorem fmt02x_length (b : Nat) (h : b < 256) : (fmt02x b).length = 2 := by
  rw [fmt02x_byte b h]; rfl

theorem fmt02x_hex (b : Nat) (h : b < 256) :
    ∀ c ∈ fmt02x b, c ∈ "0123456789abcdef".toList := by
  intro c hc
  rw [fmt02x_byte b h] at hc
  simp only [List.mem_cons, List.mem_singleton, List.not_mem_nil, or_false] at hc
  rcases hc with rfl | rfl
  · exact digitChar_hex _ (by omega)
  · exact digitChar_hex _ (by omega)

theorem flatMap_fmt02x_length (bs : List Nat) (h : ∀ b ∈ bs, b < 256) :
    (bs.flatMap fmt02x).length = 2 * bs.length := by
  induction bs with
  | nil => rfl
  | cons b bs ih =>
    rw [List.flatMap_cons, List.length_append, fmt02x_length b (h b (List.mem_cons_self _ _)),
      ih (fun x hx => h x (List.mem_cons_of_mem _ hx)), List.length_cons]
    omega

theorem flatMap_fmt02x_hex (bs : List Nat) (h : ∀ b ∈ bs, b < 256) :
    ∀ c ∈ bs.flatMap fmt02x, c ∈ "0123456789abcdef".toList := by
  intro c hc
  rw [List.mem_flatMap] at hc
  obtain ⟨b, hb, hcb⟩ := hc
  exact fmt02x_hex b (h b hb) c hcb

/-- Reading the twelve bytes `bs[0]` .. `bs[11]` of a slice of length at
least 12 does not panic and gives its first twelve bytes. -/
theorem mapM_range_getElem? (bs : List Nat) :
    ∀ n : Nat, n ≤ bs.length → (List.range n).mapM (fun i => bs[i]?) = some (bs.take n) := by
  intro n
  induction n with
  | zero => intro _; rfl
  | succ n ih =>
    intro h
    rw [List.range_succ, List.mapM_append, ih (by omega)]
    have hn : n < bs.length := by omega
    rw [List.take_succ, List.getElem?_eq_getElem hn]
    simp only [List.mapM_cons, List.mapM_nil, List.getElem?_eq_getElem hn, bind_pure_comp,
      map_pure, Option.toList_some]
    rfl

theorem paddedName_length (name : List Nat) : 12 ≤ (paddedName name).length := by
  unfold paddedName
  split
  · rw [List.length_append, List.length_replicate]; omega
  · omega

theorem paddedName_bytes (name : List Nat) (h : ∀ b ∈ name, b < 256) :
    ∀ b ∈ paddedName name, b < 256 := by
  intro b hb
  unfold paddedName at hb
  split at hb
  · rcases List.mem_append.mp hb with h1 | h1
    · exact h b h1
    · rw [List.eq_of_mem_replicate h1]; omega
  · exact h b hb

/-- The name form of the fingerprint, without the panic case. -/
theorem dinputSdlID_name (guidProduct : GUID) (name : List Nat)
    (hp : hasPIDVID guidProduct = false) :
    dinputSdlID guidProduct name =
      some (String.mk ("05000000".toList ++ ((paddedName name).take 12).flatMap fmt02x)) := by
  unfold dinputSdlID
  simp only [hp, Bool.false_eq_true, if_false]
  rw [mapM_range_getElem? _ 12 (paddedName_length name)]
  rfl

theorem literal_hex :
    (∀ c ∈ "78696e707574".toList, c ∈ "0123456789abcdef".toList) ∧
    (∀ c ∈ "000000000000000000".toList, c ∈ "0123456789abcdef".toList) ∧
    (∀ c ∈ "03000000".toList, c ∈ "0123456789abcdef".toList) ∧
    (∀ c ∈ "05000000".toList, c ∈ "0123456789abcdef".toList) ∧
    (∀ c ∈ "0000".toList, c ∈ "0123456789abcdef".toList) ∧
    (∀ c ∈ "000000000000".toList, c ∈ "0123456789abcdef".toList) := by
  decide

theorem xinputSdlID_fingerprint (xic : xinputCapabilities) : IsFingerprint (xinputSdlID xic) := by
  have hb : xic.subType &&& 0xff < 256 := Nat.lt_succ_of_le Nat.and_le_right
  constructor
  · show ("78696e707574".toList ++ fmt02x (xic.subType &&& 0xff)
      ++ "000000000000000000".toList).length = 32
    rw [List.length_append, List.length_append, fmt02x_length _ hb]
    rfl
  · intro c hc
    have hc2 : c ∈ "78696e707574".toList ++ fmt02x (xic.subType &&& 0xff)
      ++ "000000000000000000".toList := hc
    rcases List.mem_append.mp hc2 with h1 | h1
    · rcases List.mem_append.mp h1 with h2 | h2
      · exact literal_hex.1 c h2
      · exact fmt02x_hex _ hb c h2
    · exact literal_hex.2.1 c h1

theorem dinputSdlID_pidvid (guidProduct : GUID) (name : List Nat)
    (hp : hasPIDVID guidProduct = true) :
    dinputSdlID guidProduct name = some (String.mk ("03000000".toList
      ++ fmt02x (guidProduct.Data1 % 256)
      ++ fmt02x (guidProduct.Data1 >>> 8 % 256)
      ++ "0000".toList
      ++ fmt02x (guidProduct.Data1 >>> 16 % 256)
      ++ fmt02x (guidProduct.Data1 >>> 24 % 256)
      ++ "000000000000".toList)) := by
  unfold dinputSdlID
  rw [if_pos hp]

theorem pidvid_fingerprint (a b c d : Nat) (ha : a < 256) (hb : b < 256) (hc : c < 256)
    (hd : d < 256) :
    IsFingerprint (String.mk ("03000000".toList ++ fmt02x a ++ fmt02x b ++ "0000".toList
      ++ fmt02x c ++ fmt02x d ++ "000000000000".toList)) := by
  constructor
  · show ("03000000".toList ++ fmt02x a ++ fmt02x b ++ "0000".toList
      ++ fmt02x c ++ fmt02x d ++ "000000000000".toList).length = 32
    simp only [List.length_append, fmt02x_length _ ha, fmt02x_length _ hb,
      fmt02x_length _ hc, fmt02x_length _ hd]
    rfl
  · intro x hx
    have hx2 : x ∈ "03000000".toList ++ fmt02x a ++ fmt02x b ++ "0000".toList
      ++ fmt02x c ++ fmt02x d ++ "000000000000".toList := hx
    simp only [List.mem_append] at hx2
    rcases hx2 with (((((h | h) | h) | h) | h) | h) | h
    · exact literal_hex.2.2.1 x h
    · exact fmt02x_hex _ ha x h
    · exact fmt02x_hex _ hb x h
    · exact literal_hex.2.2.2.2.1 x h
    · exact fmt02x_hex _ hc x h
    · exact fmt02x_hex _ hd x h
    · exact literal_hex.2.2.2.2.2 x h

theorem name_fingerprint (bs : List Nat) (hl : bs.length = 12) (hb : ∀ b ∈ bs, b < 256) :
    IsFingerprint (String.mk ("05000000".toList ++ bs.flatMap fmt02x)) := by
  constructor
  · show ("05000000".toList ++ bs.flatMap fmt02x).length = 32
    rw [List.length_append, flatMap_fmt02x_length bs hb, hl]
    rfl
  · intro x hx
    have hx2 : x ∈ "05000000".toList ++ bs.flatMap fmt02x := hx
    rcases List.mem_append.mp hx2 with h | h
    · exact literal_hex.2.2.2.1 x h
    · exact flatMap_fmt02x_hex bs hb x h

theorem take12_paddedName_length (name : List Nat) : ((paddedName name).take 12).length = 12 := by
  rw [List.length_take]
  have := paddedName_length name
  omega

/-- C8: every fingerprint discovery passes to `gamepads.add` is a string of
exactly 32 lower-case hexadecimal characters: the XInput form for every
subtype byte, the DirectInput vendor/product form for every `Data1`, and the
DirectInput name form for every name (a byte string), the empty name and
names longer than 12 bytes included. -/
theorem C8_sdlID_is_32_lowercase_hex :
    (∀ xic : xinputCapabilities, IsFingerprint (xinputSdlID xic)) ∧
    (∀ (guidProduct : GUID) (name : List Nat), hasPIDVID guidProduct = true →
      ∃ s, dinputSdlID guidProduct name = some s ∧ IsFingerprint s) ∧
    (∀ (guidProduct : GUID) (name : List Nat), hasPIDVID guidProduct = false →
      IsBytes name → ∃ s, dinputSdlID guidProduct name = some s ∧ IsFingerprint s) ∧
    (∀ guidProduct : GUID, ∃ s, dinputSdlID guidProduct [] = some s ∧ IsFingerprint s) := by
  have hname : ∀ (guidProduct : GUID) (name : List Nat), hasPIDVID guidProduct = false →
      IsBytes name → ∃ s, dinputSdlID guidProduct name = some s ∧ IsFingerprint s := by
    intro guidProduct name hp hb
    refine ⟨_, dinputSdlID_name guidProduct name hp, ?_⟩
    exact name_fingerprint _ (take12_paddedName_length name)
      (fun b hb2 => paddedName_bytes name hb b (List.mem_of_mem_take hb2))
  have hpv : ∀ (guidProduct : GUID) (name : List Nat), hasPIDVID guidProduct = true →
      ∃ s, dinputSdlID guidProduct name = some s ∧ IsFingerprint s := by
    intro guidProduct name hp
    refine ⟨_, dinputSdlID_pidvid guidProduct name hp, ?_⟩
    exact pidvid_fingerprint _ _ _ _ (Nat.mod_lt _ (by decide)) (Nat.mod_lt _ (by decide))
      (Nat.mod_lt _ (by decide)) (Nat.mod_lt _ (by decide))
  refine ⟨xinputSdlID_fingerprint, hpv, hname, ?_⟩
  intro guidProduct
  cases hp : hasPIDVID guidProduct
  · exact hname guidProduct [] hp (fun b hb => absurd hb (List.not_mem_nil b))
  · exact hpv guidProduct [] hp

theorem fingerprintBytes_mk (cs : List Char) : fingerprintBytes (String.mk cs) = hexDecode cs :=
  rfl

theorem hexValue_digitChar : ∀ d : Nat, d < 16 → hexValue (Nat.digitChar d) = some d := by
  decide

theorem hexDecode_fmt02x (b : Nat) (hb : b < 256) (rest : List Char) :
    hexDecode (fmt02x b ++ rest) = (hexDecode rest).map (fun bs => b :: bs) := by
  rw [fmt02x_byte b hb]
  show hexDecode (Nat.digitChar (b / 16) :: Nat.digitChar (b % 16) :: rest) = _
  have e : 16 * (b / 16) + b % 16 = b := by omega
  simp only [hexDecode, hexValue_digitChar (b / 16) (by omega),
    hexValue_digitChar (b % 16) (by omega)]
  cases hexDecode rest with
  | none => rfl
  | some bs => simp [e]

theorem hexDecode_flatMap (bs : List Nat) (h : IsBytes bs) :
    hexDecode (bs.flatMap fmt02x) = some bs := by
  induction bs with
  | nil => rfl
  | cons b bs ih =>
    rw [List.flatMap_cons, hexDecode_fmt02x b (h b (List.mem_cons_self _ _)),
      ih (fun x hx => h x (List.mem_cons_of_mem _ hx))]
    rfl

theorem pidvid_chars (a b c d : Nat) :
    "03000000".toList ++ fmt02x a ++ fmt02x b ++ "0000".toList ++ fmt02x c ++ fmt02x d
      ++ "000000000000".toList =
    ([3, 0, 0, 0] ++ [a, b] ++ [0, 0] ++ [c, d] ++ [0, 0, 0, 0, 0, 0]).flatMap fmt02x := by
  have e1 : "03000000".toList = fmt02x 3 ++ (fmt02x 0 ++ (fmt02x 0 ++ fmt02x 0)) := by decide
  have e2 : "0000".toList = fmt02x 0 ++ fmt02x 0 := by decide
  have e3 : "000000000000".toList =
      fmt02x 0 ++ (fmt02x 0 ++ (fmt02x 0 ++ (fmt02x 0 ++ (fmt02x 0 ++ fmt02x 0)))) := by
    decide
  rw [e1, e2, e3]
  simp only [List.cons_append, List.nil_append, List.flatMap_cons, List.flatMap_nil,
    List.append_assoc, List.append_nil]

theorem name_chars (bs : List Nat) :
    "05000000".toList ++ bs.flatMap fmt02x = ([5, 0, 0, 0] ++ bs).flatMap fmt02x := by
  have e1 : "05000000".toList = fmt02x 5 ++ (fmt02x 0 ++ (fmt02x 0 ++ fmt02x 0)) := by decide
  rw [e1]
  simp only [List.cons_append, List.nil_append, List.flatMap_cons, List.append_assoc]

theorem take12_paddedName (name : List Nat) : (paddedName name).take 12 = namePrefix12 name := by
  unfold paddedName namePrefix12
  split
  · rename_i h
    have e : name.take 12 = name := List.take_of_length_le (by omega)
    rw [e]
    exact List.take_of_length_le (by rw [List.length_append, List.length_replicate]; omega)
  · rename_i h
    have e : 12 - (name.take 12).length = 0 := by rw [List.length_take]; omega
    rw [e]
    simp

theorem namePrefix12_bytes (name : List Nat) (h : IsBytes name) : IsBytes (namePrefix12 name) := by
  rw [← take12_paddedName]
  exact fun b hb => paddedName_bytes name h b (List.mem_of_mem_take hb)

theorem vendorProductBytes_isBytes (d : Nat) : IsBytes (vendorProductBytes d) := by
  intro b hb
  simp only [vendorProductBytes, le16, List.cons_append, List.nil_append, List.mem_cons,
    List.mem_singleton, List.not_mem_nil, or_false] at hb
  omega

theorem vendorProduct_eq (d : Nat) :
    [3, 0, 0, 0] ++ [d % 256, d >>> 8 % 256] ++ [0, 0] ++ [d >>> 16 % 256, d >>> 24 % 256]
      ++ [0, 0, 0, 0, 0, 0] = vendorProductBytes d := by
  simp only [vendorProductBytes, le16, Nat.shiftRight_eq_div_pow]
  have h1 : d % 256 = d % 65536 % 256 := by omega
  have h2 : d / 2 ^ 8 % 256 = d % 65536 / 256 % 256 := by omega
  have h3 : d / 2 ^ 16 % 256 = d / 65536 % 65536 % 256 := by omega
  have h4 : d / 2 ^ 24 % 256 = d / 65536 % 65536 / 256 % 256 := by omega
  rw [← h1, ← h2, ← h3, ← h4]

/-- The bytes of the vendor/product form. -/
theorem dinputSdlID_pidvid_bytes (guidProduct : GUID) (name : List Nat)
    (hp : hasPIDVID guidProduct = true) :
    ∃ s, dinputSdlID guidProduct name = some s ∧
      fingerprintBytes s = some (vendorProductBytes guidProduct.Data1) := by
  refine ⟨_, dinputSdlID_pidvid guidProduct name hp, ?_⟩
  rw [fingerprintBytes_mk, pidvid_chars, vendorProduct_eq, hexDecode_flatMap _ (vendorProductBytes_isBytes _)]

/-- The bytes of the name form. -/
theorem dinputSdlID_name_bytes (guidProduct : GUID) (name : List Nat)
    (hp : hasPIDVID guidProduct = false) (hb : IsBytes name) :
    ∃ s, dinputSdlID guidProduct name = some s ∧
      fingerprintBytes s = some (nameFormBytes name) := by
  refine ⟨_, dinputSdlID_name guidProduct name hp, ?_⟩
  rw [fingerprintBytes_mk, name_chars, take12_paddedName, hexDecode_flatMap]
  · rfl
  · intro b hb2
    rcases List.mem_append.mp hb2 with h | h
    · simp only [List.mem_cons, List.mem_singleton, List.not_mem_nil, or_false] at h
      omega
    · exact namePrefix12_bytes name hb b h

theorem nameForm_head (cs : List Char) (bytes : List Nat)
    (h : hexDecode ("05000000".toList ++ cs) = some bytes) : bytes.head? = some 5 := by
  have e1 : "05000000".toList = fmt02x 5 ++ "000000".toList := by decide
  rw [e1, List.append_assoc, hexDecode_fmt02x 5 (by decide)] at h
  cases h2 : hexDecode ("000000".toList ++ cs) with
  | none => rw [h2] at h; exact absurd h (by simp)
  | some bs =>
    rw [h2] at h
    simp only [Option.map_some', Option.some.injEq] at h
    rw [← h]
    rfl

theorem vendorProductBytes_injective (d1 d2 : Nat) (h1 : d1 < 2 ^ 32) (h2 : d2 < 2 ^ 32)
    (h : vendorProductBytes d1 = vendorProductBytes d2) : d1 = d2 := by
  simp only [vendorProductBytes, le16, List.cons_append, List.nil_append, List.cons.injEq,
    true_and, and_true] at h
  obtain ⟨a, b, c, d⟩ := h
  omega

/-- C9: for a DirectInput device the vendor/product form is chosen exactly
when bytes 2..7 of `guidProduct.Data4` spell "PIDVID"; its sixteen bytes are
03 00 00 00, the vendor id (low 16 bits of `Data1`) little-endian, 00 00, the
product id (high 16 bits of `Data1`) little-endian, then zeros; so the map
from a 32-bit `Data1` to the fingerprint is injective, and vendor and product
are read back from bytes 4-5 and 8-9. -/
theorem C9_vendor_product_form (guidProduct : GUID) (name : List Nat) :
    (hasPIDVID guidProduct = true ↔
      (guidProduct.Data4.drop 2).take 6 = [0x50, 0x49, 0x44, 0x56, 0x49, 0x44]) ∧
    ((∃ s, dinputSdlID guidProduct name = some s ∧
        fingerprintBytes s = some (vendorProductBytes guidProduct.Data1)) ↔
      hasPIDVID guidProduct = true) ∧
    vendorProductBytes guidProduct.Data1 =
      [3, 0, 0, 0, guidProduct.Data1 % 65536 % 256, guidProduct.Data1 % 65536 / 256 % 256, 0, 0,
        guidProduct.Data1 / 65536 % 65536 % 256, guidProduct.Data1 / 65536 % 65536 / 256 % 256,
        0, 0, 0, 0, 0, 0] ∧
    (∀ (guid2 : GUID) (name2 : List Nat), hasPIDVID guidProduct = true →
      hasPIDVID guid2 = true → guidProduct.Data1 < 2 ^ 32 → guid2.Data1 < 2 ^ 32 →
      dinputSdlID guidProduct name = dinputSdlID guid2 name2 →
      guidProduct.Data1 = guid2.Data1) ∧
    (∀ (s : String) (bytes : List Nat), hasPIDVID guidProduct = true →
      guidProduct.Data1 < 2 ^ 32 → dinputSdlID guidProduct name = some s →
      fingerprintBytes s = some bytes →
      bytes.length = 16 ∧
      bytes.getD 4 0 + 256 * bytes.getD 5 0 = guidProduct.Data1 % 65536 ∧
      bytes.getD 8 0 + 256 * bytes.getD 9 0 = guidProduct.Data1 / 65536) ∧
    dinputSdlID pidvidGuid name = some "030000005e0400008e02000000000000" := by
  refine ⟨?_, ?_, rfl, ?_, ?_, ?_⟩
  · simp only [hasPIDVID, decide_eq_true_eq]
    have e : "PIDVID".toList.map Char.toNat = [0x50, 0x49, 0x44, 0x56, 0x49, 0x44] := by
      decide
    rw [e]
  · constructor
    · rintro ⟨s, hs, hb⟩
      cases hp : hasPIDVID guidProduct
      · rw [dinputSdlID_name guidProduct name hp] at hs
        injection hs with hs
        subst hs
        rw [fingerprintBytes_mk] at hb
        have h5 := nameForm_head _ _ hb
        exact absurd h5 (by simp [vendorProductBytes])
      · rfl
    · exact dinputSdlID_pidvid_bytes guidProduct name
  · intro guid2 name2 hp1 hp2 hd1 hd2 he
    obtain ⟨s1, hs1, hb1⟩ := dinputSdlID_pidvid_bytes guidProduct name hp1
    obtain ⟨s2, hs2, hb2⟩ := dinputSdlID_pidvid_bytes guid2 name2 hp2
    rw [hs1, hs2] at he
    injection he with he
    subst he
    rw [hb1] at hb2
    injection hb2 with hb2
    exact vendorProductBytes_injective _ _ hd1 hd2 hb2
  · intro s bytes hp hd hs hb
    obtain ⟨s1, hs1, hb1⟩ := dinputSdlID_pidvid_bytes guidProduct name hp
    rw [hs1] at hs
    injection hs with hs
    subst hs
    rw [hb1] at hb
    injection hb with hb
    subst hb
    simp only [vendorProductBytes, le16, List.cons_append, List.nil_append, List.length_cons,
      List.length_nil, List.getD_cons_succ, List.getD_cons_zero]
    refine ⟨trivial, by omega, by omega⟩
  · rw [dinputSdlID_pidvid pidvidGuid name (by decide)]
    decide

/-- C10: for a DirectInput device whose product GUID does not carry the
"PIDVID" marker, the fingerprint is the bytes 05 00 00 00 followed by exactly
12 bytes, the first 12 bytes of the name padded on the right with zero bytes
when the name is shorter; it depends only on the first 12 bytes of the
name. -/
theorem C10_name_form (guidProduct : GUID) (name : List Nat)
    (hp : hasPIDVID guidProduct = false) (hb : IsBytes name) :
    (∃ s, dinputSdlID guidProduct name = some s ∧
      fingerprintBytes s = some ([5, 0, 0, 0] ++ namePrefix12 name)) ∧
    (namePrefix12 name).length = 12 ∧
    (namePrefix12 name).take (min name.length 12) = name.take 12 ∧
    (∀ i : Nat, name.length ≤ i → i < 12 → (namePrefix12 name)[i]? = some 0) ∧
    (∀ name2 : List Nat, name2.take 12 = name.take 12 →
      dinputSdlID guidProduct name2 = dinputSdlID guidProduct name) := by
  refine ⟨dinputSdlID_name_bytes guidProduct name hp hb, ?_, ?_, ?_, ?_⟩
  · rw [← take12_paddedName]
    exact take12_paddedName_length name
  · unfold namePrefix12
    have hl : (name.take 12).length = min name.length 12 := by
      rw [List.length_take]; omega
    rw [← hl, List.take_left]
  · intro i h1 h2
    unfold namePrefix12
    have hl : (name.take 12).length = name.length := by
      rw [List.length_take]; omega
    rw [List.getElem?_append_right (by omega)]
    rw [List.getElem?_replicate]
    rw [if_pos (by omega)]
  · intro name2 h
    rw [dinputSdlID_name guidProduct name2 hp, dinputSdlID_name guidProduct name hp,
      take12_paddedName, take12_paddedName]
    unfold namePrefix12
    rw [h]

/-- C10 on an 11-byte name: eleven name bytes and one zero byte follow
05 00 00 00. -/
theorem C10_name_form_witness :
    hasPIDVID plainGuid = false ∧ IsBytes shortName ∧
    ∃ s, dinputSdlID plainGuid shortName = some s ∧
      fingerprintBytes s = some [5, 0, 0, 0, 0x55, 0x53, 0x42, 0x20, 0x47, 0x61, 0x6d, 0x65,
        0x70, 0x61, 0x64, 0] :=
  ⟨by decide, by decide, (C10_name_form plainGuid shortName (by decide) (by decide)).1⟩

theorem DiscoveryFrame.refl (a : nativeGamepads) : a.DiscoveryFrame a :=
  ⟨rfl, rfl, rfl, rfl, rfl, rfl, rfl, rfl, rfl⟩

theorem DiscoveryFrame.trans {a b c : nativeGamepads} (h1 : a.DiscoveryFrame b)
    (h2 : b.DiscoveryFrame c) : a.DiscoveryFrame c := by
  obtain ⟨a1, a2, a3, a4, a5, a6, a7, a8, a9⟩ := h1
  obtain ⟨b1, b2, b3, b4, b5, b6, b7, b8, b9⟩ := h2
  exact ⟨b1.trans a1, b2.trans a2, b3.trans a3, b4.trans a4, b5.trans a5, b6.trans a6,
    b7.trans a7, b8.trans a8, b9.trans a9⟩

/-- What a call of the device callback can do to the arbiter and the
registry: it keeps every arbiter field but the object callback pointer and
the recorded error, a recorded error stays recorded, and with an error
recorded on entry it stops at once and changes nothing. -/
theorem callback_frame (hw : hardware) (g : nativeGamepads) (d : dinputDeviceEnv)
    (gs : gamepads) (r : enumDevicesStep) (h : dinput8EnumDevicesCallback hw g d gs = some r) :
    g.DiscoveryFrame r.g ∧
    (g.err.isSome = true → r = ⟨DIENUM_STOP, g, gs, false⟩) ∧
    (r.ret = DIENUM_STOP → r.g.err.isSome = true) ∧
    (r.ret ≠ DIENUM_STOP → r.ret = DIENUM_CONTINUE ∧ r.g.err = g.err) := by
  unfold dinput8EnumDevicesCallback at h
  simp only at h
  repeat' split at h
  all_goals cases h
  all_goals simp_all [nativeGamepads.DiscoveryFrame, DIENUM_STOP, DIENUM_CONTINUE]

/-- The arbiter and registry after an enumeration pass. -/
theorem enumDevices_frame (hw : hardware) :
    ∀ (ds : List dinputDeviceEnv) (g : nativeGamepads) (gs : gamepads)
      (g2 : nativeGamepads) (gs2 : gamepads),
      enumDevices hw ds g gs = some (g2, gs2) →
      g.DiscoveryFrame g2 ∧ (g.err.isSome = true → g2 = g ∧ gs2 = gs) := by
  intro ds
  induction ds with
  | nil =>
    intro g gs g2 gs2 h
    simp only [enumDevices, Option.some.injEq, Prod.mk.injEq] at h
    obtain ⟨h1, h2⟩ := h
    subst h1; subst h2
    exact ⟨DiscoveryFrame.refl g, fun _ => ⟨rfl, rfl⟩⟩
  | cons d ds ih =>
    intro g gs g2 gs2 h
    simp only [enumDevices] at h
    cases hc : dinput8EnumDevicesCallback hw g d gs with
    | none => rw [hc] at h; exact absurd h (by simp)
    | some r =>
      rw [hc] at h
      simp only at h
      obtain ⟨hf, herr, _, _⟩ := callback_frame hw g d gs r hc
      by_cases hs : r.ret = DIENUM_STOP
      · rw [if_pos hs] at h
        simp only [Option.some.injEq, Prod.mk.injEq] at h
        obtain ⟨h1, h2⟩ := h
        subst h1; subst h2
        refine ⟨hf, fun he => ?_⟩
        rw [herr he]
        exact ⟨rfl, rfl⟩
      · rw [if_neg hs] at h
        obtain ⟨hf2, herr2⟩ := ih r.g r.gamepads g2 gs2 h
        refine ⟨DiscoveryFrame.trans hf hf2, fun he => ?_⟩
        have hr := herr he
        rw [hr] at hs
        exact absurd rfl hs

/-- The arbiter after a discovery run: only the fields discovery writes can
differ, and a recorded error stays the recorded error. -/
theorem detectConnection_frame (g : nativeGamepads) (hw : hardware) (gs : gamepads)
    (d : detectResult) (h : g.detectConnection hw gs = some d) :
    g.DiscoveryFrame d.g ∧ (∀ e, g.err = some e → d.g.err = some e) ∧
    (g.err = none → d.err = none → d.g.err = none) := by
  unfold nativeGamepads.detectConnection at h
  simp only at h
  split at h
  · rename_i hd
    split at h
    · exact absurd h (by simp)
    · rename_i g2 gs2 he
      obtain ⟨hf, herr⟩ := enumDevices_frame hw _ _ _ _ _ he
      have hf0 : g.DiscoveryFrame
          (if g.enumDevicesCallback = 0 then
            { g with enumDevicesCallback := hw.enumDevicesCallbackPtr } else g) := by
        split
        · exact ⟨rfl, rfl, rfl, rfl, rfl, rfl, rfl, rfl, rfl⟩
        · exact DiscoveryFrame.refl g
      have hkeep : ∀ e, g.err = some e → g2.err = some e := by
        intro e hge
        have h1 : (if g.enumDevicesCallback = 0 then
            ({ g with enumDevicesCallback := hw.enumDevicesCallbackPtr } : nativeGamepads)
            else g).err = some e := by
          split <;> exact hge
        have h2 := (herr (by rw [h1]; rfl)).1
        rw [h2]; exact h1
      have hfr := DiscoveryFrame.trans hf0 hf
      split at h
      · cases h; exact ⟨hfr, hkeep, fun _ h2 => absurd h2 (by simp)⟩
      · split at h
        · cases h; exact ⟨hfr, hkeep, fun _ h2 => absurd h2 (by simp)⟩
        · rename_i hn
          cases h
          refine ⟨?_, ?_, ?_⟩
          · split <;> exact hfr
          · intro e hge
            split <;> exact hkeep e hge
          · intro _ _
            split <;> exact hn
  · cases h
    refine ⟨?_, ?_, ?_⟩
    · split <;> exact DiscoveryFrame.refl g
    · intro e hge
      split <;> exact hge
    · intro hge _
      split <;> exact hge

theorem initXInput_err (dlls : List xinputDllEnv) :
    ∀ g : nativeGamepads, (initXInput dlls g).2.err = g.err := by
  induction dlls with
  | nil => intro g; rfl
  | cons dll dlls ih =>
    intro g
    simp only [initXInput]
    split
    · exact ih g
    · split
      · rfl
      · split <;> rfl

/-- A recorded error survives `init`. -/
theorem init_keeps_err (g : nativeGamepads) (env : initEnv) (hw : hardware) (gs : gamepads)
    (d : detectResult) (e : GoError) (he : g.err = some e) (h : g.init env hw gs = some d) :
    d.g.err = some e := by
  unfold nativeGamepads.init at h
  simp only at h
  have hload : ∀ (x : Option GoError) (g1 : nativeGamepads),
      (match env.loadDinput8 with
        | Except.error _ => ((none, g) : Option GoError × nativeGamepads)
        | Except.ok h =>
          match env.procDirectInput8Create with
          | Except.error err => (some err, { g with dinput8 := h })
          | Except.ok p => (none, { g with dinput8 := h, procDirectInput8Create := p })) =
        (x, g1) → g1.err = some e := by
    intro x g1 hl
    split at hl
    · simp only [Prod.mk.injEq] at hl
      obtain ⟨_, h2⟩ := hl
      subst h2
      exact he
    · split at hl
      all_goals simp only [Prod.mk.injEq] at hl
      all_goals (obtain ⟨_, h2⟩ := hl; subst h2; exact he)
  split at h
  · rename_i err g1 hl
    cases h
    exact hload _ _ hl
  · rename_i g1 hl
    have h1 : g1.err = some e := hload _ _ hl
    split at h
    · rename_i err g2 hx
      cases h
      have := initXInput_err env.xinputDlls g1
      rw [hx] at this
      exact this.trans h1
    · rename_i g2 hx
      have h2 : g2.err = some e := by
        have := initXInput_err env.xinputDlls g1
        rw [hx] at this
        exact this.trans h1
      split at h
      · split at h
        · cases h; exact h2
        · split at h
          · cases h; exact h2
          · exact (detectConnection_frame _ hw gs d h).2.1 e h2
      · cases h; exact h2

/-- C13: once the arbiter has recorded an error, every call of
`nativeGamepads.update` returns that same error, runs no discovery and leaves
the registry, the device-change flag and the recorded error unchanged; and
no operation (the device callback, a discovery run, the window procedure,
`init`) resets the recorded error. -/
theorem C13_recorded_error_is_sticky (g : nativeGamepads) (e : GoError) (hw : hardware)
    (gs : gamepads) (he : g.err = some e) :
    g.update hw gs = some ⟨some e, g, gs, 0⟩ ∧
    (∀ (hw2 : hardware) (u : arbiterUpdate), g.update hw gs = some u →
      u.g.update hw2 u.gamepads = some ⟨some e, g, gs, 0⟩) ∧
    (∀ (d : dinputDeviceEnv) (r : enumDevicesStep),
      dinput8EnumDevicesCallback hw g d gs = some r → r.g.err = some e) ∧
    (∀ d : detectResult, g.detectConnection hw gs = some d → d.g.err = some e) ∧
    (∀ (f : Nat → Nat → Nat → Nat → Nat → Nat) (hWnd uMsg wParam lParam : Nat),
      (g.wndProc f hWnd uMsg wParam lParam).g.err = some e) ∧
    (∀ (env : initEnv) (d : detectResult), g.init env hw gs = some d → d.g.err = some e) := by
  have hu : ∀ hw2 : hardware, g.update hw2 gs = some ⟨some e, g, gs, 0⟩ := by
    intro hw2
    unfold nativeGamepads.update
    rw [he]
  refine ⟨hu hw, ?_, ?_, ?_, ?_, ?_⟩
  · intro hw2 u h
    rw [hu hw] at h
    cases h
    exact hu hw2
  · intro d r h
    have := (callback_frame hw g d gs r h).2.1 (by rw [he]; rfl)
    rw [this]
    exact he
  · intro d h
    exact (detectConnection_frame g hw gs d h).2.1 e he
  · intro f hWnd uMsg wParam lParam
    unfold nativeGamepads.wndProc
    simp only
    split <;> exact he
  · intro env d h
    exact init_keeps_err g env hw gs d e he h

/-- C13 on an arbiter that recorded a DirectInput error: `update` returns it
and changes nothing. -/
theorem C13_recorded_error_is_sticky_witness :
    failedArbiter.err = some (GoError.directInputError 0x80004005) ∧
    failedArbiter.update exampleHardware emptyRegistry =
      some ⟨some (GoError.directInputError 0x80004005), failedArbiter, emptyRegistry, 0⟩ :=
  ⟨rfl, (C13_recorded_error_is_sticky failedArbiter _ exampleHardware emptyRegistry rfl).1⟩

/-- C14: with no recorded error and the window hook installed, `update` runs
`detectConnection` exactly once when the device-change flag is non-zero and
leaves the flag 0, and runs no discovery and changes neither flag nor
registry when the flag is 0; so after a notification the next `update` runs
one discovery and the one after it runs none. -/
theorem C14_update_rediscovers_once (g : nativeGamepads) (hw : hardware) (gs : gamepads)
    (he : g.err = none) (hh : g.origWndProc ≠ 0) :
    (g.deviceChanged ≠ 0 →
      (g.detectConnection hw gs = none → g.update hw gs = none) ∧
      (∀ d : detectResult, g.detectConnection hw gs = some d →
        ∃ u : arbiterUpdate, g.update hw gs = some u ∧ u.discoveries = 1 ∧
          u.g.deviceChanged = 0 ∧ u.gamepads = d.gamepads ∧ u.err = none ∧
          u.g.err = d.err ∧ u.g.origWndProc = g.origWndProc)) ∧
    (g.deviceChanged = 0 → g.update hw gs = some ⟨none, g, gs, 0⟩) ∧
    (∀ (f : Nat → Nat → Nat → Nat → Nat → Nat) (hWnd wParam lParam : Nat) (hw2 : hardware)
        (u : arbiterUpdate),
      (g.wndProc f hWnd WM_DEVICECHANGE wParam lParam).g.update hw gs = some u →
      u.discoveries = 1 ∧ u.g.deviceChanged = 0 ∧
      ∃ u2 : arbiterUpdate, u.g.update hw2 u.gamepads = some u2 ∧ u2.discoveries = 0 ∧
        u2.gamepads = u.gamepads ∧ u2.g = u.g) := by
  have key : ∀ g : nativeGamepads, g.err = none → g.origWndProc ≠ 0 → g.deviceChanged ≠ 0 →
      (g.detectConnection hw gs = none → g.update hw gs = none) ∧
      (∀ d : detectResult, g.detectConnection hw gs = some d →
        ∃ u : arbiterUpdate, g.update hw gs = some u ∧ u.discoveries = 1 ∧
          u.g.deviceChanged = 0 ∧ u.gamepads = d.gamepads ∧ u.err = none ∧
          u.g.err = d.err ∧ u.g.origWndProc = g.origWndProc) := by
    intro g he hh hc
    constructor
    · intro hd
      unfold nativeGamepads.update
      simp only [he, hh, if_false, hc, ne_eq, not_false_eq_true, if_true, hd]
    · intro d hd
      obtain ⟨hf, _, hnone⟩ := detectConnection_frame g hw gs d hd
      unfold nativeGamepads.update
      simp only [he, hh, if_false, hc, ne_eq, not_false_eq_true, if_true, hd]
      cases hde : d.err with
      | none =>
        exact ⟨_, rfl, rfl, rfl, rfl, rfl, hnone he hde, hf.2.2.2.2.2.2.1⟩
      | some err =>
        exact ⟨_, rfl, rfl, rfl, rfl, rfl, rfl, hf.2.2.2.2.2.2.1⟩
  have idle : ∀ (g : nativeGamepads) (hw2 : hardware) (gs2 : gamepads), g.origWndProc ≠ 0 →
      g.deviceChanged = 0 →
      ∃ u2 : arbiterUpdate, g.update hw2 gs2 = some u2 ∧ u2.discoveries = 0 ∧
        u2.gamepads = gs2 ∧ u2.g = g := by
    intro g hw2 gs2 hh hc
    unfold nativeGamepads.update
    cases hge : g.err with
    | some err => exact ⟨_, rfl, rfl, rfl, rfl⟩
    | none =>
      simp only [hh, if_false, hc, ne_eq, not_true_eq_false]
      exact ⟨_, rfl, rfl, rfl, rfl⟩
  refine ⟨key g he hh, ?_, ?_⟩
  · intro hc
    unfold nativeGamepads.update
    simp only [he, hh, if_false, hc, ne_eq, not_true_eq_false]
  · intro f hWnd wParam lParam hw2 u hu
    have hw1 : (g.wndProc f hWnd WM_DEVICECHANGE wParam lParam).g =
        { g with deviceChanged := 1 } := by
      simp [nativeGamepads.wndProc]
    rw [hw1] at hu
    obtain ⟨hpanic, hrun⟩ := key { g with deviceChanged := 1 } he hh (by simp)
    cases hd : ({ g with deviceChanged := 1 } : nativeGamepads).detectConnection hw gs with
    | none => rw [hpanic hd] at hu; exact absurd hu (by simp)
    | some d =>
      obtain ⟨u1, hu1, h1, h2, _, _, _, h3⟩ := hrun d hd
      rw [hu1] at hu
      cases hu
      exact ⟨h1, h2, idle u.g hw2 u.gamepads (by rw [h3]; exact hh) h2⟩

theorem notified_detect_isSome :
    (notifiedArbiter.detectConnection exampleHardware emptyRegistry).isSome = true := by
  decide

/-- C14 on the hooked arbiter: with the flag clear `update` is idle, and with
the flag set one discovery runs, fills the registry and clears the flag. -/
theorem C14_update_rediscovers_once_witness :
    notifiedArbiter.err = none ∧ notifiedArbiter.origWndProc ≠ 0 ∧
    notifiedArbiter.deviceChanged ≠ 0 ∧
    ∃ u : arbiterUpdate, notifiedArbiter.update exampleHardware emptyRegistry = some u ∧
      u.discoveries = 1 ∧ u.g.deviceChanged = 0 := by
  refine ⟨rfl, by decide, by decide, ?_⟩
  obtain ⟨d, hd⟩ := Option.isSome_iff_exists.mp notified_detect_isSome
  obtain ⟨u, hu, h1, h2, _⟩ :=
    ((C14_update_rediscovers_once notifiedArbiter exampleHardware emptyRegistry rfl
      (by decide)).1 (by decide)).2 d hd
  exact ⟨u, hu, h1, h2⟩

/-- C15: for every window message `wndProc` forwards the original window
procedure and the four arguments unchanged to `CallWindowProcW` and returns
its result; it sets the device-change flag to 1 exactly when the message is
WM_DEVICECHANGE (0x0219) and changes no other arbiter field. The window
procedure has neither the registry nor the hardware in reach: it runs no
discovery. -/
theorem C15_wndProc_forwards_and_flags (g : nativeGamepads)
    (callWindowProcW : Nat → Nat → Nat → Nat → Nat → Nat) (hWnd uMsg wParam lParam : Nat) :
    (g.wndProc callWindowProcW hWnd uMsg wParam lParam).forwarded =
      (g.origWndProc, hWnd, uMsg, wParam, lParam) ∧
    (g.wndProc callWindowProcW hWnd uMsg wParam lParam).ret =
      callWindowProcW g.origWndProc hWnd uMsg wParam lParam ∧
    (g.wndProc callWindowProcW hWnd uMsg wParam lParam).g =
      { g with deviceChanged := if uMsg = 0x0219 then 1 else g.deviceChanged } ∧
    (uMsg = WM_DEVICECHANGE →
      (g.wndProc callWindowProcW hWnd uMsg wParam lParam).g.deviceChanged = 1) ∧
    (uMsg ≠ WM_DEVICECHANGE → (g.wndProc callWindowProcW hWnd uMsg wParam lParam).g = g) ∧
    (g.wndProc callWindowProcW hWnd uMsg wParam lParam).g.err = g.err ∧
    WM_DEVICECHANGE = 0x0219 := by
  unfold nativeGamepads.wndProc WM_DEVICECHANGE
  by_cases h : uMsg = 0x0219
  · simp [h]
  · simp [h]

/-- C18: for an XInput adapter, when `XInputGetState` succeeds `update`
returns nil and stores the new report; on ERROR_DEVICE_NOT_CONNECTED it
returns nil, reports a disconnect and keeps the stored report; on any other
code it returns an error wrapping that code and keeps the stored report. -/
theorem C18_xinput_update (g : nativeGamepad) (env : pollEnv) (hx : g.usesDInput = false) :
    (env.xinputResult = ERROR_SUCCESS →
      g.update env = some ⟨{ g with xinputState := env.xinputReport }, none, false⟩) ∧
    (env.xinputResult = ERROR_DEVICE_NOT_CONNECTED → g.update env = some ⟨g, none, true⟩) ∧
    (env.xinputResult ≠ ERROR_SUCCESS → env.xinputResult ≠ ERROR_DEVICE_NOT_CONNECTED →
      g.update env = some ⟨g, some (GoError.errno env.xinputResult), false⟩) ∧
    (∀ r : updateResult, g.update env = some r →
      (r.g.xinputState = env.xinputReport ∧ env.xinputResult = ERROR_SUCCESS) ∨
      r.g.xinputState = g.xinputState) := by
  have h1 : env.xinputResult = ERROR_SUCCESS →
      g.update env = some ⟨{ g with xinputState := env.xinputReport }, none, false⟩ := by
    intro h
    simp [nativeGamepad.update, hx, xinputGetState, h]
  have h2 : env.xinputResult = ERROR_DEVICE_NOT_CONNECTED →
      g.update env = some ⟨g, none, true⟩ := by
    intro h
    simp [nativeGamepad.update, hx, xinputGetState, h, ERROR_DEVICE_NOT_CONNECTED,
      ERROR_SUCCESS]
  have h3 : env.xinputResult ≠ ERROR_SUCCESS →
      env.xinputResult ≠ ERROR_DEVICE_NOT_CONNECTED →
      g.update env = some ⟨g, some (GoError.errno env.xinputResult), false⟩ := by
    intro ha hb
    simp [nativeGamepad.update, hx, xinputGetState, ha, hb]
  refine ⟨h1, h2, h3, ?_⟩
  intro r hr
  by_cases ha : env.xinputResult = ERROR_SUCCESS
  · rw [h1 ha] at hr; cases hr; exact Or.inl ⟨rfl, ha⟩
  · by_cases hb : env.xinputResult = ERROR_DEVICE_NOT_CONNECTED
    · rw [h2 hb] at hr; cases hr; exact Or.inr rfl
    · rw [h3 ha hb] at hr; cases hr; exact Or.inr rfl

/-- C18 on slot 0: a not-connected answer reports a disconnect and keeps
the stored report. -/
theorem C18_xinput_update_witness :
    deflectedGamepad.usesDInput = false ∧
    deflectedGamepad.update (xinputEnvWith ERROR_DEVICE_NOT_CONNECTED upRightReport) =
      some ⟨deflectedGamepad, none, true⟩ :=
  ⟨rfl, (C18_xinput_update deflectedGamepad
    (xinputEnvWith ERROR_DEVICE_NOT_CONNECTED upRightReport) rfl).2.1 rfl⟩

/-- The outcome of a DirectInput `update`, by the classification of the
answers: an error, a disconnect, or the loop over the descriptors on the
report read. -/
theorem update_dinput_eq (g : nativeGamepad) (env : pollEnv) (hd : g.usesDInput = true) :
    (env.fatalFailure = true → ∃ e, g.update env = some ⟨g, some e, false⟩) ∧
    (env.fatalFailure = false → env.disconnects = true →
      g.update env = some ⟨g, none, true⟩) ∧
    (env.fatalFailure = false → env.disconnects = false →
      g.update env = (updateObjects env.report ⟨g, 0, 0, 0⟩ g.dinputObjects).map
        fun w => ⟨w.g, none, false⟩) := by
  unfold pollEnv.fatalFailure pollEnv.disconnects pollFatal readFatal readTransient
    pollEnv.report nativeGamepad.update
  simp only [hd, if_true]
  cases h1 : iDirectInputDevice8W.Poll env.poll1 with
  | some e1 =>
    cases t1 : notTransient e1 <;>
    cases h2 : iDirectInputDevice8W.GetDeviceState env.getState1 with
    | none => simp [Option.filter, t1]
    | some e2 =>
      cases t2 : notTransient e2 <;>
      cases h3 : iDirectInputDevice8W.Poll env.poll2 with
      | none =>
        cases h4 : iDirectInputDevice8W.GetDeviceState env.getState2 with
        | none => simp [Option.filter, t1, t2]
        | some e4 => cases t4 : notTransient e4 <;> simp [Option.filter, t1, t2, t4]
      | some e3 =>
        cases t3 : notTransient e3 <;>
        cases h4 : iDirectInputDevice8W.GetDeviceState env.getState2 with
        | none => simp [Option.filter, t1, t2, t3]
        | some e4 => cases t4 : notTransient e4 <;> simp [Option.filter, t1, t2, t3, t4]
  | none =>
    cases h2 : iDirectInputDevice8W.GetDeviceState env.getState1 with
    | none => simp [Option.filter]
    | some e2 =>
      cases t2 : notTransient e2 <;>
      cases h3 : iDirectInputDevice8W.Poll env.poll2 with
      | none =>
        cases h4 : iDirectInputDevice8W.GetDeviceState env.getState2 with
        | none => simp [Option.filter, t2]
        | some e4 => cases t4 : notTransient e4 <;> simp [Option.filter, t2, t4]
      | some e3 =>
        cases t3 : notTransient e3 <;>
        cases h4 : iDirectInputDevice8W.GetDeviceState env.getState2 with
        | none => simp [Option.filter, t2, t3]
        | some e4 => cases t4 : notTransient e4 <;> simp [Option.filter, t2, t3, t4]

theorem countKind_cons (t : dinputObjectType) (o : dinputObject) (os : List dinputObject) :
    countKind t (o :: os) = countKind t os + if o.objectType = t then 1 else 0 := by
  unfold countKind
  rw [List.countP_cons]
  by_cases h : o.objectType = t <;> simp [h]

/-- One loop iteration that does not panic: array lengths are kept and the
counter of the descriptor's kind advances by one. -/
theorem updateObject_counts (state : diJoyState) (w w1 : walkState) (o : dinputObject)
    (h : updateObject state w o = some w1) :
    w1.g.dinputAxes.length = w.g.dinputAxes.length ∧
    w1.g.dinputButtons.length = w.g.dinputButtons.length ∧
    w1.g.dinputHats.length = w.g.dinputHats.length ∧
    w1.ai = w.ai + (if o.objectType = dinputObjectTypeAxis then 1 else 0)
      + (if o.objectType = dinputObjectTypeSlider then 1 else 0) ∧
    w1.bi = w.bi + (if o.objectType = dinputObjectTypeButton then 1 else 0) ∧
    w1.hi = w.hi + (if o.objectType = dinputObjectTypePOV then 1 else 0) := by
  obtain ⟨t, i⟩ := o
  cases t
  · simp only [updateObject, goAssign, Option.map_eq_some'] at h
    obtain ⟨axes, h1, h2⟩ := h
    split at h1
    · cases h1; subst h2; simp
    · cases h1
  · simp only [updateObject, goAssign] at h
    split at h
    · simp only [Option.map_eq_some'] at h
      obtain ⟨axes, h1, h2⟩ := h
      split at h1
      · cases h1; subst h2; simp
      · cases h1
    · cases h
  · simp only [updateObject, goAssign] at h
    split at h
    · simp only [Option.map_eq_some'] at h
      obtain ⟨axes, h1, h2⟩ := h
      split at h1
      · cases h1; subst h2; simp
      · cases h1
    · cases h
  · simp only [updateObject, goAssign] at h
    split at h
    · simp only [Option.map_eq_some'] at h
      obtain ⟨axes, h1, h2⟩ := h
      split at h1
      · cases h1; subst h2; simp
      · cases h1
    · cases h

/-- One loop iteration does not panic when the descriptor reads inside the
report and the slot it writes exists. -/
theorem updateObject_isSome (state : diJoyState) (w : walkState) (o : dinputObject)
    (hr : o.InReport)
    (ha : o.objectType = dinputObjectTypeAxis ∨ o.objectType = dinputObjectTypeSlider →
      w.ai < w.g.dinputAxes.length)
    (hb : o.objectType = dinputObjectTypeButton → w.bi < w.g.dinputButtons.length)
    (hh : o.objectType = dinputObjectTypePOV → w.hi < w.g.dinputHats.length) :
    ∃ w1, updateObject state w o = some w1 := by
  obtain ⟨t, i⟩ := o
  cases t
  · have := ha (Or.inl rfl)
    simp [updateObject, goAssign, this]
  · have := ha (Or.inr rfl)
    have hi : i < 2 := hr
    simp [updateObject, goAssign, this, hi]
  · have := hb rfl
    have hi : i < 32 := hr
    simp [updateObject, goAssign, this, hi]
  · have := hh rfl
    have hi : i < 4 := hr
    simp [updateObject, goAssign, this, hi]

/-- The counters and array lengths after the loop. -/
theorem updateObjects_counts (state : diJoyState) :
    ∀ (objs : List dinputObject) (w w1 : walkState), updateObjects state w objs = some w1 →
      w1.g.dinputAxes.length = w.g.dinputAxes.length ∧
      w1.g.dinputButtons.length = w.g.dinputButtons.length ∧
      w1.g.dinputHats.length = w.g.dinputHats.length ∧
      w1.ai = w.ai + (countKind dinputObjectTypeAxis objs
        + countKind dinputObjectTypeSlider objs) ∧
      w1.bi = w.bi + countKind dinputObjectTypeButton objs ∧
      w1.hi = w.hi + countKind dinputObjectTypePOV objs := by
  intro objs
  induction objs with
  | nil =>
    intro w w1 h
    simp only [updateObjects, Option.some.injEq] at h
    subst h
    exact ⟨rfl, rfl, rfl, rfl, rfl, rfl⟩
  | cons o os ih =>
    intro w w1 h
    simp only [updateObjects] at h
    cases h2 : updateObject state w o with
    | none => rw [h2] at h; cases h
    | some w2 =>
      rw [h2] at h
      obtain ⟨a1, a2, a3, a4, a5, a6⟩ := updateObject_counts state w w2 o h2
      obtain ⟨b1, b2, b3, b4, b5, b6⟩ := ih w2 w1 h
      simp only [countKind_cons]
      refine ⟨b1.trans a1, b2.trans a2, b3.trans a3, ?_, ?_, ?_⟩ <;> omega

/-- The loop does not panic when every descriptor reads inside the report
and the arrays have room for the descriptors still to come. -/
theorem updateObjects_isSome (state : diJoyState) :
    ∀ (objs : List dinputObject) (w : walkState), (∀ o ∈ objs, o.InReport) →
      w.ai + (countKind dinputObjectTypeAxis objs + countKind dinputObjectTypeSlider objs)
        ≤ w.g.dinputAxes.length →
      w.bi + countKind dinputObjectTypeButton objs ≤ w.g.dinputButtons.length →
      w.hi + countKind dinputObjectTypePOV objs ≤ w.g.dinputHats.length →
      ∃ w1, updateObjects state w objs = some w1 := by
  intro objs
  induction objs with
  | nil => intro w _ _ _ _; exact ⟨w, rfl⟩
  | cons o os ih =>
    intro w hr ha hb hh
    simp only [countKind_cons] at ha hb hh
    obtain ⟨w2, h2⟩ := updateObject_isSome state w o (hr o (List.mem_cons_self _ _))
      (by rintro (h | h) <;> simp [h] at ha <;> omega)
      (by intro h; simp [h] at hb; omega)
      (by intro h; simp [h] at hh; omega)
    obtain ⟨a1, a2, a3, a4, a5, a6⟩ := updateObject_counts state w w2 o h2
    obtain ⟨w1, h1⟩ := ih w2 (fun x hx => hr x (List.mem_cons_of_mem _ hx))
      (by rw [a1, a4]; omega) (by rw [a2, a5]; omega) (by rw [a3, a6]; omega)
    exact ⟨w1, by simp only [updateObjects, h2, h1]⟩

theorem disconnects_not_fatal (env : pollEnv) (h : env.disconnects = true) :
    env.fatalFailure = false := by
  unfold pollEnv.disconnects at h
  unfold pollEnv.fatalFailure
  have hx : ∀ r, readTransient r = true → readFatal r = false := by
    intro r hr
    unfold readTransient at hr
    unfold readFatal
    cases hg : iDirectInputDevice8W.GetDeviceState r with
    | none => rfl
    | some e => rw [hg] at hr; simpa using hr
  simp only [Bool.and_eq_true, Bool.not_eq_true'] at h
  obtain ⟨⟨⟨h1, h2⟩, h3⟩, h4⟩ := h
  simp [h1, h2, h3, h4, hx _ h2, hx _ h4]

/-- Removing the entry at handle `h` empties slot `h` and nothing else. -/
theorem remove_handle (gs : gamepads) (h : Nat) :
    (gs.remove fun i _ => decide (i = h)).slots = gs.slots.set h none := by
  unfold gamepads.remove
  apply List.ext_getElem?
  intro k
  rw [List.getElem?_mapIdx]
  by_cases hk : k = h
  · subst hk
    cases hs : gs.slots[k]? with
    | none =>
      have : gs.slots.length ≤ k := by
        by_contra hc
        rw [List.getElem?_eq_getElem (by omega)] at hs
        cases hs
      rw [List.getElem?_eq_none (by rw [List.length_set]; exact this)]
      rfl
    | some slot =>
      have hl : k < gs.slots.length := by
        by_contra hc
        rw [List.getElem?_eq_none (by omega)] at hs
        cases hs
      rw [List.getElem?_set_self hl]
      cases slot <;> simp
  · rw [List.getElem?_set_ne (fun e => hk e.symm)]
    cases hs : gs.slots[k]? with
    | none => rfl
    | some slot => cases slot <;> simp [hk]

theorem remove_handle_eq (gs : gamepads) (h : Nat) :
    (gs.remove fun i _ => decide (i = h)) = ⟨gs.slots.set h none⟩ := by
  have h1 := remove_handle gs h
  unfold gamepads.remove at h1 ⊢
  simp only at h1
  rw [h1]

/-- C17: when `nativeGamepad.update` on the entry at handle `h` ends in a
disconnect (for DirectInput, transient failures on both report reads; for
XInput, a not-connected result), the registry afterwards is the registry
before with the slot of that entry emptied and every other slot as it was;
when the poll succeeds no entry is removed and every other entry is
unchanged. -/
theorem C17_disconnect_removes_own_entry (gs : gamepads) (h : Nat) (gp : Gamepad)
    (env : pollEnv) (hs : gs.slots[h]? = some (some gp)) :
    ((gp.nativeGamepad.usesDInput = true ∧ env.disconnects = true) ∨
      (gp.nativeGamepad.usesDInput = false ∧
        env.xinputResult = ERROR_DEVICE_NOT_CONNECTED) →
      gs.updateGamepad h env = some ⟨none, true, ⟨gs.slots.set h none⟩⟩) ∧
    (∀ u : entryUpdate, gs.updateGamepad h env = some u → u.disconnected = true →
      u.err = none ∧ u.gamepads.slots = gs.slots.set h none) ∧
    ((gs.slots.set h none)[h]? = some none ∧
      (gs.slots.set h none).length = gs.slots.length ∧
      ∀ k : Nat, k ≠ h → (gs.slots.set h none)[k]? = gs.slots[k]?) ∧
    (∀ u : entryUpdate, gs.updateGamepad h env = some u → u.err = none →
      u.disconnected = false →
      u.gamepads.slots.length = gs.slots.length ∧
      (∀ k : Nat, k ≠ h → u.gamepads.slots[k]? = gs.slots[k]?) ∧
      ∃ gp2 : Gamepad, u.gamepads.slots[h]? = some (some gp2) ∧ gp2.name = gp.name ∧
        gp2.sdlID = gp.sdlID) := by
  have hl : h < gs.slots.length := by
    by_contra hc
    rw [List.getElem?_eq_none (by omega)] at hs
    cases hs
  have hset : gs.slots.set h (some gp) = gs.slots := by
    apply List.ext_getElem?
    intro k
    by_cases hk : k = h
    · subst hk; rw [List.getElem?_set_self hl, hs]
    · rw [List.getElem?_set_ne (fun e => hk e.symm)]
  have hupd : ∀ u : entryUpdate, gs.updateGamepad h env = some u →
      ∃ r : updateResult, gp.nativeGamepad.update env = some r ∧ u.err = r.err ∧
        u.disconnected = r.disconnected ∧
        u.gamepads.slots =
          if r.removes then gs.slots.set h none
          else gs.slots.set h (some { gp with nativeGamepad := r.g }) := by
    intro u hu
    unfold gamepads.updateGamepad at hu
    rw [hs] at hu
    simp only [Option.map_eq_some'] at hu
    obtain ⟨r, hr, hu⟩ := hu
    subst hu
    refine ⟨r, hr, rfl, rfl, ?_⟩
    cases hrm : r.removes
    · simp
    · simp only [if_true, remove_handle, List.set_set]
  have hdisc : ∀ r : updateResult, gp.nativeGamepad.update env = some r →
      r.disconnected = true → r = ⟨gp.nativeGamepad, none, true⟩ := by
    intro r hr hdc
    rcases update_cases gp.nativeGamepad env r hr with ⟨hg, _⟩ | ⟨_, _, h2, _⟩ | ⟨_, _, h2, _⟩
    · cases hd : gp.nativeGamepad.usesDInput with
      | true =>
        obtain ⟨hf, hdis, hwalk⟩ := update_dinput_eq gp.nativeGamepad env hd
        cases h1 : env.fatalFailure with
        | true =>
          obtain ⟨e, he⟩ := hf h1
          rw [he] at hr; cases hr; cases hdc
        | false =>
          cases h4 : env.disconnects with
          | true => rw [hdis h1 h4] at hr; cases hr; rfl
          | false =>
            rw [hwalk h1 h4, Option.map_eq_some'] at hr
            obtain ⟨w, _, hw⟩ := hr
            subst hw; cases hdc
      | false =>
        unfold nativeGamepad.update at hr
        simp only [hd, Bool.false_eq_true, if_false] at hr
        split at hr
        · split at hr
          · cases hr; cases hdc
          · cases hr; rfl
        · cases hr; cases hdc
    · rw [h2] at hdc; cases hdc
    · rw [h2] at hdc; cases hdc
  refine ⟨?_, ?_, ⟨?_, ?_, ?_⟩, ?_⟩
  · intro hc
    have hr : gp.nativeGamepad.update env = some ⟨gp.nativeGamepad, none, true⟩ := by
      rcases hc with ⟨hd, hdis⟩ | ⟨hd, hx⟩
      · exact (update_dinput_eq gp.nativeGamepad env hd).2.1
          (disconnects_not_fatal env hdis) hdis
      · simp [nativeGamepad.update, hd, xinputGetState, hx, ERROR_DEVICE_NOT_CONNECTED,
          ERROR_SUCCESS]
    unfold gamepads.updateGamepad
    rw [hs]
    simp only [hr, Option.map_some', updateResult.removes]
    simp [remove_handle_eq]
  · intro u hu hdc
    obtain ⟨r, hr, he, hd2, hsl⟩ := hupd u hu
    have hr2 := hdisc r hr (hd2 ▸ hdc)
    subst hr2
    exact ⟨he, by simpa [updateResult.removes] using hsl⟩
  · exact List.getElem?_set_self hl
  · exact List.length_set _ _ _
  · intro k hk
    exact List.getElem?_set_ne (fun e => hk e.symm)
  · intro u hu he hdc
    obtain ⟨r, hr, he2, hd2, hsl⟩ := hupd u hu
    have hrm : r.removes = false := by
      simp [updateResult.removes, ← he2, ← hd2, he, hdc]
    rw [hrm] at hsl
    simp only [Bool.false_eq_true, if_false] at hsl
    rw [hsl]
    refine ⟨List.length_set _ _ _, ?_, _, List.getElem?_set_self hl, rfl, rfl⟩
    intro k hk
    exact List.getElem?_set_ne (fun e => hk e.symm)

/-- C17 on the example registry: a not-connected answer for the XInput entry
at handle 1 empties slot 1 and leaves slots 0 and 2 as they were. -/
theorem C17_disconnect_removes_own_entry_witness :
    exampleRegistry.slots[1]? =
      some (some ⟨goString "Xbox Controller", "78696e70757401000000000000000000",
        deflectedGamepad⟩) ∧
    exampleRegistry.updateGamepad 1 (xinputEnvWith ERROR_DEVICE_NOT_CONNECTED upRightReport) =
      some ⟨none, true, ⟨exampleRegistry.slots.set 1 none⟩⟩ :=
  ⟨rfl, (C17_disconnect_removes_own_entry exampleRegistry 1
    ⟨goString "Xbox Controller", "78696e70757401000000000000000000", deflectedGamepad⟩
    (xinputEnvWith ERROR_DEVICE_NOT_CONNECTED upRightReport) rfl).1 (Or.inr ⟨rfl, rfl⟩)⟩

theorem toNat_injective (a b : dinputObjectType) (h : a.toNat = b.toNat) : a = b := by
  cases a <;> cases b <;> first | rfl | (exact absurd h (by decide))

theorem objectLess_false_iff (a b : dinputObject) : objectLess b a = false ↔ objectLE a b := by
  obtain ⟨ta, ia⟩ := a
  obtain ⟨tb, ib⟩ := b
  unfold objectLess objectLE
  by_cases h : tb = ta
  · subst h
    simp
  · have h2 : ¬ ta = tb := fun e => h e.symm
    have h3 : tb.toNat ≠ ta.toNat := fun e => h (toNat_injective _ _ e)
    simp only [ne_eq, h, not_false_eq_true, if_true, decide_eq_false_iff_not, not_lt, h2,
      false_and, or_false]
    omega

theorem objectLE_total (a b : dinputObject) : objectLE a b ∨ objectLE b a := by
  unfold objectLE
  by_cases h : a.objectType = b.objectType
  · rcases Nat.le_total a.index b.index with h1 | h1
    · exact Or.inl (Or.inr ⟨h, h1⟩)
    · exact Or.inr (Or.inr ⟨h.symm, h1⟩)
  · have h3 : a.objectType.toNat ≠ b.objectType.toNat := fun e => h (toNat_injective _ _ e)
    rcases Nat.lt_or_gt_of_ne h3 with h1 | h1
    · exact Or.inl (Or.inl h1)
    · exact Or.inr (Or.inl h1)

theorem objectLE_trans (a b c : dinputObject) (h1 : objectLE a b) (h2 : objectLE b c) :
    objectLE a c := by
  unfold objectLE at *
  rcases h1 with h1 | ⟨h1, h1i⟩ <;> rcases h2 with h2 | ⟨h2, h2i⟩
  · exact Or.inl (by omega)
  · exact Or.inl (by rw [← h2]; exact h1)
  · exact Or.inl (by rw [h1]; exact h2)
  · exact Or.inr ⟨h1.trans h2, by omega⟩

theorem objectLE_antisymm (a b : dinputObject) (h1 : objectLE a b) (h2 : objectLE b a) :
    a = b := by
  obtain ⟨ta, ia⟩ := a
  obtain ⟨tb, ib⟩ := b
  unfold objectLE at *
  simp only at h1 h2
  rcases h1 with h1 | ⟨h1, h1i⟩ <;> rcases h2 with h2 | ⟨h2, h2i⟩
  · omega
  · rw [h2] at h1; omega
  · rw [h1] at h2; omega
  · subst h1
    have : ia = ib := by omega
    rw [this]

theorem sortObjects_perm (objects : List dinputObject) : (sortObjects objects).Perm objects :=
  List.perm_insertionSort _ objects

theorem sortObjects_sorted (objects : List dinputObject) :
    (sortObjects objects).Sorted objectLE := by
  haveI : IsTotal dinputObject (fun a b => objectLess b a = false) :=
    ⟨fun a b => (objectLE_total a b).imp (objectLess_false_iff a b).mpr
      (objectLess_false_iff b a).mpr⟩
  haveI : IsTrans dinputObject (fun a b => objectLess b a = false) :=
    ⟨fun a b c h1 h2 => (objectLess_false_iff a c).mpr
      (objectLE_trans a b c ((objectLess_false_iff a b).mp h1)
        ((objectLess_false_iff b c).mp h2))⟩
  have h := List.sorted_insertionSort (fun a b => objectLess b a = false) objects
  exact List.Pairwise.imp (fun {a b} hab => (objectLess_false_iff a b).mp hab) h

theorem sorted_unique (l1 l2 : List dinputObject) (hp : l1.Perm l2)
    (h1 : l1.Sorted objectLE) (h2 : l2.Sorted objectLE) : l1 = l2 := by
  haveI : IsAntisymm dinputObject objectLE := ⟨objectLE_antisymm⟩
  exact List.eq_of_perm_of_sorted hp h1 h2

/-- C19: the descriptor list stored in the adapter is a permutation of the
list accumulated by object enumeration, sorted in non-decreasing order of
(kind, index) with Axis < Slider < Button < Hat; it is the only sorted
permutation of that list, so every correct sort stores it, and two
enumeration results with the same descriptors in any order give the same
stored list. -/
theorem C19_descriptor_order_deterministic (objects : List dinputObject) :
    (sortObjects objects).Perm objects ∧
    (sortObjects objects).Sorted objectLE ∧
    (∀ l : List dinputObject, l.Perm objects → l.Sorted objectLE → l = sortObjects objects) ∧
    (∀ objects2 : List dinputObject, objects2.Perm objects →
      sortObjects objects2 = sortObjects objects) ∧
    (∀ a b : dinputObject, objectLess a b = true ↔ (objectLE a b ∧ a ≠ b)) ∧
    (dinputObjectTypeAxis.toNat < dinputObjectTypeSlider.toNat ∧
      dinputObjectTypeSlider.toNat < dinputObjectTypeButton.toNat ∧
      dinputObjectTypeButton.toNat < dinputObjectTypePOV.toNat) ∧
    (∀ (device : Nat) (reports : List objectReport) (guidInstance : GUID),
      (discoverDInputGamepad device reports guidInstance).dinputObjects =
        sortObjects (enumObjects reports ⟨device, [], 0, 0, 0, 0⟩).objects) := by
  refine ⟨sortObjects_perm objects, sortObjects_sorted objects, ?_, ?_, ?_, by decide,
    fun _ _ _ => rfl⟩
  · intro l hp hs
    exact sorted_unique _ _ (hp.trans (sortObjects_perm objects).symm) hs
      (sortObjects_sorted objects)
  · intro objects2 hp
    exact sorted_unique _ _
      ((sortObjects_perm objects2).trans (hp.trans (sortObjects_perm objects).symm))
      (sortObjects_sorted objects2) (sortObjects_sorted objects)
  · intro a b
    constructor
    · intro h
      have hnb : ¬ objectLE b a := by
        intro hle
        have := (objectLess_false_iff b a).mpr hle
        rw [h] at this
        cases this
      refine ⟨(objectLE_total a b).resolve_right hnb, ?_⟩
      intro e
      subst e
      exact hnb ((objectLE_total a a).elim id id)
    · rintro ⟨hle, hne⟩
      cases hl : objectLess a b with
      | true => rfl
      | false =>
        exact absurd (objectLE_antisymm a b hle ((objectLess_false_iff b a).mp hl)) hne

/-- The axis and slider cases of one loop iteration. -/
theorem updateObject_axisLike (state : diJoyState) (w w1 : walkState) (o : dinputObject)
    (h : updateObject state w o = some w1)
    (ht : o.objectType = dinputObjectTypeAxis ∨ o.objectType = dinputObjectTypeSlider) :
    w.ai < w.g.dinputAxes.length ∧
    w1.g.dinputAxes = w.g.dinputAxes.set w.ai (normalizeAxis (rawAxisValue state o)) ∧
    w1.ai = w.ai + 1 := by
  obtain ⟨t, i⟩ := o
  rcases ht with ht | ht <;> simp only at ht <;> subst ht
  · simp only [updateObject, goAssign, Option.map_eq_some'] at h
    obtain ⟨axes, h1, h2⟩ := h
    split at h1
    · rename_i hlt
      cases h1; subst h2
      exact ⟨hlt, rfl, rfl⟩
    · cases h1
  · simp only [updateObject, goAssign] at h
    split at h
    · rename_i hi2
      simp only [Option.map_eq_some'] at h
      obtain ⟨axes, h1, h2⟩ := h
      split at h1
      · rename_i hlt
        cases h1; subst h2
        refine ⟨hlt, ?_, rfl⟩
        simp [rawAxisValue, hi2, normalizeAxis]
      · cases h1
    · cases h

/-- The button and point-of-view cases of one loop iteration leave the axes
alone. -/
theorem updateObject_not_axisLike (state : diJoyState) (w w1 : walkState) (o : dinputObject)
    (h : updateObject state w o = some w1)
    (ht : ¬ (o.objectType = dinputObjectTypeAxis ∨ o.objectType = dinputObjectTypeSlider)) :
    w1.g.dinputAxes = w.g.dinputAxes ∧ w1.ai = w.ai := by
  obtain ⟨t, i⟩ := o
  cases t
  · exact absurd (Or.inl rfl) ht
  · exact absurd (Or.inr rfl) ht
  · simp only [updateObject, goAssign] at h
    split at h
    · simp only [Option.map_eq_some'] at h
      obtain ⟨x, h1, h2⟩ := h
      subst h2
      exact ⟨rfl, rfl⟩
    · cases h
  · simp only [updateObject, goAssign] at h
    split at h
    · simp only [Option.map_eq_some'] at h
      obtain ⟨x, h1, h2⟩ := h
      subst h2
      exact ⟨rfl, rfl⟩
    · cases h

/-- The axes after the loop: the slots below the starting counter are kept,
and the k-th axis or slider descriptor fills slot `ai + k` with the
normalization of its raw field. -/
theorem updateObjects_axes (state : diJoyState) :
    ∀ (objs : List dinputObject) (w w1 : walkState),
      updateObjects state w objs = some w1 →
      (∀ j, j < w.ai → w1.g.dinputAxes[j]? = w.g.dinputAxes[j]?) ∧
      (∀ (k : Nat) (o : dinputObject), (axisLikeObjects objs)[k]? = some o →
        w1.g.dinputAxes[w.ai + k]? = some (normalizeAxis (rawAxisValue state o))) := by
  intro objs
  induction objs with
  | nil =>
    intro w w1 h
    simp only [updateObjects, Option.some.injEq] at h
    subst h
    refine ⟨fun _ _ => rfl, ?_⟩
    intro k o hk
    simp [axisLikeObjects] at hk
  | cons o objs ih =>
    intro w w1 h
    simp only [updateObjects] at h
    cases h2 : updateObject state w o with
    | none => rw [h2] at h; cases h
    | some w2 =>
      rw [h2] at h
      simp only at h
      obtain ⟨ihk, ihp⟩ := ih w2 w1 h
      by_cases ht : o.objectType = dinputObjectTypeAxis ∨ o.objectType = dinputObjectTypeSlider
      · obtain ⟨hlt, hset, hai⟩ := updateObject_axisLike state w w2 o h2 ht
        refine ⟨?_, ?_⟩
        · intro j hj
          rw [ihk j (by omega), hset, List.getElem?_set_ne (by omega)]
        · intro k obj hk
          have hp : axisLikeObjects (o :: objs) = o :: axisLikeObjects objs := by
            rcases ht with ht | ht <;> simp [axisLikeObjects, ht]
          rw [hp] at hk
          cases k with
          | zero =>
            simp only [List.getElem?_cons_zero, Option.some.injEq] at hk
            subst hk
            rw [Nat.add_zero, ihk w.ai (by omega), hset, List.getElem?_set_self hlt]
          | succ k =>
            simp only [List.getElem?_cons_succ] at hk
            have hv := ihp k obj hk
            rw [← hv, hai]
            congr 1
            omega
      · obtain ⟨hax, hai⟩ := updateObject_not_axisLike state w w2 o h2 ht
        refine ⟨?_, ?_⟩
        · intro j hj
          rw [ihk j (by omega), hax]
        · intro k obj hk
          have hp : axisLikeObjects (o :: objs) = axisLikeObjects objs := by
            simp only [not_or] at ht
            simp [axisLikeObjects, ht.1, ht.2]
          rw [hp] at hk
          have hv := ihp k obj hk
          rw [← hv, hai]

/-- In a list sorted by (kind, index) the true axes come first and the
sliders right after them. -/
theorem axisLike_of_sorted :
    ∀ l : List dinputObject, l.Sorted objectLE →
      axisLikeObjects l = axisObjects l ++ sliderObjects l := by
  intro l
  induction l with
  | nil => intro _; rfl
  | cons o os ih =>
    intro hs
    rw [List.sorted_cons] at hs
    obtain ⟨hall, hs2⟩ := hs
    have ih2 := ih hs2
    obtain ⟨t, i⟩ := o
    have hge : ∀ x ∈ os, t.toNat ≤ x.objectType.toNat := by
      intro x hx
      rcases hall x hx with h | ⟨h, _⟩
      · exact Nat.le_of_lt h
      · simp only at h; rw [h]
    cases t
    · simp [axisLikeObjects, axisObjects, sliderObjects] at ih2 ⊢
      exact ih2
    · have hno : axisObjects os = [] := by
        unfold axisObjects
        rw [List.filter_eq_nil_iff]
        intro x hx hax
        have := hge x hx
        simp only [decide_eq_true_eq] at hax
        rw [hax] at this
        exact absurd this (by decide)
      simp only [axisLikeObjects, axisObjects, sliderObjects] at ih2 hno ⊢
      simp [ih2, hno]
    · have hno : axisLikeObjects os = [] := by
        unfold axisLikeObjects
        rw [List.filter_eq_nil_iff]
        intro x hx hax
        have := hge x hx
        simp only [Bool.or_eq_true, decide_eq_true_eq] at hax
        rcases hax with hax | hax <;> rw [hax] at this <;> exact absurd this (by decide)
      rw [hno] at ih2
      have h1 : axisObjects os = [] := by
        have := congrArg List.length ih2
        simp only [List.length_nil, List.length_append] at this
        exact List.eq_nil_of_length_eq_zero (by omega)
      have h2 : sliderObjects os = [] := by
        have := congrArg List.length ih2
        simp only [List.length_nil, List.length_append] at this
        exact List.eq_nil_of_length_eq_zero (by omega)
      simp only [axisLikeObjects, axisObjects, sliderObjects] at hno h1 h2 ⊢
      simp [hno, h1, h2]
    · have hno : axisLikeObjects os = [] := by
        unfold axisLikeObjects
        rw [List.filter_eq_nil_iff]
        intro x hx hax
        have := hge x hx
        simp only [Bool.or_eq_true, decide_eq_true_eq] at hax
        rcases hax with hax | hax <;> rw [hax] at this <;> exact absurd this (by decide)
      rw [hno] at ih2
      have h1 : axisObjects os = [] := by
        have := congrArg List.length ih2
        simp only [List.length_nil, List.length_append] at this
        exact List.eq_nil_of_length_eq_zero (by omega)
      have h2 : sliderObjects os = [] := by
        have := congrArg List.length ih2
        simp only [List.length_nil, List.length_append] at this
        exact List.eq_nil_of_length_eq_zero (by omega)
      simp only [axisLikeObjects, axisObjects, sliderObjects] at hno h1 h2 ⊢
      simp [hno, h1, h2]

theorem axisIndex_lt (guidType : GUID) (sliderCount index : Nat)
    (h : axisIndex guidType sliderCount = some index) (hs : guidType ≠ guidSlider) :
    index < 6 := by
  unfold axisIndex at h
  rw [if_neg hs] at h
  repeat' split at h
  all_goals first
    | (cases h; done)
    | (cases h; omega)

theorem axisIndex_slider (sliderCount index : Nat)
    (h : axisIndex guidSlider sliderCount = some index) : index = sliderCount := by
  unfold axisIndex at h
  rw [if_pos rfl] at h
  cases h
  rfl

theorem sliderObjects_append (xs : List dinputObject) (o : dinputObject) :
    sliderObjects (xs ++ [o]) =
      sliderObjects xs ++ (if o.objectType = dinputObjectTypeSlider then [o] else []) := by
  unfold sliderObjects
  rw [List.filter_append]
  by_cases h : o.objectType = dinputObjectTypeSlider <;> simp [h]

theorem callback_enumInvariant (o : objectReport) (ctx : enumObjectsContext)
    (h : EnumInvariant ctx) : EnumInvariant (dinputDevice8EnumObjectsCallback o ctx).1 := by
  obtain ⟨hs, ha⟩ := h
  unfold dinputDevice8EnumObjectsCallback
  by_cases h1 : diDftGetType o.dwType &&& DIDFT_AXIS ≠ 0
  · rw [if_pos h1]
    cases hi : axisIndex o.guidType ctx.sliderCount with
    | none => exact ⟨hs, ha⟩
    | some index =>
      cases iDirectInputDevice8W.SetProperty o.setRangeResult with
      | some e => exact ⟨hs, ha⟩
      | none =>
        by_cases h2 : o.guidType = guidSlider
        · simp only [h2, if_true]
          rw [h2] at hi
          have hidx := axisIndex_slider _ _ hi
          subst hidx
          refine ⟨?_, ?_⟩
          · simp only [sliderObjects_append, if_true, hs, List.range_succ, List.map_append,
              List.map_cons, List.map_nil]
          · intro x hx hax
            simp only [List.mem_append, List.mem_singleton] at hx
            rcases hx with hx | hx
            · exact ha x hx hax
            · subst hx; cases hax
        · simp only [h2, if_false]
          refine ⟨?_, ?_⟩
          · simp only [sliderObjects_append, hs]
            simp
          · intro x hx hax
            simp only [List.mem_append, List.mem_singleton] at hx
            rcases hx with hx | hx
            · exact ha x hx hax
            · subst hx; exact axisIndex_lt _ _ _ hi h2
  · rw [if_neg h1]
    by_cases h2 : diDftGetType o.dwType &&& DIDFT_BUTTON ≠ 0
    · rw [if_pos h2]
      refine ⟨?_, ?_⟩
      · simp only [sliderObjects_append, hs]
        simp
      · intro x hx hax
        simp only [List.mem_append, List.mem_singleton] at hx
        rcases hx with hx | hx
        · exact ha x hx hax
        · subst hx; cases hax
    · rw [if_neg h2]
      by_cases h3 : diDftGetType o.dwType &&& DIDFT_POV ≠ 0
      · rw [if_pos h3]
        refine ⟨?_, ?_⟩
        · simp only [sliderObjects_append, hs]
          simp
        · intro x hx hax
          simp only [List.mem_append, List.mem_singleton] at hx
          rcases hx with hx | hx
          · exact ha x hx hax
          · subst hx; cases hax
      · rw [if_neg h3]
        exact ⟨hs, ha⟩

theorem enumObjects_enumInvariant (reports : List objectReport) :
    ∀ ctx : enumObjectsContext, EnumInvariant ctx → EnumInvariant (enumObjects reports ctx) := by
  induction reports with
  | nil => intro ctx h; exact h
  | cons o os ih =>
    intro ctx h
    simp only [enumObjects]
    split
    · exact callback_enumInvariant o ctx h
    · exact ih _ (callback_enumInvariant o ctx h)

theorem sliders_sorted (n : Nat) :
    ((List.range n).map (fun i => (⟨dinputObjectTypeSlider, i⟩ : dinputObject))).Sorted
      objectLE := by
  unfold List.Sorted
  rw [List.pairwise_map]
  exact List.Pairwise.imp (fun {a b} hab => Or.inr ⟨rfl, Nat.le_of_lt hab⟩)
    (List.pairwise_lt_range n)

/-- The sliders of the stored descriptor list carry the indices 0, 1, 2, ...
in this order. -/
theorem sliderObjects_sorted (ctx : enumObjectsContext) (h : EnumInvariant ctx) :
    sliderObjects (sortObjects ctx.objects) =
      (List.range ctx.sliderCount).map (fun i => ⟨dinputObjectTypeSlider, i⟩) := by
  apply sorted_unique
  · rw [← h.1]
    exact (sortObjects_perm ctx.objects).filter _
  · exact (sortObjects_sorted ctx.objects).filter _
  · exact sliders_sorted _

theorem countKind_eq_length_axisObjects (l : List dinputObject) :
    countKind dinputObjectTypeAxis l = (axisObjects l).length := by
  unfold countKind axisObjects
  rw [List.countP_eq_length_filter]

theorem countKind_eq_length_sliderObjects (l : List dinputObject) :
    countKind dinputObjectTypeSlider l = (sliderObjects l).length := by
  unfold countKind sliderObjects
  rw [List.countP_eq_length_filter]

theorem axisValue_of_lt (g : nativeGamepad) (N : Nat) (hd : g.usesDInput = true)
    (hN : N < g.dinputAxes.length) : g.axisValue (N : Int) = g.dinputAxes[N]? := by
  unfold nativeGamepad.axisValue goIndex
  simp only [hd, if_true]
  rw [if_neg (by omega), if_neg (by omega)]
  simp

theorem countKind_split (t : dinputObjectType) (pre post : List dinputObject)
    (o : dinputObject) :
    countKind t (pre ++ o :: post) =
      countKind t pre + (if o.objectType = t then 1 else 0) + countKind t post := by
  unfold countKind
  rw [List.countP_append, List.countP_cons]
  by_cases h : o.objectType = t <;> simp [h]
  omega

/-- The arrays of a discovered adapter have one slot per descriptor of the
kind. -/
theorem discovered_lengths (device : Nat) (reports : List objectReport) (guidInstance : GUID) :
    (discoverDInputGamepad device reports guidInstance).dinputAxes.length =
      countKind dinputObjectTypeAxis
          (discoverDInputGamepad device reports guidInstance).dinputObjects +
        countKind dinputObjectTypeSlider
          (discoverDInputGamepad device reports guidInstance).dinputObjects ∧
    (discoverDInputGamepad device reports guidInstance).dinputButtons.length =
      countKind dinputObjectTypeButton
        (discoverDInputGamepad device reports guidInstance).dinputObjects ∧
    (discoverDInputGamepad device reports guidInstance).dinputHats.length =
      countKind dinputObjectTypePOV
        (discoverDInputGamepad device reports guidInstance).dinputObjects := by
  obtain ⟨ha, hs, hb, hp⟩ := enumObjects_countsAgree reports ⟨device, [], 0, 0, 0, 0⟩
    ⟨rfl, rfl, rfl, rfl⟩
  simp only [discoverDInputGamepad, newDInputGamepad, List.length_replicate,
    countKind_sortObjects]
  exact ⟨by rw [ha, hs], hb, hp⟩

/-- The writes of the loop on a discovered adapter stay inside the arrays. -/
theorem discovered_writes_in_bounds (device : Nat) (reports : List objectReport)
    (guidInstance : GUID) (state : diJoyState) (pre post : List dinputObject)
    (o : dinputObject) (w : walkState)
    (hsplit : (discoverDInputGamepad device reports guidInstance).dinputObjects =
      pre ++ o :: post)
    (hw : updateObjects state ⟨discoverDInputGamepad device reports guidInstance, 0, 0, 0⟩ pre
      = some w) :
    w.WriteInBounds o := by
  obtain ⟨la, lb, lh⟩ := discovered_lengths device reports guidInstance
  obtain ⟨a1, a2, a3, a4, a5, a6⟩ := updateObjects_counts state pre _ w hw
  simp only at a1 a2 a3 a4 a5 a6
  rw [hsplit] at la lb lh
  simp only [countKind_split] at la lb lh
  obtain ⟨t, i⟩ := o
  unfold walkState.WriteInBounds
  cases t <;> simp at la lb lh ⊢ <;> omega

theorem update_example : exampleGamepad.update (dinputEnv sliderState) = some examplePolled := by
  rfl

/-- The values of the axis index space after a successful DirectInput poll
of a discovered adapter with at most 2 sliders, by descriptor: slider
`N - trueAxisCount` for N from the number of true axes on, the field of the
N-th true-axis descriptor below it, with the poll's writes in bounds. -/
theorem discovered_axis_values (device : Nat) (reports : List objectReport) (guidInstance : GUID)
    (g : nativeGamepad) (env : pollEnv) (r : updateResult)
    (hg : g = discoverDInputGamepad device reports guidInstance)
    (hu : g.update env = some r) (he : r.err = none) (hdc : r.disconnected = false)
    (hs : countKind dinputObjectTypeSlider g.dinputObjects ≤ 2) :
    (∀ N : Nat, countKind dinputObjectTypeAxis g.dinputObjects ≤ N → (N : Int) < g.axisCount →
      ∃ h2 : N - countKind dinputObjectTypeAxis g.dinputObjects < 2,
        r.g.axisValue (N : Int) = some (normalizeAxis
          (env.report.rglSlider ⟨N - countKind dinputObjectTypeAxis g.dinputObjects, h2⟩))) ∧
    (∀ N : Nat, N < countKind dinputObjectTypeAxis g.dinputObjects →
      ∃ o : dinputObject, (axisObjects g.dinputObjects)[N]? = some o ∧ o.index < 6 ∧
        r.g.axisValue (N : Int) = some (normalizeAxis (axisField env.report o.index))) ∧
    ((axisObjects g.dinputObjects).map (fun o => o.index)).Sorted (fun a b => a ≤ b) ∧
    (axisObjects g.dinputObjects).Perm
      (axisObjects (enumObjects reports ⟨device, [], 0, 0, 0, 0⟩).objects) ∧
    (∀ state : diJoyState, axisField state 0 = state.lX ∧ axisField state 1 = state.lY ∧
      axisField state 2 = state.lZ ∧ axisField state 3 = state.lRx ∧
      axisField state 4 = state.lRy ∧ axisField state 5 = state.lRz) ∧
    (∀ (state : diJoyState) (pre post : List dinputObject) (o : dinputObject) (w : walkState),
      g.dinputObjects = pre ++ o :: post →
      updateObjects state ⟨g, 0, 0, 0⟩ pre = some w → w.WriteInBounds o) := by
  subst hg
  have hinv := enumObjects_enumInvariant reports ⟨device, [], 0, 0, 0, 0⟩
    ⟨rfl, fun o ho => absurd ho (List.not_mem_nil o)⟩
  have hobjs : (discoverDInputGamepad device reports guidInstance).dinputObjects =
      sortObjects (enumObjects reports ⟨device, [], 0, 0, 0, 0⟩).objects := rfl
  have hsorted := sortObjects_sorted (enumObjects reports ⟨device, [], 0, 0, 0, 0⟩).objects
  have hperm := sortObjects_perm (enumObjects reports ⟨device, [], 0, 0, 0, 0⟩).objects
  have hsl := sliderObjects_sorted _ hinv
  obtain ⟨la, _, _⟩ := discovered_lengths device reports guidInstance
  have hd : (discoverDInputGamepad device reports guidInstance).usesDInput = true := rfl
  -- the successful poll ran the loop
  obtain ⟨w, hw, hrg⟩ : ∃ w, updateObjects env.report
      ⟨discoverDInputGamepad device reports guidInstance, 0, 0, 0⟩
      (discoverDInputGamepad device reports guidInstance).dinputObjects = some w ∧
      r.g = w.g := by
    rcases update_cases _ env r hu with ⟨_, h1 | h1⟩ | ⟨_, _, _, w, hw, hg⟩ | ⟨h1, _⟩
    · rw [he] at h1; cases h1
    · rw [hdc] at h1; cases h1
    · exact ⟨w, hw, hg⟩
    · rw [hd] at h1; cases h1
  obtain ⟨hlen, hdev, _, _, _⟩ := updateObjects_hats env.report _ _ w hw
  obtain ⟨alen, _, _, _, _, _⟩ := updateObjects_counts env.report _ _ w hw
  obtain ⟨_, haxes⟩ := updateObjects_axes env.report _ _ w hw
  have hrd : r.g.usesDInput = true := by
    rw [hrg]
    unfold nativeGamepad.usesDInput
    rw [hdev]
    rfl
  have hrlen : r.g.dinputAxes.length =
      countKind dinputObjectTypeAxis
          (discoverDInputGamepad device reports guidInstance).dinputObjects +
        countKind dinputObjectTypeSlider
          (discoverDInputGamepad device reports guidInstance).dinputObjects := by
    rw [hrg, alen]; exact la
  have hlike := axisLike_of_sorted _ hsorted
  rw [← hobjs] at hlike hsl hsorted hperm
  have hcount : (discoverDInputGamepad device reports guidInstance).axisCount =
      ((countKind dinputObjectTypeAxis
          (discoverDInputGamepad device reports guidInstance).dinputObjects +
        countKind dinputObjectTypeSlider
          (discoverDInputGamepad device reports guidInstance).dinputObjects : Nat) : Int) := by
    unfold nativeGamepad.axisCount
    rw [hd, if_pos rfl, la]
  refine ⟨?_, ?_, ?_, hperm.filter _, fun _ => ⟨rfl, rfl, rfl, rfl, rfl, rfl⟩, ?_⟩
  · intro N h1 h2
    rw [hcount] at h2
    have hN : N < countKind dinputObjectTypeAxis
          (discoverDInputGamepad device reports guidInstance).dinputObjects +
        countKind dinputObjectTypeSlider
          (discoverDInputGamepad device reports guidInstance).dinputObjects := by
      exact_mod_cast h2
    have hj : N - countKind dinputObjectTypeAxis
        (discoverDInputGamepad device reports guidInstance).dinputObjects < 2 := by omega
    refine ⟨hj, ?_⟩
    rw [axisValue_of_lt r.g N hrd (by rw [hrlen]; exact hN), hrg]
    have hk : (axisLikeObjects
        (discoverDInputGamepad device reports guidInstance).dinputObjects)[N]? =
        some ⟨dinputObjectTypeSlider, N - countKind dinputObjectTypeAxis
          (discoverDInputGamepad device reports guidInstance).dinputObjects⟩ := by
      rw [hlike, List.getElem?_append_right
        (by rw [← countKind_eq_length_axisObjects]; exact h1),
        ← countKind_eq_length_axisObjects, hsl, List.getElem?_map,
        List.getElem?_range]
      · rfl
      · have := countKind_eq_length_sliderObjects
          (discoverDInputGamepad device reports guidInstance).dinputObjects
        rw [hsl, List.length_map, List.length_range] at this
        omega
    have := haxes N _ hk
    rw [Nat.zero_add] at this
    rw [this]
    simp [rawAxisValue, hj]
  · intro N hN
    have hlt : N < (axisObjects
        (discoverDInputGamepad device reports guidInstance).dinputObjects).length := by
      rw [← countKind_eq_length_axisObjects]; exact hN
    obtain ⟨o, hget⟩ : ∃ o, (axisObjects
        (discoverDInputGamepad device reports guidInstance).dinputObjects)[N]? = some o :=
      ⟨_, List.getElem?_eq_getElem hlt⟩
    have hmem : o ∈ axisObjects
        (discoverDInputGamepad device reports guidInstance).dinputObjects :=
      List.getElem?_mem hget
    unfold axisObjects at hmem
    rw [List.mem_filter] at hmem
    obtain ⟨hin, htype⟩ := hmem
    simp only [decide_eq_true_eq] at htype
    refine ⟨o, hget, hinv.2 _ (hperm.mem_iff.mp hin) htype, ?_⟩
    rw [axisValue_of_lt r.g N hrd (by rw [hrlen]; omega), hrg]
    have hk : (axisLikeObjects
        (discoverDInputGamepad device reports guidInstance).dinputObjects)[N]? = some o := by
      rw [hlike, List.getElem?_append_left hlt, hget]
    have := haxes N _ hk
    rw [Nat.zero_add] at this
    rw [this]
    unfold rawAxisValue
    rw [htype]
  · unfold List.Sorted
    rw [List.pairwise_map]
    have hf : (axisObjects
        (discoverDInputGamepad device reports guidInstance).dinputObjects).Pairwise objectLE :=
      List.Pairwise.filter _ hsorted
    refine List.Pairwise.imp_of_mem ?_ hf
    intro a b ha hb hab
    unfold axisObjects at ha hb
    rw [List.mem_filter] at ha hb
    have ta := ha.2
    have tb := hb.2
    simp only [decide_eq_true_eq] at ta tb
    rcases hab with h | ⟨_, h⟩
    · rw [ta, tb] at h; exact absurd h (by decide)
    · exact h
  · intro state pre post o w2 hsplit hw2
    exact discovered_writes_in_bounds device reports guidInstance state pre post o w2 hsplit hw2

theorem find_isSome (gs : gamepads) (c : Gamepad → Bool) :
    (gs.find c).isSome = true ↔ ∃ e ∈ gs.entries, c e = true := by
  unfold gamepads.find gamepads.entries
  rw [List.find?_isSome]

theorem entries_add (gs : gamepads) (name : List Nat) (sdlID : String) (init : nativeGamepad) :
    (gs.add name sdlID init).1.entries = gs.entries ++ [⟨name, sdlID, init⟩] := by
  simp [gamepads.add, gamepads.entries, List.filterMap_append]

theorem find_mono (gs gs2 : gamepads) (c : Gamepad → Bool)
    (hsub : ∀ e ∈ gs.entries, e ∈ gs2.entries) (h : (gs.find c).isSome = true) :
    (gs2.find c).isSome = true := by
  rw [find_isSome] at h ⊢
  obtain ⟨e, he, hc⟩ := h
  exact ⟨e, hsub e he, hc⟩

/-- What the callback does for a device it passes over. -/
theorem callback_of_settled (hw : hardware) (g : nativeGamepads) (d : dinputDeviceEnv)
    (gs : gamepads) (h : d.Settled gs) :
    dinput8EnumDevicesCallback hw g d gs =
      some ⟨if g.err.isSome then DIENUM_STOP else DIENUM_CONTINUE, g, gs, false⟩ := by
  unfold dinput8EnumDevicesCallback
  by_cases hg : g.err.isSome = true
  · rw [if_pos hg, if_pos hg]
  · rw [if_neg hg, if_neg hg]
    by_cases hf : (gs.find fun gp =>
        decide (gp.nativeGamepad.dinputGUID = d.guidInstance)).isSome = true
    · rw [if_pos hf]
    · rw [if_neg hf]
      rcases h with h | h
      · exact absurd h hf
      · rw [h]

theorem enumDevices_skip (hw : hardware) (d : dinputDeviceEnv)
    (hx : supportsXInput d.rawInput d.guidProduct = some (Except.ok true)) :
    ∀ (pre post : List dinputDeviceEnv) (g : nativeGamepads) (gs : gamepads),
      enumDevices hw (pre ++ d :: post) g gs = enumDevices hw (pre ++ post) g gs := by
  intro pre
  induction pre with
  | nil =>
    intro post g gs
    simp only [List.nil_append, enumDevices]
    rw [callback_of_settled hw g d gs (Or.inr hx)]
    by_cases hg : g.err.isSome = true
    · simp only [hg, if_true]
      cases post with
      | nil => rfl
      | cons p ps =>
        simp only [enumDevices]
        unfold dinput8EnumDevicesCallback
        rw [if_pos hg]
        simp
    · simp [hg, DIENUM_STOP, DIENUM_CONTINUE]
  | cons p ps ih =>
    intro post g gs
    simp only [List.cons_append, enumDevices]
    cases dinput8EnumDevicesCallback hw g p gs with
    | none => rfl
    | some r =>
      simp only
      split
      · rfl
      · exact ih post r.g r.gamepads

/-- C11: a DirectInput device for which `supportsXInput` reports true is
never inserted in the registry: for every registry and every arbiter the
callback leaves arbiter and registry unchanged and does not call
`CreateDevice`, returning CONTINUE (STOP only when an error is already
recorded); and for every position of the device in the enumeration order,
the enumeration pass ends exactly as the pass without the device. -/
theorem C11_claimed_device_not_inserted (hw : hardware) (g : nativeGamepads)
    (lpddi : dinputDeviceEnv) (gs : gamepads)
    (hx : supportsXInput lpddi.rawInput lpddi.guidProduct = some (Except.ok true)) :
    (g.err = none →
      dinput8EnumDevicesCallback hw g lpddi gs = some ⟨DIENUM_CONTINUE, g, gs, false⟩) ∧
    (∃ r : enumDevicesStep, dinput8EnumDevicesCallback hw g lpddi gs = some r ∧
      r.gamepads = gs ∧ r.g = g ∧ r.createDeviceCalled = false ∧
      (r.ret = DIENUM_CONTINUE ∨ (g.err.isSome = true ∧ r.ret = DIENUM_STOP))) ∧
    (∀ (pre post : List dinputDeviceEnv) (g0 : nativeGamepads) (gs0 : gamepads),
      enumDevices hw (pre ++ lpddi :: post) g0 gs0 = enumDevices hw (pre ++ post) g0 gs0) := by
  have hc := callback_of_settled hw g lpddi gs (Or.inr hx)
  refine ⟨?_, ⟨_, hc, rfl, rfl, rfl, ?_⟩, enumDevices_skip hw lpddi hx⟩
  · intro hg
    rw [hc, hg]
    rfl
  · by_cases hg : g.err.isSome = true
    · exact Or.inr ⟨hg, by simp [hg]⟩
    · exact Or.inl (by simp [hg])

/-- C11 on the example host: `claimedDevice` has a raw-input HID device with
its vendor and product whose name contains "IG_"; the callback passes over
it and the pass over both devices ends as the pass over `plainDevice` alone. -/
theorem C11_claimed_device_not_inserted_witness :
    supportsXInput claimedDevice.rawInput claimedDevice.guidProduct = some (Except.ok true) ∧
    dinput8EnumDevicesCallback exampleHardware hookedArbiter claimedDevice emptyRegistry =
      some ⟨DIENUM_CONTINUE, hookedArbiter, emptyRegistry, false⟩ ∧
    enumDevices exampleHardware ([] ++ claimedDevice :: [plainDevice]) hookedArbiter
        emptyRegistry =
      enumDevices exampleHardware ([] ++ [plainDevice]) hookedArbiter emptyRegistry :=
  ⟨rfl,
    (C11_claimed_device_not_inserted exampleHardware hookedArbiter claimedDevice emptyRegistry
      rfl).1 rfl,
    (C11_claimed_device_not_inserted exampleHardware hookedArbiter claimedDevice emptyRegistry
      rfl).2.2 [] [plainDevice] hookedArbiter emptyRegistry⟩

theorem settled_mono (d : dinputDeviceEnv) (gs gs2 : gamepads)
    (hsub : ∀ e ∈ gs.entries, e ∈ gs2.entries) (h : d.Settled gs) : d.Settled gs2 := by
  rcases h with h | h
  · exact Or.inl (find_mono gs gs2 _ hsub h)
  · exact Or.inr h

theorem slotSettled_mono (hw : hardware) (i : Nat) (gs gs2 : gamepads)
    (hsub : ∀ e ∈ gs.entries, e ∈ gs2.entries) (h : hw.SlotSettled gs i) :
    hw.SlotSettled gs2 i := by
  rcases h with h | h
  · exact Or.inl (find_mono gs gs2 _ hsub h)
  · exact Or.inr h

/-- A call of the callback that answers CONTINUE: the registry only grows,
the device is passed over afterwards, the callback pointer for devices is
kept, and distinct keys stay distinct. -/
theorem callback_continue (hw : hardware) (g : nativeGamepads) (d : dinputDeviceEnv)
    (gs : gamepads) (r : enumDevicesStep) (h : dinput8EnumDevicesCallback hw g d gs = some r) :
    r.g.enumDevicesCallback = g.enumDevicesCallback ∧
    (∀ e ∈ gs.entries, e ∈ r.gamepads.entries) ∧
    (gs.Distinct → r.gamepads.Distinct) ∧
    (r.ret ≠ DIENUM_STOP → d.Settled r.gamepads) := by
  unfold dinput8EnumDevicesCallback at h
  simp only at h
  split at h
  · cases h
    exact ⟨rfl, fun e he => he, fun hd => hd, fun hr => absurd rfl hr⟩
  · split at h
    · rename_i hf
      cases h
      exact ⟨rfl, fun e he => he, fun hd => hd, fun _ => Or.inl hf⟩
    · rename_i hf
      split at h
      · cases h
      · cases h
        exact ⟨rfl, fun e he => he, fun hd => hd, fun hr => absurd rfl hr⟩
      · rename_i hx
        cases h
        exact ⟨rfl, fun e he => he, fun hd => hd, fun _ => Or.inr hx⟩
      · split at h
        · cases h
          exact ⟨rfl, fun e he => he, fun hd => hd, fun hr => absurd rfl hr⟩
        · split at h
          · cases h
            exact ⟨rfl, fun e he => he, fun hd => hd, fun hr => absurd rfl hr⟩
          · split at h
            · cases h
              exact ⟨rfl, fun e he => he, fun hd => hd, fun hr => absurd rfl hr⟩
            · split at h
              · cases h
                exact ⟨rfl, fun e he => he, fun hd => hd, fun hr => absurd rfl hr⟩
              · split at h
                · cases h
                  refine ⟨?_, fun e he => he, fun hd => hd, fun hr => absurd rfl hr⟩
                  split <;> rfl
                · split at h
                  · cases h
                  · rename_i sdlID _
                    cases h
                    refine ⟨?_, ?_, ?_, ?_⟩
                    · show (if g.enumObjectsCallback = 0 then _ else g).enumDevicesCallback = _
                      split <;> rfl
                    · intro e he
                      show e ∈ (gs.add _ _ _).1.entries
                      rw [entries_add]
                      exact List.mem_append_left _ he
                    · intro hd
                      show (gs.add _ _ _).1.Distinct
                      unfold gamepads.Distinct
                      rw [entries_add, List.pairwise_append]
                      refine ⟨hd, List.pairwise_singleton _ _, ?_⟩
                      intro a ha b hb
                      rw [List.mem_singleton] at hb
                      subst hb
                      refine ⟨fun _ _ hab => ?_, fun _ hb => ?_⟩
                      · apply hf
                        rw [find_isSome]
                        exact ⟨a, ha, by simpa [newDInputGamepad] using hab⟩
                      · simp [newDInputGamepad] at hb
                    · intro _
                      refine Or.inl ?_
                      rw [find_isSome]
                      refine ⟨⟨d.tszInstanceName, sdlID, newDInputGamepad d.device
                        (enumObjects d.objects ⟨d.device, [], 0, 0, 0, 0⟩) d.guidInstance⟩, ?_, ?_⟩
                      · show _ ∈ (gs.add _ _ _).1.entries
                        rw [entries_add]
                        exact List.mem_append_right _ (List.mem_singleton.mpr rfl)
                      · simp [newDInputGamepad]

/-- An enumeration pass: the registry only grows, distinct keys stay
distinct, the callback pointer for devices is kept; and when no error is
recorded at its end, none was at its start and every device is passed over
in the final registry. -/
theorem enumDevices_pass (hw : hardware) :
    ∀ (ds : List dinputDeviceEnv) (g : nativeGamepads) (gs : gamepads)
      (g2 : nativeGamepads) (gs2 : gamepads),
      enumDevices hw ds g gs = some (g2, gs2) →
      g2.enumDevicesCallback = g.enumDevicesCallback ∧
      (∀ e ∈ gs.entries, e ∈ gs2.entries) ∧
      (gs.Distinct → gs2.Distinct) ∧
      (g2.err = none → g.err = none ∧ ∀ d ∈ ds, d.Settled gs2) := by
  intro ds
  induction ds with
  | nil =>
    intro g gs g2 gs2 h
    simp only [enumDevices, Option.some.injEq, Prod.mk.injEq] at h
    obtain ⟨h1, h2⟩ := h
    subst h1; subst h2
    exact ⟨rfl, fun e he => he, fun hd => hd,
      fun he => ⟨he, fun d hd => absurd hd (List.not_mem_nil d)⟩⟩
  | cons d ds ih =>
    intro g gs g2 gs2 h
    simp only [enumDevices] at h
    cases hc : dinput8EnumDevicesCallback hw g d gs with
    | none => rw [hc] at h; cases h
    | some r =>
      rw [hc] at h
      simp only at h
      obtain ⟨c1, c2, c3, c4⟩ := callback_continue hw g d gs r hc
      obtain ⟨_, _, f3, f4⟩ := callback_frame hw g d gs r hc
      by_cases hr : r.ret = DIENUM_STOP
      · rw [if_pos hr] at h
        simp only [Option.some.injEq, Prod.mk.injEq] at h
        obtain ⟨h1, h2⟩ := h
        subst h1; subst h2
        refine ⟨c1, c2, c3, fun he => ?_⟩
        have := f3 hr
        rw [he] at this
        cases this
      · rw [if_neg hr] at h
        obtain ⟨i1, i2, i3, i4⟩ := ih r.g r.gamepads g2 gs2 h
        refine ⟨i1.trans c1, fun e he => i2 e (c2 e he), fun hd => i3 (c3 hd), fun he => ?_⟩
        obtain ⟨j1, j2⟩ := i4 he
        refine ⟨(f4 hr).2 ▸ j1, fun x hx => ?_⟩
        rcases List.mem_cons.mp hx with hx | hx
        · subst hx
          exact settled_mono _ _ _ i2 (c4 hr)
        · exact j2 x hx

/-- An enumeration pass over devices that are all passed over changes
neither the arbiter nor the registry. -/
theorem enumDevices_settled (hw : hardware) (g : nativeGamepads) (gs : gamepads)
    (hg : g.err = none) :
    ∀ ds : List dinputDeviceEnv, (∀ d ∈ ds, d.Settled gs) →
      enumDevices hw ds g gs = some (g, gs) := by
  intro ds
  induction ds with
  | nil => intro _; rfl
  | cons d ds ih =>
    intro h
    simp only [enumDevices]
    rw [callback_of_settled hw g d gs (h d (List.mem_cons_self d ds)), hg]
    simp only [Option.isSome_none, Bool.false_eq_true, if_false]
    rw [if_neg (by decide)]
    exact ih fun x hx => h x (List.mem_cons_of_mem d hx)

/-- The XInput loop: the registry only grows and distinct keys stay
distinct; and when it returns no error every slot it visited is passed over
in the final registry. -/
theorem detectXInput_pass (hw : hardware) :
    ∀ (is : List Nat) (gs : gamepads),
      (∀ e ∈ gs.entries, e ∈ (detectXInput hw is gs).2.entries) ∧
      (gs.Distinct → (detectXInput hw is gs).2.Distinct) ∧
      ((detectXInput hw is gs).1 = none →
        ∀ i ∈ is, hw.SlotSettled (detectXInput hw is gs).2 i) := by
  intro is
  induction is with
  | nil =>
    intro gs
    exact ⟨fun e he => he, fun hd => hd, fun _ i hi => absurd hi (List.not_mem_nil i)⟩
  | cons i is ih =>
    intro gs
    simp only [detectXInput]
    split
    · rename_i hf
      obtain ⟨i1, i2, i3⟩ := ih gs
      refine ⟨i1, i2, fun he x hx => ?_⟩
      rcases List.mem_cons.mp hx with hx | hx
      · subst hx
        exact slotSettled_mono hw _ _ _ i1 (Or.inl hf)
      · exact i3 he x hx
    · rename_i hf
      split
      · rename_i err hcap
        split
        · exact ⟨fun e he => he, fun hd => hd, fun he => by cases he⟩
        · rename_i hne
          obtain ⟨i1, i2, i3⟩ := ih gs
          refine ⟨i1, i2, fun he x hx => ?_⟩
          rcases List.mem_cons.mp hx with hx | hx
          · subst hx
            refine Or.inr ?_
            rw [hcap]
            simpa using hne
          · exact i3 he x hx
      · obtain ⟨i1, i2, i3⟩ := ih (gs.add (xinputName (hw.xinputCaps i))
          (xinputSdlID (hw.xinputCaps i)) (newXInputGamepad (i : Int))).1
        refine ⟨fun e he => i1 e ?_, fun hd => i2 ?_, fun he x hx => ?_⟩
        · rw [entries_add]
          exact List.mem_append_left _ he
        · unfold gamepads.Distinct
          rw [entries_add, List.pairwise_append]
          refine ⟨hd, List.pairwise_singleton _ _, ?_⟩
          intro a ha b hb
          rw [List.mem_singleton] at hb
          subst hb
          refine ⟨fun _ hb => ?_, fun ha2 _ hab => ?_⟩
          · simp [newXInputGamepad] at hb
          · apply hf
            rw [find_isSome]
            exact ⟨a, ha, by simpa [newXInputGamepad] using ⟨ha2, hab⟩⟩
        · rcases List.mem_cons.mp hx with hx | hx
          · subst hx
            refine slotSettled_mono hw _ _ _ i1 (Or.inl ?_)
            rw [find_isSome]
            refine ⟨⟨xinputName (hw.xinputCaps x), xinputSdlID (hw.xinputCaps x),
              newXInputGamepad (x : Int)⟩, ?_, ?_⟩
            · rw [entries_add]
              exact List.mem_append_right _ (List.mem_singleton.mpr rfl)
            · simp [newXInputGamepad]
          · exact i3 he x hx

/-- The XInput loop over slots that are all passed over returns no error and
leaves the registry unchanged. -/
theorem detectXInput_settled (hw : hardware) (gs : gamepads) :
    ∀ is : List Nat, (∀ i ∈ is, hw.SlotSettled gs i) → detectXInput hw is gs = (none, gs) := by
  intro is
  induction is with
  | nil => intro _; rfl
  | cons i is ih =>
    intro h
    have hi := ih fun x hx => h x (List.mem_cons_of_mem i hx)
    simp only [detectXInput]
    split
    · exact hi
    · rename_i hf
      rcases h i (List.mem_cons_self i is) with h1 | h1
      · exact absurd h1 hf
      · rw [h1]
        simp only [decide_True, Bool.not_true, Bool.false_eq_true, if_false]
        exact hi

/-- A discovery run in which every device and every slot is passed over
returns no error and changes neither the arbiter nor the registry. -/
theorem detectConnection_settled (g : nativeGamepads) (hw : hardware) (gs : gamepads)
    (hdi : g.dinput8 ≠ 0 → (g.enumDevicesCallback = 0 → hw.enumDevicesCallbackPtr = 0) ∧
      g.err = none ∧ directInputCall hw.enumDevicesResult = none ∧
      ∀ d ∈ hw.dinputDevices, d.Settled gs)
    (hxi : g.xinput ≠ 0 → ∀ i ∈ [0, 1, 2, 3], hw.SlotSettled gs i) :
    g.detectConnection hw gs = some ⟨none, g, gs⟩ := by
  have hx : (if g.xinput ≠ 0 then
      (⟨(detectXInput hw [0, 1, 2, 3] gs).1, g, (detectXInput hw [0, 1, 2, 3] gs).2⟩ :
        detectResult)
      else ⟨none, g, gs⟩) = ⟨none, g, gs⟩ := by
    split
    · rename_i hx
      rw [detectXInput_settled hw gs _ (hxi hx)]
    · rfl
  unfold nativeGamepads.detectConnection
  simp only
  split
  · rename_i hd
    obtain ⟨hptr, he, hr, hs⟩ := hdi hd
    have hg1 : (if g.enumDevicesCallback = 0 then
        ({ g with enumDevicesCallback := hw.enumDevicesCallbackPtr } : nativeGamepads)
        else g) = g := by
      split
      · rename_i h0
        rw [hptr h0, ← h0]
      · rfl
    rw [hg1, enumDevices_settled hw g gs he _ hs]
    simp only [hr, he]
    rw [hx]
  · rw [hx]

/-- A discovery run: distinct keys stay distinct; and when it returns no
error, every device and slot of an enabled backend is passed over in the
final registry and the callback pointer for devices is settled. -/
theorem detectConnection_pass (g : nativeGamepads) (hw : hardware) (gs : gamepads)
    (d1 : detectResult) (h1 : g.detectConnection hw gs = some d1) :
    (gs.Distinct → d1.gamepads.Distinct) ∧
    (d1.err = none →
      (d1.g.dinput8 ≠ 0 → (d1.g.enumDevicesCallback = 0 → hw.enumDevicesCallbackPtr = 0) ∧
        d1.g.err = none ∧ directInputCall hw.enumDevicesResult = none ∧
        ∀ d ∈ hw.dinputDevices, d.Settled d1.gamepads) ∧
      (d1.g.xinput ≠ 0 → ∀ i ∈ [0, 1, 2, 3], hw.SlotSettled d1.gamepads i)) := by
  have hxp : ∀ (g2 : nativeGamepads) (gs2 : gamepads),
      (∀ e ∈ gs2.entries, e ∈ (if g2.xinput ≠ 0 then
        (⟨(detectXInput hw [0, 1, 2, 3] gs2).1, g2, (detectXInput hw [0, 1, 2, 3] gs2).2⟩ :
          detectResult) else ⟨none, g2, gs2⟩).gamepads.entries) ∧
      (gs2.Distinct → (if g2.xinput ≠ 0 then
        (⟨(detectXInput hw [0, 1, 2, 3] gs2).1, g2, (detectXInput hw [0, 1, 2, 3] gs2).2⟩ :
          detectResult) else ⟨none, g2, gs2⟩).gamepads.Distinct) ∧
      ((if g2.xinput ≠ 0 then
        (⟨(detectXInput hw [0, 1, 2, 3] gs2).1, g2, (detectXInput hw [0, 1, 2, 3] gs2).2⟩ :
          detectResult) else ⟨none, g2, gs2⟩).g = g2) ∧
      ((if g2.xinput ≠ 0 then
        (⟨(detectXInput hw [0, 1, 2, 3] gs2).1, g2, (detectXInput hw [0, 1, 2, 3] gs2).2⟩ :
          detectResult) else ⟨none, g2, gs2⟩).err = none → g2.xinput ≠ 0 →
        ∀ i ∈ [0, 1, 2, 3], hw.SlotSettled (if g2.xinput ≠ 0 then
          (⟨(detectXInput hw [0, 1, 2, 3] gs2).1, g2, (detectXInput hw [0, 1, 2, 3] gs2).2⟩ :
            detectResult) else ⟨none, g2, gs2⟩).gamepads i) := by
    intro g2 gs2
    obtain ⟨p1, p2, p3⟩ := detectXInput_pass hw [0, 1, 2, 3] gs2
    by_cases hx : g2.xinput ≠ 0
    · simp only [if_pos hx]
      exact ⟨p1, p2, trivial, fun he _ => p3 he⟩
    · simp only [if_neg hx]
      exact ⟨fun e he => he, fun hd => hd, trivial, fun _ h => absurd h hx⟩
  unfold nativeGamepads.detectConnection at h1
  simp only at h1
  split at h1
  · rename_i hd
    split at h1
    · cases h1
    · rename_i g2 gs2 he
      obtain ⟨e1, e2, e3, e4⟩ := enumDevices_pass hw _ _ _ _ _ he
      obtain ⟨hf, _⟩ := enumDevices_frame hw _ _ _ _ _ he
      split at h1
      · cases h1
        exact ⟨e3, fun h => by cases h⟩
      · rename_i hcall
        split at h1
        · cases h1
          exact ⟨e3, fun h => by cases h⟩
        · rename_i hn
          obtain ⟨x1, x2, x3, x4⟩ := hxp g2 gs2
          cases h1
          refine ⟨fun hdd => x2 (e3 hdd), fun herr => ?_⟩
          rw [x3]
          refine ⟨fun _ => ⟨fun h0 => ?_, hn, hcall, fun d hdm => ?_⟩, x4 herr⟩
          · rw [e1] at h0
            split at h0
            · exact h0
            · rename_i hne
              exact absurd h0 hne
          · exact settled_mono _ _ _ x1 ((e4 hn).2 d hdm)
  · rename_i hd
    obtain ⟨x1, x2, x3, x4⟩ := hxp g gs
    cases h1
    refine ⟨x2, fun herr => ?_⟩
    rw [x3]
    exact ⟨fun h => absurd h hd, x4 herr⟩

/-- C12: discovery is idempotent. When `detectConnection` returns no error,
running it again at once on the arbiter and registry it left, with the same
hardware, returns no error and leaves the arbiter and the registry exactly
as they were: a DirectInput device whose instance GUID is present is passed
over by the callback, and an XInput slot whose index is present on an entry
without a DirectInput device is passed over by the loop. A discovery run
keeps the registry free of two DirectInput entries with the same instance
GUID and of two XInput entries with the same slot index, as the empty
registry is. -/
theorem C12_discovery_idempotent (g : nativeGamepads) (hw : hardware) (gs : gamepads)
    (d1 : detectResult) (h1 : g.detectConnection hw gs = some d1) :
    (d1.err = none →
      d1.g.detectConnection hw d1.gamepads = some ⟨none, d1.g, d1.gamepads⟩) ∧
    (∀ (g2 : nativeGamepads) (gs2 : gamepads) (d : dinputDeviceEnv), g2.err = none →
      (gs2.find fun gp =>
        decide (gp.nativeGamepad.dinputGUID = d.guidInstance)).isSome = true →
      dinput8EnumDevicesCallback hw g2 d gs2 = some ⟨DIENUM_CONTINUE, g2, gs2, false⟩) ∧
    (∀ (i : Nat) (is : List Nat) (gs2 : gamepads),
      (gs2.find fun gp =>
        decide (gp.nativeGamepad.dinputDevice = none ∧
          gp.nativeGamepad.xinputIndex = (i : Int))).isSome = true →
      detectXInput hw (i :: is) gs2 = detectXInput hw is gs2) ∧
    (gs.Distinct → d1.gamepads.Distinct) ∧
    emptyRegistry.Distinct := by
  obtain ⟨hdist, hpass⟩ := detectConnection_pass g hw gs d1 h1
  refine ⟨fun herr => ?_, ?_, ?_, hdist, List.Pairwise.nil⟩
  · obtain ⟨p1, p2⟩ := hpass herr
    exact detectConnection_settled d1.g hw d1.gamepads p1 p2
  · intro g2 gs2 d hg hf
    rw [callback_of_settled hw g2 d gs2 (Or.inl hf), hg]
    rfl
  · intro i is gs2 hf
    simp only [detectXInput]
    rw [if_pos hf]

/-- C12 on the example host: the first discovery run from the empty registry
returns no error, and the second run changes nothing. -/
theorem C12_discovery_idempotent_witness :
    ∃ d1 : detectResult,
      hookedArbiter.detectConnection exampleHardware emptyRegistry = some d1 ∧
      d1.err = none ∧ d1.gamepads.entries.length = 2 ∧
      d1.g.detectConnection exampleHardware d1.gamepads = some ⟨none, d1.g, d1.gamepads⟩ ∧
      d1.gamepads.Distinct :=
  ⟨(hookedArbiter.detectConnection exampleHardware emptyRegistry).get (by decide),
    by simp, by decide, by decide,
    (C12_discovery_idempotent hookedArbiter exampleHardware emptyRegistry _ (by simp)).1
      (by decide),
    (C12_discovery_idempotent hookedArbiter exampleHardware emptyRegistry _ (by simp)).2.2.2.1
      List.Pairwise.nil⟩

theorem callback_indexBelow (o : objectReport) (ctx : enumObjectsContext)
    (h : ctx.IndexBelowCount) : (dinputDevice8EnumObjectsCallback o ctx).1.IndexBelowCount := by
  have hweak : ∀ (s b p : Nat), ctx.sliderCount ≤ s → ctx.buttonCount ≤ b → ctx.povCount ≤ p →
      ∀ x ∈ ctx.objects,
        match x.objectType with
        | dinputObjectTypeAxis => x.index < 6
        | dinputObjectTypeSlider => x.index < s
        | dinputObjectTypeButton => x.index < b
        | dinputObjectTypePOV => x.index < p := by
    intro s b p hs hb hp x hx
    have := h x hx
    cases ht : x.objectType <;> simp only [ht] at this ⊢ <;> omega
  unfold dinputDevice8EnumObjectsCallback
  by_cases h1 : diDftGetType o.dwType &&& DIDFT_AXIS ≠ 0
  · rw [if_pos h1]
    cases hi : axisIndex o.guidType ctx.sliderCount with
    | none => exact h
    | some index =>
      cases iDirectInputDevice8W.SetProperty o.setRangeResult with
      | some e => exact h
      | none =>
        by_cases h2 : o.guidType = guidSlider
        · simp only [h2, if_true]
          rw [h2] at hi
          have hidx := axisIndex_slider _ _ hi
          subst hidx
          intro x hx
          simp only [List.mem_append, List.mem_singleton] at hx
          rcases hx with hx | hx
          · exact hweak _ _ _ (Nat.le_succ _) (Nat.le_refl _) (Nat.le_refl _) x hx
          · subst hx; exact Nat.lt_succ_self _
        · simp only [h2, if_false]
          intro x hx
          simp only [List.mem_append, List.mem_singleton] at hx
          rcases hx with hx | hx
          · exact h x hx
          · subst hx; exact axisIndex_lt _ _ _ hi h2
  · rw [if_neg h1]
    by_cases h2 : diDftGetType o.dwType &&& DIDFT_BUTTON ≠ 0
    · rw [if_pos h2]
      intro x hx
      simp only [List.mem_append, List.mem_singleton] at hx
      rcases hx with hx | hx
      · exact hweak _ _ _ (Nat.le_refl _) (Nat.le_succ _) (Nat.le_refl _) x hx
      · subst hx; exact Nat.lt_succ_self _
    · rw [if_neg h2]
      by_cases h3 : diDftGetType o.dwType &&& DIDFT_POV ≠ 0
      · rw [if_pos h3]
        intro x hx
        simp only [List.mem_append, List.mem_singleton] at hx
        rcases hx with hx | hx
        · exact hweak _ _ _ (Nat.le_refl _) (Nat.le_refl _) (Nat.le_succ _) x hx
        · subst hx; exact Nat.lt_succ_self _
      · rw [if_neg h3]
        exact h

theorem enumObjects_indexBelow (reports : List objectReport) :
    ∀ ctx : enumObjectsContext, ctx.IndexBelowCount →
      (enumObjects reports ctx).IndexBelowCount := by
  induction reports with
  | nil => intro ctx h; exact h
  | cons o os ih =>
    intro ctx h
    simp only [enumObjects]
    split
    · exact callback_indexBelow o ctx h
    · exact ih _ (callback_indexBelow o ctx h)

/-- C21 fails on the code: the enumeration callback appends a descriptor for
every slider, button and point of view a device reports and never caps the
counters at 2, 32 and 4. Every descriptor index is below the number of
descriptors of its kind (and below 6 for a true axis), but not below the
limit of the report: a device with 33 buttons yields a Button descriptor of
index 32, one with three sliders a Slider descriptor of index 2, one with
five hats a Hat descriptor of index 4, and on each of these adapters the
poll panics on the out-of-range read of the fixed-size report. -/
theorem C21_discovery_does_not_cap :
    (∀ (device : Nat) (reports : List objectReport) (guidInstance : GUID) (o : dinputObject),
      o ∈ (discoverDInputGamepad device reports guidInstance).dinputObjects →
      match o.objectType with
      | dinputObjectTypeAxis => o.index < 6
      | dinputObjectTypeSlider => o.index < countKind dinputObjectTypeSlider
          (discoverDInputGamepad device reports guidInstance).dinputObjects
      | dinputObjectTypeButton => o.index < countKind dinputObjectTypeButton
          (discoverDInputGamepad device reports guidInstance).dinputObjects
      | dinputObjectTypePOV => o.index < countKind dinputObjectTypePOV
          (discoverDInputGamepad device reports guidInstance).dinputObjects) ∧
    (countKind dinputObjectTypeButton manyButtonsGamepad.dinputObjects = 33 ∧
      (⟨dinputObjectTypeButton, 32⟩ : dinputObject) ∈ manyButtonsGamepad.dinputObjects ∧
      ¬ (⟨dinputObjectTypeButton, 32⟩ : dinputObject).InReport ∧
      (manyButtonsGamepad.update (dinputEnv diJoyState.zero)).isNone = true) ∧
    (countKind dinputObjectTypeSlider threeSlidersGamepad.dinputObjects = 3 ∧
      (⟨dinputObjectTypeSlider, 2⟩ : dinputObject) ∈ threeSlidersGamepad.dinputObjects ∧
      ¬ (⟨dinputObjectTypeSlider, 2⟩ : dinputObject).InReport ∧
      (threeSlidersGamepad.update (dinputEnv diJoyState.zero)).isNone = true) ∧
    (countKind dinputObjectTypePOV fiveHatsGamepad.dinputObjects = 5 ∧
      (⟨dinputObjectTypePOV, 4⟩ : dinputObject) ∈ fiveHatsGamepad.dinputObjects ∧
      ¬ (⟨dinputObjectTypePOV, 4⟩ : dinputObject).InReport ∧
      (fiveHatsGamepad.update (dinputEnv diJoyState.zero)).isNone = true) := by
  refine ⟨?_, ⟨by decide, by decide, by simp [dinputObject.InReport], by decide⟩,
    ⟨by decide, by decide, by simp [dinputObject.InReport], by decide⟩,
    ⟨by decide, by decide, by simp [dinputObject.InReport], by decide⟩⟩
  intro device reports guidInstance o ho
  have hobjs : (discoverDInputGamepad device reports guidInstance).dinputObjects =
      sortObjects (enumObjects reports ⟨device, [], 0, 0, 0, 0⟩).objects := rfl
  have hidx := enumObjects_indexBelow reports ⟨device, [], 0, 0, 0, 0⟩
    (fun x hx => absurd hx (List.not_mem_nil x))
  obtain ⟨_, c2, c3, c4⟩ := enumObjects_countsAgree reports ⟨device, [], 0, 0, 0, 0⟩
    ⟨rfl, rfl, rfl, rfl⟩
  rw [hobjs] at ho ⊢
  have := hidx o ((sortObjects_perm _).mem_iff.mp ho)
  simp only [countKind_sortObjects]
  rw [c2, c3, c4] at this
  exact this

theorem rawInputCall_ok (r e : Nat) (message : String) (h : r % 2 ^ 32 ≠ 2 ^ 32 - 1) :
    rawInputCall r e message = Except.ok (r % 2 ^ 32) := by
  unfold rawInputCall
  rw [if_neg h]

/-- The loop of `supportsXInput` over indices inside the buffer whose queries
succeed: it reports whether one of the visited devices claims the GUID. -/
theorem supportsXInputLoop_any (env : rawInputEnv) (guid : GUID) :
    ∀ is : List Nat,
      (∀ i ∈ is, i < env.count1 ∧
        (env.ridl.getD i rawInputDevice.zero).infoResult % 2 ^ 32 ≠ 2 ^ 32 - 1 ∧
        (env.ridl.getD i rawInputDevice.zero).nameResult % 2 ^ 32 ≠ 2 ^ 32 - 1) →
      supportsXInputLoop env guid is =
        some (Except.ok (is.any fun i =>
          (env.ridl.getD i rawInputDevice.zero).claims guid)) := by
  intro is
  induction is with
  | nil => intro _; rfl
  | cons i is ih =>
    intro h
    obtain ⟨h1, h2, h3⟩ := h i (List.mem_cons_self i is)
    have hi := ih fun x hx => h x (List.mem_cons_of_mem i hx)
    simp only [supportsXInputLoop, List.any_cons]
    rw [if_pos h1, rawInputCall_ok _ _ _ h2, rawInputCall_ok _ _ _ h3, hi]
    generalize (is.any fun i => (env.ridl.getD i rawInputDevice.zero).claims guid) = b
    generalize env.ridl.getD i rawInputDevice.zero = d
    unfold rawInputDevice.claims
    generalize d.dwVendorId % 2 ^ 32 ||| (d.dwProductId <<< 16) % 2 ^ 32 = k
    by_cases c1 : d.dwType = RIM_TYPEHID
    · by_cases c2 : k = guid.Data1
      · cases c3 : stringsContains d.name (goString "IG_") <;> simp [c1, c2]
      · simp [c1, c2]
    · simp [c1]

/-- C22 fails on the code: when the first `GetRawInputDeviceList` call
succeeds with a count of 0, `supportsXInput` does not return (false, nil):
it allocates an empty buffer and panics on `&ridl[0]`. With a non-empty
list and no failing query it returns true exactly when some listed device
of HID type whose `vendorId | productId<<16` equals `guid.Data1` has a name
containing "IG_", and false otherwise. -/
theorem C22_supportsXInput_empty_list_panics :
    (∀ (env : rawInputEnv) (guid : GUID), env.result1 % 2 ^ 32 = 0 → env.count1 = 0 →
      supportsXInput env guid = none) ∧
    (∀ guid : GUID, supportsXInput rawInputEmpty guid = none) ∧
    (∀ (env : rawInputEnv) (guid : GUID), env.NoQueryFails → env.count1 ≠ 0 →
      supportsXInput env guid =
        some (Except.ok ((List.range env.count2).any fun i =>
          (env.ridl.getD i rawInputDevice.zero).claims guid)) ∧
      (supportsXInput env guid = some (Except.ok true) ↔
        ∃ i : Nat, i < env.count2 ∧
          (env.ridl.getD i rawInputDevice.zero).claims guid = true)) ∧
    supportsXInput rawInputClaimed pidvidGuid = some (Except.ok true) ∧
    supportsXInput rawInputPlain pidvidGuid = some (Except.ok false) := by
  have hempty : ∀ (env : rawInputEnv) (guid : GUID), env.result1 % 2 ^ 32 = 0 →
      env.count1 = 0 → supportsXInput env guid = none := by
    intro env guid h1 h2
    unfold supportsXInput
    rw [rawInputCall_ok _ _ _ (by rw [h1]; decide), h1]
    simp only [ne_eq, not_true_eq_false, if_false]
    rw [if_pos h2]
  refine ⟨hempty, fun guid => hempty rawInputEmpty guid rfl rfl, ?_, rfl, rfl⟩
  intro env guid hq hc
  obtain ⟨q1, q2, q3, q4⟩ := hq
  have hval : supportsXInput env guid =
      some (Except.ok ((List.range env.count2).any fun i =>
        (env.ridl.getD i rawInputDevice.zero).claims guid)) := by
    unfold supportsXInput
    rw [rawInputCall_ok _ _ _ (by rw [q1]; decide), q1]
    simp only [ne_eq, not_true_eq_false, if_false]
    rw [if_neg hc, rawInputCall_ok _ _ _ q2]
    simp only
    apply supportsXInputLoop_any
    intro i hi
    have hlt := List.mem_range.mp hi
    exact ⟨by omega, q4 i hlt⟩
  refine ⟨hval, ?_⟩
  rw [hval]
  simp only [Option.some.injEq, Except.ok.injEq, List.any_eq_true, List.mem_range]

/-- A call of the arbiter's `update` that ran a discovery returns nil and
leaves the device-change flag 0. -/
theorem update_after_discovery (g : nativeGamepads) (hw : hardware) (gs : gamepads)
    (u : arbiterUpdate) (hu : g.update hw gs = some u) (hd : u.discoveries ≠ 0) :
    u.err = none ∧ u.g.deviceChanged = 0 := by
  unfold nativeGamepads.update at hu
  simp only at hu
  repeat' split at hu
  all_goals cases hu
  all_goals first
    | exact absurd rfl hd
    | exact ⟨rfl, rfl⟩

/-- C23: when the discovery run inside the arbiter's `update` returns an
error, that call of `update` returns nil all the same: the error is stored
in `err`, the device-change flag is set to 0, and the registry is the one
the failed discovery left. The next call of `update`, whatever the hardware
and the flag, returns the stored error at once and runs no discovery. Any
call of `update` that ran a discovery returns nil with the flag 0. -/
theorem C23_failed_discovery_is_deferred (g : nativeGamepads) (hw : hardware) (gs : gamepads)
    (d : detectResult) (e : GoError) (hg : g.err = none) (hh : g.origWndProc ≠ 0)
    (hc : g.deviceChanged ≠ 0) (hd : g.detectConnection hw gs = some d)
    (he : d.err = some e) :
    g.update hw gs = some ⟨none, { d.g with err := some e, deviceChanged := 0 }, d.gamepads, 1⟩ ∧
    (∀ (hw2 : hardware) (gs2 : gamepads) (flag : Nat),
      ({ d.g with err := some e, deviceChanged := flag } : nativeGamepads).update hw2 gs2 =
        some ⟨some e, { d.g with err := some e, deviceChanged := flag }, gs2, 0⟩) ∧
    (∀ (g2 : nativeGamepads) (hw2 : hardware) (gs2 : gamepads) (u : arbiterUpdate),
      g2.update hw2 gs2 = some u → u.discoveries ≠ 0 → u.err = none ∧ u.g.deviceChanged = 0) := by
  refine ⟨?_, ?_, update_after_discovery⟩
  · unfold nativeGamepads.update
    simp only [hg, hh, if_false, hc, ne_eq, not_false_eq_true, if_true, hd, he]
  · intro hw2 gs2 flag
    rfl

/-- C23 on the example host with a failing `EnumDevices`: the update that
follows a notification returns nil, stores the error and clears the flag;
the next update returns the stored error. -/
theorem C23_failed_discovery_is_deferred_witness :
    notifiedArbiter.err = none ∧ notifiedArbiter.origWndProc ≠ 0 ∧
    notifiedArbiter.deviceChanged ≠ 0 ∧
    ∃ d : detectResult, notifiedArbiter.detectConnection brokenHardware emptyRegistry = some d ∧
      d.err = some (GoError.directInputError 0x80004005) ∧
      notifiedArbiter.update brokenHardware emptyRegistry =
        some ⟨none,
          { d.g with err := some (GoError.directInputError 0x80004005), deviceChanged := 0 },
          d.gamepads, 1⟩ :=
  ⟨rfl, by decide, by decide,
    (notifiedArbiter.detectConnection brokenHardware emptyRegistry).get (by decide),
    by simp, by decide,
    (C23_failed_discovery_is_deferred notifiedArbiter brokenHardware emptyRegistry _
      (GoError.directInputError 0x80004005) rfl (by decide) (by decide) (by simp)
      (by decide)).1⟩

/-- A call of `update` that returns an error leaves the adapter as it was
and does not signal a disconnect. -/
theorem update_err_keeps (g : nativeGamepad) (env : pollEnv) (r : updateResult)
    (h : g.update env = some r) (he : r.err.isSome = true) :
    r.g = g ∧ r.disconnected = false := by
  rcases update_cases g env r h with ⟨hg, _⟩ | ⟨_, h2, _⟩ | ⟨_, h2, _⟩
  · refine ⟨hg, ?_⟩
    cases hd : g.usesDInput with
    | true =>
      obtain ⟨hf, hdis, hwalk⟩ := update_dinput_eq g env hd
      cases h1 : env.fatalFailure with
      | true =>
        obtain ⟨e, he2⟩ := hf h1
        rw [he2] at h; cases h; rfl
      | false =>
        cases h4 : env.disconnects with
        | true => rw [hdis h1 h4] at h; cases h; cases he
        | false =>
          rw [hwalk h1 h4, Option.map_eq_some'] at h
          obtain ⟨w, _, hw⟩ := h
          subst hw; rfl
    | false =>
      unfold nativeGamepad.update at h
      simp only [hd, Bool.false_eq_true, if_false] at h
      split at h
      · split at h
        · cases h; rfl
        · cases h; cases he
      · cases h; rfl
  · rw [h2] at he; cases he
  · rw [h2] at he; cases he

/-- The registry after `update` was called on the entry at handle `h`: the
slot of the entry is emptied when the deferred function removes it, and
holds the polled adapter otherwise; no other slot changes. -/
theorem updateGamepad_slots (gs : gamepads) (h : Nat) (gp : Gamepad) (env : pollEnv)
    (hs : gs.slots[h]? = some (some gp)) (u : entryUpdate)
    (hu : gs.updateGamepad h env = some u) :
    ∃ r : updateResult, gp.nativeGamepad.update env = some r ∧ u.err = r.err ∧
      u.disconnected = r.disconnected ∧
      u.gamepads.slots =
        if r.removes then gs.slots.set h none
        else gs.slots.set h (some { gp with nativeGamepad := r.g }) := by
  unfold gamepads.updateGamepad at hu
  rw [hs] at hu
  simp only [Option.map_eq_some'] at hu
  obtain ⟨r, hr, hu⟩ := hu
  subst hu
  refine ⟨r, hr, rfl, rfl, ?_⟩
  cases hrm : r.removes
  · simp
  · simp only [if_true, remove_handle, List.set_set]

/-- C24: when `nativeGamepad.update` on the entry at handle `h` returns an
error (for DirectInput, a `Poll` or `GetDeviceState` failure with a code
other than not-acquired and input-lost; for XInput, a result other than
success and not-connected), the registry afterwards is the registry before
with the slot of that entry emptied, the same registry a disconnect leaves;
every other slot is as it was whatever the call returns; and the entry is
still present after the call exactly when the call returned nil without
signalling a disconnect. -/
theorem C24_error_removes_own_entry (gs : gamepads) (h : Nat) (gp : Gamepad)
    (env : pollEnv) (hs : gs.slots[h]? = some (some gp)) :
    (∀ u : entryUpdate, gs.updateGamepad h env = some u → u.err.isSome = true →
      u.disconnected = false ∧ u.gamepads.slots = gs.slots.set h none) ∧
    (gp.nativeGamepad.usesDInput = true → env.fatalFailure = true →
      ∃ e : GoError, gs.updateGamepad h env = some ⟨some e, false, ⟨gs.slots.set h none⟩⟩) ∧
    (gp.nativeGamepad.usesDInput = false → env.xinputResult ≠ ERROR_SUCCESS →
      env.xinputResult ≠ ERROR_DEVICE_NOT_CONNECTED →
      gs.updateGamepad h env =
        some ⟨some (GoError.errno env.xinputResult), false, ⟨gs.slots.set h none⟩⟩) ∧
    (∀ (env2 : pollEnv) (u u2 : entryUpdate), gs.updateGamepad h env = some u →
      u.err.isSome = true → gs.updateGamepad h env2 = some u2 → u2.disconnected = true →
      u.gamepads.slots = u2.gamepads.slots) ∧
    ((gs.slots.set h none)[h]? = some none ∧
      (gs.slots.set h none).length = gs.slots.length ∧
      ∀ k : Nat, k ≠ h → (gs.slots.set h none)[k]? = gs.slots[k]?) ∧
    (∀ u : entryUpdate, gs.updateGamepad h env = some u →
      ∀ k : Nat, k ≠ h → u.gamepads.slots[k]? = gs.slots[k]?) ∧
    (∀ u : entryUpdate, gs.updateGamepad h env = some u →
      ((∃ gp2 : Gamepad, u.gamepads.slots[h]? = some (some gp2)) ↔
        (u.err = none ∧ u.disconnected = false))) := by
  have hl : h < gs.slots.length := by
    by_contra hc
    rw [List.getElem?_eq_none (by omega)] at hs
    cases hs
  have hrun : ∀ r : updateResult, gp.nativeGamepad.update env = some r →
      r.removes = true →
      gs.updateGamepad h env = some ⟨r.err, r.disconnected, ⟨gs.slots.set h none⟩⟩ := by
    intro r hr hrm
    unfold gamepads.updateGamepad
    rw [hs]
    simp only [hr, Option.map_some', hrm, if_true]
    simp [remove_handle_eq]
  refine ⟨?_, ?_, ?_, ?_, ⟨List.getElem?_set_self hl, List.length_set _ _ _, ?_⟩, ?_, ?_⟩
  · intro u hu he
    obtain ⟨r, hr, he2, hd2, hsl⟩ := updateGamepad_slots gs h gp env hs u hu
    rw [he2] at he
    obtain ⟨_, hdc⟩ := update_err_keeps _ env r hr he
    have hrm : r.removes = true := by
      cases hre : r.err with
      | none => rw [hre] at he; cases he
      | some e => simp [updateResult.removes, hre]
    rw [hrm] at hsl
    exact ⟨hd2.trans hdc, hsl⟩
  · intro hd hf
    obtain ⟨e, he⟩ := (update_dinput_eq gp.nativeGamepad env hd).1 hf
    exact ⟨e, hrun _ he rfl⟩
  · intro hd ha hb
    have hr : gp.nativeGamepad.update env =
        some ⟨gp.nativeGamepad, some (GoError.errno env.xinputResult), false⟩ := by
      simp [nativeGamepad.update, hd, xinputGetState, ha, hb]
    exact hrun _ hr rfl
  · intro env2 u u2 hu he hu2 hdc
    obtain ⟨r, hr, he2, hd2, hsl⟩ := updateGamepad_slots gs h gp env hs u hu
    obtain ⟨r2, hr2, _, hd3, hsl2⟩ := updateGamepad_slots gs h gp env2 hs u2 hu2
    have hrm : r.removes = true := by
      cases hre : r.err with
      | none => rw [he2, hre] at he; cases he
      | some e => simp [updateResult.removes, hre]
    have hrm2 : r2.removes = true := by
      simp [updateResult.removes, ← hd3, hdc]
    rw [hrm] at hsl
    rw [hrm2] at hsl2
    exact hsl.trans hsl2.symm
  · intro k hk
    exact List.getElem?_set_ne (fun e => hk e.symm)
  · intro u hu k hk
    obtain ⟨r, hr, he2, hd2, hsl⟩ := updateGamepad_slots gs h gp env hs u hu
    rw [hsl]
    split <;> exact List.getElem?_set_ne (fun e => hk e.symm)
  · intro u hu
    obtain ⟨r, hr, he2, hd2, hsl⟩ := updateGamepad_slots gs h gp env hs u hu
    rw [hsl, he2, hd2]
    cases hre : r.err with
    | some e =>
      simp [updateResult.removes, hre, List.getElem?_set_self hl]
    | none =>
      cases hrd : r.disconnected with
      | true => simp [updateResult.removes, hre, hrd, List.getElem?_set_self hl]
      | false => simp [updateResult.removes, hre, hrd, List.getElem?_set_self hl]

/-- C24 on the example registry: the result 5 (access denied) of
`XInputGetState` for the XInput entry at handle 1 is returned as an error,
slot 1 is emptied and slots 0 and 2 stay as they were. -/
theorem C24_error_removes_own_entry_witness :
    exampleRegistry.slots[1]? =
      some (some ⟨goString "Xbox Controller", "78696e70757401000000000000000000",
        deflectedGamepad⟩) ∧
    exampleRegistry.updateGamepad 1 (xinputEnvWith 5 upRightReport) =
      some ⟨some (GoError.errno 5), false, ⟨exampleRegistry.slots.set 1 none⟩⟩ :=
  ⟨rfl, (C24_error_removes_own_entry exampleRegistry 1
    ⟨goString "Xbox Controller", "78696e70757401000000000000000000", deflectedGamepad⟩
    (xinputEnvWith 5 upRightReport) rfl).2.2.1 rfl (by decide) (by decide)⟩

theorem axisIndex_identity (guid : GUID) (s : Nat) (h : guid ∈ axisIdentities) :
    axisIndex guid s = some (identityRank guid) ∧ guid ≠ guidSlider ∧ identityRank guid < 6 ∧
    ∀ state : diJoyState, axisField state (identityRank guid) = identityField state guid := by
  simp only [axisIdentities, List.mem_cons, List.mem_singleton, List.not_mem_nil,
    or_false] at h
  rcases h with h | h | h | h | h | h <;> subst h <;>
    exact ⟨rfl, by decide, by decide, fun _ => rfl⟩

theorem axisIndex_other (guid : GUID) (s : Nat) (h : guid ∉ axisIdentities)
    (hs : guid ≠ guidSlider) : axisIndex guid s = none := by
  simp only [axisIdentities, List.mem_cons, List.mem_singleton, List.not_mem_nil,
    or_false, not_or] at h
  obtain ⟨h1, h2, h3, h4, h5, h6⟩ := h
  simp [axisIndex, hs, h1, h2, h3, h4, h5, h6]

theorem axisObjects_append (l : List dinputObject) (o : dinputObject) :
    axisObjects (l ++ [o]) =
      axisObjects l ++ (if o.objectType = dinputObjectTypeAxis then [o] else []) := by
  unfold axisObjects
  rw [List.filter_append]
  by_cases h : o.objectType = dinputObjectTypeAxis <;> simp [h]

/-- One call of the enumeration callback appends the true-axis descriptor of
the identity the object is discovered under, if any, and always answers
CONTINUE. -/
theorem callback_axisObjects (o : objectReport) (ctx : enumObjectsContext) :
    axisObjects (dinputDevice8EnumObjectsCallback o ctx).1.objects =
      axisObjects ctx.objects ++
        (match reportAxisIdentity o with
          | some id => [⟨dinputObjectTypeAxis, identityRank id⟩]
          | none => []) ∧
    (dinputDevice8EnumObjectsCallback o ctx).2 = DIENUM_CONTINUE := by
  unfold dinputDevice8EnumObjectsCallback
  by_cases h1 : diDftGetType o.dwType &&& DIDFT_AXIS ≠ 0
  · rw [if_pos h1]
    by_cases hm : o.guidType ∈ axisIdentities
    · obtain ⟨hi, hns, _, _⟩ := axisIndex_identity o.guidType ctx.sliderCount hm
      rw [hi]
      by_cases hr : o.setRangeResult = DI_OK ∨ o.setRangeResult = DI_PROPNOEFFECT
      · have hp : iDirectInputDevice8W.SetProperty o.setRangeResult = none := by
          unfold iDirectInputDevice8W.SetProperty
          rw [if_neg (by rcases hr with h | h <;> simp [h])]
        have hrep : reportAxisIdentity o = some o.guidType := by
          unfold reportAxisIdentity
          rw [if_pos ⟨h1, hm, hr⟩]
        rw [hrep]
        simp only [hp, hns, if_false]
        exact ⟨by rw [axisObjects_append]; simp, trivial⟩
      · have hp : ∃ e, iDirectInputDevice8W.SetProperty o.setRangeResult = some e := by
          unfold iDirectInputDevice8W.SetProperty
          rw [if_pos (by rw [not_or] at hr; exact hr)]
          exact ⟨_, rfl⟩
        obtain ⟨e, he⟩ := hp
        have hrep : reportAxisIdentity o = none := by
          unfold reportAxisIdentity
          rw [if_neg (fun hc => hr hc.2.2)]
        rw [hrep]
        simp only [he, List.append_nil]
        exact ⟨trivial, trivial⟩
    · have hrep : reportAxisIdentity o = none := by
        unfold reportAxisIdentity
        rw [if_neg (fun hc => hm hc.2.1)]
      rw [hrep]
      by_cases hs : o.guidType = guidSlider
      · cases hi : axisIndex o.guidType ctx.sliderCount with
        | none => simp
        | some index =>
          cases iDirectInputDevice8W.SetProperty o.setRangeResult with
          | some e => simp
          | none =>
            simp only [hs, if_true, List.append_nil]
            exact ⟨by rw [axisObjects_append]; simp, trivial⟩
      · rw [axisIndex_other _ _ hm hs]
        simp
  · have hrep : reportAxisIdentity o = none := by
      unfold reportAxisIdentity
      rw [if_neg (fun hc => h1 hc.1)]
    rw [if_neg h1, hrep]
    simp only [List.append_nil]
    by_cases h2 : diDftGetType o.dwType &&& DIDFT_BUTTON ≠ 0
    · rw [if_pos h2]
      exact ⟨by rw [axisObjects_append]; simp, rfl⟩
    · rw [if_neg h2]
      by_cases h3 : diDftGetType o.dwType &&& DIDFT_POV ≠ 0
      · rw [if_pos h3]
        exact ⟨by rw [axisObjects_append]; simp, rfl⟩
      · rw [if_neg h3]
        exact ⟨rfl, rfl⟩

/-- The true-axis descriptors after object enumeration: one per discovered
axis identity, in report order, with the place of the identity as index. -/
theorem enumObjects_axisObjects (reports : List objectReport) :
    ∀ ctx : enumObjectsContext,
      axisObjects (enumObjects reports ctx).objects =
        axisObjects ctx.objects ++
          (discoveredAxisIdentities reports).map
            fun id => ⟨dinputObjectTypeAxis, identityRank id⟩ := by
  induction reports with
  | nil => intro ctx; simp [enumObjects, discoveredAxisIdentities]
  | cons o os ih =>
    intro ctx
    obtain ⟨h1, h2⟩ := callback_axisObjects o ctx
    simp only [enumObjects]
    rw [if_neg (by rw [h2]; decide), ih, h1]
    unfold discoveredAxisIdentities
    cases hr : reportAxisIdentity o with
    | none => simp [List.filterMap_cons, hr]
    | some id => simp [List.filterMap_cons, hr]

/-- The true-axis descriptors of a discovered adapter are the discovered
axis identities in the order X, Y, Z, Rx, Ry, Rz. -/
theorem discovered_axisObjects (device : Nat) (reports : List objectReport)
    (guidInstance : GUID) :
    axisObjects (discoverDInputGamepad device reports guidInstance).dinputObjects =
      (sortedAxisIdentities reports).map fun id => ⟨dinputObjectTypeAxis, identityRank id⟩ := by
  have hobjs : (discoverDInputGamepad device reports guidInstance).dinputObjects =
      sortObjects (enumObjects reports ⟨device, [], 0, 0, 0, 0⟩).objects := rfl
  rw [hobjs]
  haveI : IsTotal GUID (fun a b => identityRank a ≤ identityRank b) :=
    ⟨fun a b => Nat.le_total _ _⟩
  haveI : IsTrans GUID (fun a b => identityRank a ≤ identityRank b) :=
    ⟨fun _ _ _ h1 h2 => Nat.le_trans h1 h2⟩
  apply sorted_unique
  · have h1 : (axisObjects (sortObjects
        (enumObjects reports ⟨device, [], 0, 0, 0, 0⟩).objects)).Perm
        (axisObjects (enumObjects reports ⟨device, [], 0, 0, 0, 0⟩).objects) :=
      (sortObjects_perm _).filter _
    rw [enumObjects_axisObjects] at h1
    simp only [axisObjects, List.filter_nil, List.nil_append] at h1
    refine h1.trans (List.Perm.map _ ?_)
    exact (List.perm_insertionSort _ _).symm
  · exact List.Pairwise.filter _ (sortObjects_sorted _)
  · unfold List.Sorted
    rw [List.pairwise_map]
    have hs : (sortedAxisIdentities reports).Sorted
        (fun a b => identityRank a ≤ identityRank b) :=
      List.sorted_insertionSort _ _
    exact List.Pairwise.imp (fun h => Or.inr ⟨rfl, h⟩) hs

theorem discovered_identity_mem (reports : List objectReport) (id : GUID)
    (h : id ∈ discoveredAxisIdentities reports) : id ∈ axisIdentities := by
  unfold discoveredAxisIdentities at h
  rw [List.mem_filterMap] at h
  obtain ⟨r, _, hr⟩ := h
  unfold reportAxisIdentity at hr
  split at hr
  · rename_i hc
    cases hr
    exact hc.2.1
  · cases hr

/-- C20: after a successful DirectInput poll of an adapter built by
discovery with at most 2 sliders, the exposed axis N, for N from the number
of true axes up to `axisCount()`, is the normalization of the raw slider
field `rglSlider[N - trueAxisCount]`; for N below the number of true axes it
is the normalization of the raw field (`lX`, `lY`, `lZ`, `lRx`, `lRy`,
`lRz`) of the N-th of the axis identities the device reported, taken in the
order X, Y, Z, Rx, Ry, Rz; and every write of the poll stays inside the
axes, buttons and hats arrays. -/
theorem C20_axis_index_space (device : Nat) (reports : List objectReport) (guidInstance : GUID)
    (g : nativeGamepad) (env : pollEnv) (r : updateResult)
    (hg : g = discoverDInputGamepad device reports guidInstance)
    (hu : g.update env = some r) (he : r.err = none) (hdc : r.disconnected = false)
    (hs : countKind dinputObjectTypeSlider g.dinputObjects ≤ 2) :
    (∀ N : Nat, countKind dinputObjectTypeAxis g.dinputObjects ≤ N → (N : Int) < g.axisCount →
      ∃ h2 : N - countKind dinputObjectTypeAxis g.dinputObjects < 2,
        r.g.axisValue (N : Int) = some (normalizeAxis
          (env.report.rglSlider ⟨N - countKind dinputObjectTypeAxis g.dinputObjects, h2⟩))) ∧
    (∀ N : Nat, N < countKind dinputObjectTypeAxis g.dinputObjects →
      ∃ id : GUID, (sortedAxisIdentities reports)[N]? = some id ∧ id ∈ axisIdentities ∧
        r.g.axisValue (N : Int) = some (normalizeAxis (identityField env.report id))) ∧
    ((sortedAxisIdentities reports).length = countKind dinputObjectTypeAxis g.dinputObjects ∧
      (sortedAxisIdentities reports).Perm (discoveredAxisIdentities reports) ∧
      (sortedAxisIdentities reports).Sorted (fun a b => identityRank a ≤ identityRank b) ∧
      axisObjects g.dinputObjects =
        (sortedAxisIdentities reports).map fun id => ⟨dinputObjectTypeAxis, identityRank id⟩) ∧
    (identityRank guidXAxis = 0 ∧ identityRank guidYAxis = 1 ∧ identityRank guidZAxis = 2 ∧
      identityRank guidRxAxis = 3 ∧ identityRank guidRyAxis = 4 ∧ identityRank guidRzAxis = 5 ∧
      ∀ state : diJoyState, identityField state guidXAxis = state.lX ∧
        identityField state guidYAxis = state.lY ∧ identityField state guidZAxis = state.lZ ∧
        identityField state guidRxAxis = state.lRx ∧ identityField state guidRyAxis = state.lRy ∧
        identityField state guidRzAxis = state.lRz) ∧
    (∀ N : Nat, N < countKind dinputObjectTypeAxis g.dinputObjects →
      ∃ o : dinputObject, (axisObjects g.dinputObjects)[N]? = some o ∧ o.index < 6 ∧
        r.g.axisValue (N : Int) = some (normalizeAxis (axisField env.report o.index))) ∧
    ((axisObjects g.dinputObjects).map (fun o => o.index)).Sorted (fun a b => a ≤ b) ∧
    (axisObjects g.dinputObjects).Perm
      (axisObjects (enumObjects reports ⟨device, [], 0, 0, 0, 0⟩).objects) ∧
    (∀ state : diJoyState, axisField state 0 = state.lX ∧ axisField state 1 = state.lY ∧
      axisField state 2 = state.lZ ∧ axisField state 3 = state.lRx ∧
      axisField state 4 = state.lRy ∧ axisField state 5 = state.lRz) ∧
    (∀ (state : diJoyState) (pre post : List dinputObject) (o : dinputObject) (w : walkState),
      g.dinputObjects = pre ++ o :: post →
      updateObjects state ⟨g, 0, 0, 0⟩ pre = some w → w.WriteInBounds o) := by
  obtain ⟨c1, c2, c3, c4, c5, c6⟩ :=
    discovered_axis_values device reports guidInstance g env r hg hu he hdc hs
  have hax : axisObjects g.dinputObjects =
      (sortedAxisIdentities reports).map fun id => ⟨dinputObjectTypeAxis, identityRank id⟩ := by
    rw [hg]
    exact discovered_axisObjects device reports guidInstance
  haveI : IsTotal GUID (fun a b => identityRank a ≤ identityRank b) :=
    ⟨fun a b => Nat.le_total _ _⟩
  haveI : IsTrans GUID (fun a b => identityRank a ≤ identityRank b) :=
    ⟨fun _ _ _ h1 h2 => Nat.le_trans h1 h2⟩
  have hperm : (sortedAxisIdentities reports).Perm (discoveredAxisIdentities reports) :=
    List.perm_insertionSort _ _
  have hlen : (sortedAxisIdentities reports).length =
      countKind dinputObjectTypeAxis g.dinputObjects := by
    rw [countKind_eq_length_axisObjects, hax, List.length_map]
  refine ⟨c1, ?_, ⟨hlen, hperm, List.sorted_insertionSort _ _, hax⟩,
    ⟨by decide, by decide, by decide, by decide, by decide, by decide,
      fun _ => ⟨rfl, rfl, rfl, rfl, rfl, rfl⟩⟩, c2, c3, c4, c5, c6⟩
  intro N hN
  obtain ⟨o, ho, _, hv⟩ := c2 N hN
  rw [hax, List.getElem?_map] at ho
  cases hid : (sortedAxisIdentities reports)[N]? with
  | none => rw [hid] at ho; cases ho
  | some id =>
    rw [hid] at ho
    simp only [Option.map_some', Option.some.injEq] at ho
    have hmem : id ∈ axisIdentities :=
      discovered_identity_mem reports id (hperm.mem_iff.mp (List.getElem?_mem hid))
    refine ⟨id, rfl, hmem, ?_⟩
    rw [hv, ← ho]
    rw [(axisIndex_identity id 0 hmem).2.2.2 env.report]

theorem update_allAxes :
    allAxesGamepad.update (dinputEnv allAxesState) = some allAxesPolled := by
  rfl

/-- C20 on a device that reports Rz, a slider, Z, X, Ry, a slider, Rx and Y,
polled with X..Rz at 100..600 and the sliders at 700 and 800: axis 2 is the
normalization of `lZ`, axis 5 that of `lRz`, axis 7 that of the second
slider. -/
theorem C20_axis_index_space_witness :
    allAxesGamepad = discoverDInputGamepad 1 allAxesReports ⟨1, 0, 0, [0, 0, 0, 0, 0, 0, 0, 0]⟩ ∧
    allAxesGamepad.update (dinputEnv allAxesState) = some allAxesPolled ∧
    allAxesPolled.err = none ∧ allAxesPolled.disconnected = false ∧
    countKind dinputObjectTypeSlider allAxesGamepad.dinputObjects ≤ 2 ∧
    sortedAxisIdentities allAxesReports = axisIdentities ∧
    allAxesPolled.g.axisValue 2 = some (normalizeAxis 300) ∧
    allAxesPolled.g.axisValue 5 = some (normalizeAxis 600) ∧
    (∃ h2 : 7 - countKind dinputObjectTypeAxis allAxesGamepad.dinputObjects < 2,
      allAxesPolled.g.axisValue ((7 : Nat) : Int) = some (normalizeAxis
        ((dinputEnv allAxesState).report.rglSlider
          ⟨7 - countKind dinputObjectTypeAxis allAxesGamepad.dinputObjects, h2⟩))) ∧
    (∃ id : GUID, (sortedAxisIdentities allAxesReports)[2]? = some id ∧ id ∈ axisIdentities ∧
      allAxesPolled.g.axisValue ((2 : Nat) : Int) =
        some (normalizeAxis (identityField (dinputEnv allAxesState).report id))) ∧
    (∃ id : GUID, (sortedAxisIdentities allAxesReports)[5]? = some id ∧ id ∈ axisIdentities ∧
      allAxesPolled.g.axisValue ((5 : Nat) : Int) =
        some (normalizeAxis (identityField (dinputEnv allAxesState).report id))) :=
  ⟨rfl, update_allAxes, rfl, rfl, by decide, by decide, rfl, rfl,
    (C20_axis_index_space 1 allAxesReports ⟨1, 0, 0, [0, 0, 0, 0, 0, 0, 0, 0]⟩ allAxesGamepad
      (dinputEnv allAxesState) allAxesPolled rfl update_allAxes rfl rfl (by decide)).1 7
      (by decide) (by decide),
    (C20_axis_index_space 1 allAxesReports ⟨1, 0, 0, [0, 0, 0, 0, 0, 0, 0, 0]⟩ allAxesGamepad
      (dinputEnv allAxesState) allAxesPolled rfl update_allAxes rfl rfl (by decide)).2.1 2
      (by decide),
    (C20_axis_index_space 1 allAxesReports ⟨1, 0, 0, [0, 0, 0, 0, 0, 0, 0, 0]⟩ allAxesGamepad
      (dinputEnv allAxesState) allAxesPolled rfl update_allAxes rfl rfl (by decide)).2.1 5
      (by decide)⟩

theorem transient_codes :
    DIERR_NOTACQUIRED = 0x8007000C ∧ DIERR_INPUTLOST = 0x8007001E ∧ DI_OK = 0 ∧
    DI_NOEFFECT = 1 := by
  decide

theorem notTransient_code (c : Nat) :
    notTransient (GoError.directInputError c) =
      !(decide (c = 0x8007000C) || decide (c = 0x8007001E)) := by
  obtain ⟨h1, h2, _, _⟩ := transient_codes
  unfold notTransient
  rw [h1, h2]
  simp only [GoError.directInputError.injEq, Bool.not_or]

theorem pollFatal_eq (r : Nat) : pollFatal r = (pollFailed r && !transientCode r) := by
  unfold pollFatal pollFailed transientCode iDirectInputDevice8W.Poll
  obtain ⟨_, _, h3, h4⟩ := transient_codes
  rw [h3, h4]
  by_cases h : r ≠ 0 ∧ r ≠ 1
  · rw [if_pos h, decide_eq_true h]
    simp only [notTransient_code, Bool.true_and]
  · rw [if_neg h, decide_eq_false h]
    rfl

theorem readFatal_eq (r : Nat) : readFatal r = (readFailed r && !transientCode r) := by
  unfold readFatal readFailed transientCode iDirectInputDevice8W.GetDeviceState
  obtain ⟨_, _, h3, _⟩ := transient_codes
  rw [h3]
  by_cases h : r ≠ 0
  · rw [if_pos h, decide_eq_true h]
    simp only [notTransient_code, Bool.true_and]
  · rw [if_neg h, decide_eq_false h]
    rfl

theorem readTransient_eq (r : Nat) : readTransient r = (readFailed r && transientCode r) := by
  unfold readTransient readFailed transientCode iDirectInputDevice8W.GetDeviceState
  obtain ⟨_, _, h3, _⟩ := transient_codes
  rw [h3]
  by_cases h : r ≠ 0
  · rw [if_pos h, decide_eq_true h]
    simp only [notTransient_code, Bool.true_and, Bool.not_not]
  · rw [if_neg h, decide_eq_false h]
    rfl

/-- The classification of the answers by the code's error tests agrees with
the classification by raw result code. -/
theorem classification_eq (env : pollEnv) :
    env.fatalFailure = env.someCallFailsHard ∧ env.disconnects = env.bothReadsTransient ∧
    env.report = env.reportRead := by
  refine ⟨?_, ?_, ?_⟩
  · unfold pollEnv.fatalFailure pollEnv.someCallFailsHard pollEnv.read2Executed
      pollEnv.retryExecuted pollEnv.read1Executed
    simp only [pollFatal_eq, readFatal_eq, readTransient_eq]
    cases pollFailed env.poll1 <;> cases transientCode env.poll1 <;>
      cases readFailed env.getState1 <;> cases transientCode env.getState1 <;>
      cases pollFailed env.poll2 <;> cases transientCode env.poll2 <;> rfl
  · unfold pollEnv.disconnects pollEnv.bothReadsTransient pollEnv.read2Executed
      pollEnv.retryExecuted pollEnv.read1Executed
    simp only [pollFatal_eq, readTransient_eq]
    cases pollFailed env.poll1 <;> cases transientCode env.poll1 <;>
      cases readFailed env.getState1 <;> cases transientCode env.getState1 <;>
      cases pollFailed env.poll2 <;> cases transientCode env.poll2 <;> rfl
  · unfold pollEnv.report pollEnv.reportRead iDirectInputDevice8W.GetDeviceState
    obtain ⟨_, _, h3, _⟩ := transient_codes
    rw [h3]
    by_cases h : env.getState1 = 0
    · simp [h]
    · simp [h]

/-- One loop iteration: the button case writes slot `bi` of the buttons and
advances `bi`; any other case leaves the buttons alone; descriptors and GUID
are kept in every case. -/
theorem updateObject_button (state : diJoyState) (w w1 : walkState) (o : dinputObject)
    (h : updateObject state w o = some w1) :
    w1.g.dinputObjects = w.g.dinputObjects ∧ w1.g.dinputGUID = w.g.dinputGUID ∧
    (o.objectType = dinputObjectTypeButton →
      ∃ h32 : o.index < 32, w.bi < w.g.dinputButtons.length ∧
        w1.g.dinputButtons = w.g.dinputButtons.set w.bi
          (decide (state.rgbButtons ⟨o.index, h32⟩ &&& 0x80 ≠ 0)) ∧
        w1.bi = w.bi + 1) ∧
    (o.objectType ≠ dinputObjectTypeButton →
      w1.g.dinputButtons = w.g.dinputButtons ∧ w1.bi = w.bi) := by
  obtain ⟨t, i⟩ := o
  cases t
  · simp only [updateObject, goAssign, Option.map_eq_some'] at h
    obtain ⟨axes, h1, h2⟩ := h
    subst h2
    exact ⟨rfl, rfl, (fun ht => by cases ht), fun _ => ⟨rfl, rfl⟩⟩
  · simp only [updateObject, goAssign] at h
    split at h
    · simp only [Option.map_eq_some'] at h
      obtain ⟨axes, h1, h2⟩ := h
      subst h2
      exact ⟨rfl, rfl, (fun ht => by cases ht), fun _ => ⟨rfl, rfl⟩⟩
    · cases h
  · simp only [updateObject, goAssign] at h
    split at h
    · rename_i h32
      simp only [Option.map_eq_some'] at h
      obtain ⟨buttons, h1, h2⟩ := h
      split at h1
      · rename_i hlt
        injection h1 with h1
        subst h1; subst h2
        exact ⟨rfl, rfl, fun _ => ⟨h32, hlt, rfl, rfl⟩, fun ht => absurd rfl ht⟩
      · cases h1
    · cases h
  · simp only [updateObject, goAssign] at h
    split at h
    · simp only [Option.map_eq_some'] at h
      obtain ⟨hats, h1, h2⟩ := h
      subst h2
      exact ⟨rfl, rfl, (fun ht => by cases ht), fun _ => ⟨rfl, rfl⟩⟩
    · cases h

/-- The buttons after the loop: the slots below the starting counter are
kept, and the k-th button descriptor fills slot `bi + k` with bit 0x80 of
its byte of the report; descriptors and GUID are kept. -/
theorem updateObjects_buttons (state : diJoyState) :
    ∀ (objs : List dinputObject) (w w1 : walkState),
      updateObjects state w objs = some w1 →
      w1.g.dinputObjects = w.g.dinputObjects ∧ w1.g.dinputGUID = w.g.dinputGUID ∧
      (∀ j, j < w.bi → w1.g.dinputButtons[j]? = w.g.dinputButtons[j]?) ∧
      (∀ (k : Nat) (o : dinputObject), (buttonObjects objs)[k]? = some o →
        ∃ h32 : o.index < 32,
          w1.g.dinputButtons[w.bi + k]? =
            some (decide (state.rgbButtons ⟨o.index, h32⟩ &&& 0x80 ≠ 0))) := by
  intro objs
  induction objs with
  | nil =>
    intro w w1 h
    simp only [updateObjects, Option.some.injEq] at h
    subst h
    refine ⟨rfl, rfl, fun _ _ => rfl, ?_⟩
    intro k o hk
    simp [buttonObjects] at hk
  | cons o objs ih =>
    intro w w1 h
    simp only [updateObjects] at h
    cases h2 : updateObject state w o with
    | none => rw [h2] at h; exact absurd h (by simp)
    | some w2 =>
      rw [h2] at h
      simp only at h
      obtain ⟨io, ig, ihk, ihp⟩ := ih w2 w1 h
      obtain ⟨fo, fg, fb, fn⟩ := updateObject_button state w w2 o h2
      by_cases ht : o.objectType = dinputObjectTypeButton
      · obtain ⟨h32, hlt, hset, hbi⟩ := fb ht
        refine ⟨io.trans fo, ig.trans fg, ?_, ?_⟩
        · intro j hj
          rw [ihk j (by omega), hset, List.getElem?_set_ne (by omega)]
        · intro k obj hk
          have hp : buttonObjects (o :: objs) = o :: buttonObjects objs := by
            simp [buttonObjects, ht]
          rw [hp] at hk
          cases k with
          | zero =>
            simp only [List.getElem?_cons_zero, Option.some.injEq] at hk
            subst hk
            refine ⟨h32, ?_⟩
            rw [Nat.add_zero, ihk w.bi (by omega), hset, List.getElem?_set_self hlt]
          | succ k =>
            simp only [List.getElem?_cons_succ] at hk
            obtain ⟨h32b, hv⟩ := ihp k obj hk
            refine ⟨h32b, ?_⟩
            rw [← hv, hbi]
            congr 1
            omega
      · obtain ⟨hb, hbi⟩ := fn ht
        refine ⟨io.trans fo, ig.trans fg, ?_, ?_⟩
        · intro j hj
          rw [ihk j (by omega), hb]
        · intro k obj hk
          have hp : buttonObjects (o :: objs) = buttonObjects objs := by
            simp [buttonObjects, ht]
          rw [hp] at hk
          obtain ⟨h32b, hv⟩ := ihp k obj hk
          exact ⟨h32b, by rw [← hv, hbi]⟩

/-- What a loop that ran to its end leaves behind is the adapter refreshed
from the report. -/
theorem updateObjects_refreshed (state : diJoyState) (g : nativeGamepad) (w : walkState)
    (h : updateObjects state ⟨g, 0, 0, 0⟩ g.dinputObjects = some w) :
    w.g.RefreshedFrom g state := by
  obtain ⟨_, hdev, _, hhats, _⟩ := updateObjects_hats state _ _ w h
  obtain ⟨la, lb, lh, _, _, _⟩ := updateObjects_counts state _ _ w h
  obtain ⟨_, haxes⟩ := updateObjects_axes state _ _ w h
  obtain ⟨hobj, hguid, _, hbtn⟩ := updateObjects_buttons state _ _ w h
  refine ⟨hobj, hdev, hguid, la, lb, lh, ?_, ?_, ?_⟩
  · intro k o hk
    have := haxes k o hk
    rwa [Nat.zero_add] at this
  · intro k o hk
    obtain ⟨h32, hv⟩ := hbtn k o hk
    exact ⟨h32, by rwa [Nat.zero_add] at hv⟩
  · intro k o hk
    obtain ⟨h4, hv⟩ := hhats k o hk
    refine ⟨h4, ?_⟩
    rw [Nat.zero_add] at hv
    rw [hv, hatOfPOV_eq_hatBucket]

/-- A discovered adapter with at most 2 sliders, 32 buttons and 4 hats fits
the report layout. -/
theorem discovered_fitsReport (device : Nat) (reports : List objectReport)
    (guidInstance : GUID)
    (hs : countKind dinputObjectTypeSlider
      (discoverDInputGamepad device reports guidInstance).dinputObjects ≤ 2)
    (hb : countKind dinputObjectTypeButton
      (discoverDInputGamepad device reports guidInstance).dinputObjects ≤ 32)
    (hp : countKind dinputObjectTypePOV
      (discoverDInputGamepad device reports guidInstance).dinputObjects ≤ 4) :
    (discoverDInputGamepad device reports guidInstance).FitsReport := by
  obtain ⟨la, lb, lh⟩ := discovered_lengths device reports guidInstance
  have hobjs : (discoverDInputGamepad device reports guidInstance).dinputObjects =
      sortObjects (enumObjects reports ⟨device, [], 0, 0, 0, 0⟩).objects := rfl
  have hidx := enumObjects_indexBelow reports ⟨device, [], 0, 0, 0, 0⟩
    (fun x hx => absurd hx (List.not_mem_nil x))
  obtain ⟨_, c2, c3, c4⟩ := enumObjects_countsAgree reports ⟨device, [], 0, 0, 0, 0⟩
    ⟨rfl, rfl, rfl, rfl⟩
  refine ⟨?_, by rw [la], by rw [lb], by rw [lh]⟩
  intro o ho
  rw [hobjs] at ho hs hb hp
  rw [countKind_sortObjects] at hs hb hp
  have := hidx o ((sortObjects_perm _).mem_iff.mp ho)
  rw [c2, c3, c4] at this
  unfold dinputObject.InReport
  cases ht : o.objectType <;> simp only [ht] at this ⊢ <;> omega

/-- C16: for a DirectInput adapter, with the raw results of `Poll`,
`GetDeviceState`, `Acquire`, `Poll`, `GetDeviceState` as inputs, `update`
returns an error exactly when some executed `Poll` or `GetDeviceState` fails
with a code other than not-acquired (0x8007000C) and input-lost
(0x8007001E); it reports a disconnect with no error exactly when the first
report read and, after the one retry cycle, the second report read fail with
one of these two codes; in both cases the adapter is left as it was; the
result of `Acquire` never matters; every poll that succeeds leaves the state
arrays refreshed from the report read; and on every discovered adapter with
at most 2 sliders, 32 buttons and 4 hats the poll succeeds in every other
case. On the adapter discovered for a device with 33 buttons the code
departs from this: with every call succeeding, `update` panics. -/
theorem C16_dinput_poll_outcomes (g : nativeGamepad) (env : pollEnv)
    (hd : g.usesDInput = true) :
    ((∃ r, g.update env = some r ∧ r.err.isSome = true) ↔ env.someCallFailsHard = true) ∧
    ((∃ r, g.update env = some r ∧ r.err = none ∧ r.disconnected = true) ↔
      env.bothReadsTransient = true) ∧
    (∀ r, g.update env = some r → r.err.isSome = true ∨ r.disconnected = true → r.g = g) ∧
    (∀ a : Nat, g.update { env with acquire := a } = g.update env) ∧
    (∀ r, g.update env = some r → r.err = none → r.disconnected = false →
      r.g.RefreshedFrom g env.reportRead) ∧
    (∀ (device : Nat) (reports : List objectReport) (guidInstance : GUID),
      g = discoverDInputGamepad device reports guidInstance →
      countKind dinputObjectTypeSlider g.dinputObjects ≤ 2 →
      countKind dinputObjectTypeButton g.dinputObjects ≤ 32 →
      countKind dinputObjectTypePOV g.dinputObjects ≤ 4 →
      env.someCallFailsHard = false → env.bothReadsTransient = false →
      ∃ r, g.update env = some r ∧ r.err = none ∧ r.disconnected = false ∧
        r.g.RefreshedFrom g env.reportRead) ∧
    (manyButtonsGamepad.usesDInput = true ∧
      countKind dinputObjectTypeButton manyButtonsGamepad.dinputObjects = 33 ∧
      (dinputEnv diJoyState.zero).someCallFailsHard = false ∧
      (dinputEnv diJoyState.zero).bothReadsTransient = false ∧
      (manyButtonsGamepad.update (dinputEnv diJoyState.zero)).isNone = true) := by
  obtain ⟨hf, hdis, hwalk⟩ := update_dinput_eq g env hd
  obtain ⟨cf, cd, cr⟩ := classification_eq env
  rw [cf] at hf hwalk hdis
  rw [cd] at hwalk hdis
  rw [cr] at hwalk
  have hnf : env.bothReadsTransient = true → env.someCallFailsHard = false := by
    intro h
    rw [← cf]
    exact disconnects_not_fatal env (cd ▸ h)
  have hwalk_ok : ∀ r, env.someCallFailsHard = false → env.bothReadsTransient = false →
      g.update env = some r → r.err = none ∧ r.disconnected = false ∧
        r.g.RefreshedFrom g env.reportRead := by
    intro r h1 h2 hr
    rw [hwalk h1 h2, Option.map_eq_some'] at hr
    obtain ⟨w, hw, hr2⟩ := hr
    subst hr2
    exact ⟨rfl, rfl, updateObjects_refreshed _ g w hw⟩
  have hkeep : ∀ r, g.update env = some r → r.err.isSome = true ∨ r.disconnected = true →
      r.g = g := by
    intro r hr hc
    cases h1 : env.someCallFailsHard with
    | true =>
      obtain ⟨e, he2⟩ := hf h1
      rw [he2] at hr
      cases hr
      rfl
    | false =>
      cases h2 : env.bothReadsTransient with
      | true => rw [hdis h1 h2] at hr; cases hr; rfl
      | false =>
        obtain ⟨a, b, _⟩ := hwalk_ok r h1 h2 hr
        rw [a, b] at hc
        rcases hc with hc | hc <;> cases hc
  refine ⟨⟨?_, ?_⟩, ⟨?_, ?_⟩, hkeep, ?_, ?_, ?_,
    ⟨rfl, by decide, by decide, by decide, by decide⟩⟩
  · rintro ⟨r, hr, he⟩
    cases h1 : env.someCallFailsHard with
    | true => rfl
    | false =>
      cases h2 : env.bothReadsTransient with
      | true =>
        rw [hdis h1 h2] at hr
        cases hr
        cases he
      | false =>
        rw [(hwalk_ok r h1 h2 hr).1] at he
        cases he
  · intro h
    obtain ⟨e, he⟩ := hf h
    exact ⟨_, he, rfl⟩
  · rintro ⟨r, hr, he, hdc⟩
    cases h1 : env.someCallFailsHard with
    | true =>
      obtain ⟨e, he2⟩ := hf h1
      rw [he2] at hr
      cases hr
      cases he
    | false =>
      cases h2 : env.bothReadsTransient with
      | true => rfl
      | false =>
        rw [(hwalk_ok r h1 h2 hr).2.1] at hdc
        cases hdc
  · intro h
    exact ⟨_, hdis (hnf h) h, rfl, rfl⟩
  · intro a
    unfold nativeGamepad.update
    rfl
  · intro r hr he hdc
    cases h1 : env.someCallFailsHard with
    | true =>
      obtain ⟨e, he2⟩ := hf h1
      rw [he2] at hr
      cases hr
      cases he
    | false =>
      cases h2 : env.bothReadsTransient with
      | true => rw [hdis h1 h2] at hr; cases hr; cases hdc
      | false => exact (hwalk_ok r h1 h2 hr).2.2
  · intro device reports guidInstance hg hs hb hp h1 h2
    subst hg
    obtain ⟨fr, fa, fb, fh⟩ := discovered_fitsReport device reports guidInstance hs hb hp
    obtain ⟨w, hw⟩ := updateObjects_isSome env.reportRead _ ⟨_, 0, 0, 0⟩ fr
      (by simpa using fa) (by simpa using fb) (by simpa using fh)
    have hr : (discoverDInputGamepad device reports guidInstance).update env =
        some ⟨w.g, none, false⟩ := by
      rw [hwalk h1 h2, hw]
      rfl
    exact ⟨_, hr, rfl, rfl, updateObjects_refreshed _ _ w hw⟩

/-- C16 on the one-hat adapter: two report reads lost to input-lost end in a
disconnect without an error. -/
theorem C16_dinput_poll_outcomes_witness :
    oneHatGamepad.usesDInput = true ∧ lostEnv.bothReadsTransient = true ∧
    ∃ r, oneHatGamepad.update lostEnv = some r ∧ r.err = none ∧ r.disconnected = true :=
  ⟨rfl, by decide,
    (C16_dinput_poll_outcomes oneHatGamepad lostEnv rfl).2.1.mpr (by decide)⟩

end Gamepad
